import Mathlib

/-!
# Siyoga Travel: trip cost and route feasibility

A shallow embedding of `client/src/utils/vehicleUtils.js` and
`client/src/utils/mapUtils.js`, of the validators of
`server/src/utils/helpers.js`, and of the category mapping and the passenger
selector of `client/src/pages/TripPlanner.js` and
`client/src/components/VehicleSelection.js`.

JavaScript numbers are modelled by exact rationals (`ℚ`): `Math.ceil` is
`Int.ceil`, `Math.floor` is `Int.floor`, `Math.round` is `⌊x + 1/2⌋`.
Arithmetic is exact, which it is in the program on whole kilometres, metres
and seconds, with one exception: the duration texts of `formatDuration`
depend on the rounding of binary64 at half-minute ties, so the arithmetic
behind them is rounded operation by operation with `fl64`.  A function that returns
either `{success: true, ...}` or `{success: false, error}` is modelled by
`Except String _`, the error string being the `error` field.
-/

namespace Siyoga

/-! ## vehicleUtils.js -/

/-- One entry of `VEHICLE_CATEGORIES`. -/
structure VehicleCategory where
  id : String
  name : String
  type : String
  passengerCapacity : String
  minPassengers : ℚ
  maxPassengers : ℚ
  driverRate : ℚ
  systemRate : ℚ
  features : List String
  examples : List String
  description : String
  deriving DecidableEq

/-- The first entry of `VEHICLE_CATEGORIES`, id `cars`. -/
def cars : VehicleCategory :=
  { id := "cars", name := "Cars", type := "car",
    passengerCapacity := "1-4 passengers",
    minPassengers := 1, maxPassengers := 4,
    driverRate := 110, systemRate := 130,
    features := ["Fuel efficient", "Comfortable for small groups",
      "Suitable for city travel", "Air Conditioning"],
    examples := ["Toyota Corolla, Axio, Prius, Aqua, Vitz",
      "Suzuki Alto, Wagon R, Swift, Maruti, Celerio",
      "Honda Fit (Jazz), Grace",
      "Nissan Leaf, March, Sunny, X-Trail"],
    description := "Comfortable sedans suitable for small groups" }

/-- The second entry of `VEHICLE_CATEGORIES`, id `kdh_flat_roof`. -/
def kdh_flat_roof : VehicleCategory :=
  { id := "kdh_flat_roof", name := "KDH Flat Roof", type := "van",
    passengerCapacity := "6-10 passengers",
    minPassengers := 6, maxPassengers := 10,
    driverRate := 125, systemRate := 145,
    features := ["Spacious interior", "Comfortable for long journeys",
      "Ample luggage space", "Air Conditioning"],
    examples := ["Toyota HiAce KDH", "Hyundai H1"],
    description := "Spacious vans ideal for medium-sized groups" }

/-- The third entry of `VEHICLE_CATEGORIES`, id `kdh_high_roof`. -/
def kdh_high_roof : VehicleCategory :=
  { id := "kdh_high_roof", name := "KDH High Roof", type := "van",
    passengerCapacity := "6-12 passengers",
    minPassengers := 6, maxPassengers := 12,
    driverRate := 135, systemRate := 160,
    features := ["Spacious interior", "Comfortable for long journeys",
      "Ample luggage space", "Air Conditioning"],
    examples := ["Toyota HiAce KDH", "Hyundai H1"],
    description := "Spacious vans ideal for medium-sized groups" }

/-- The fourth entry of `VEHICLE_CATEGORIES`, id `other_vans`. -/
def other_vans : VehicleCategory :=
  { id := "other_vans", name := "Other Vans", type := "van",
    passengerCapacity := "6-10 passengers",
    minPassengers := 6, maxPassengers := 10,
    driverRate := 120, systemRate := 145,
    features := ["Spacious interior", "Comfortable for long journeys",
      "Ample luggage space", "Air Conditioning"],
    examples := ["Toyota Noah, Vellfire, Alphard", "Suzuki Every",
      "Mercedes V-Class, Sprinter", "Nissan Caravan"],
    description := "Spacious vans ideal for medium-sized groups" }

/-- The fifth entry of `VEHICLE_CATEGORIES`, id `mini_buses`. -/
def mini_buses : VehicleCategory :=
  { id := "mini_buses", name := "Mini Buses", type := "mini_bus",
    passengerCapacity := "12-25 passengers",
    minPassengers := 12, maxPassengers := 25,
    driverRate := 180, systemRate := 210,
    features := ["Large seating capacity", "Comfortable for group travel",
      "Spacious luggage area", "Air Conditioning"],
    examples := ["Mitsubishi Rosa, Fuso Rosa", "Toyota Coaster",
      "Nissan Civilian", "Hyundai County"],
    description := "Large buses perfect for big groups and long trips" }

/-- The table `VEHICLE_CATEGORIES`, in source order. -/
def VEHICLE_CATEGORIES : List VehicleCategory :=
  [cars, kdh_flat_roof, kdh_high_roof, other_vans, mini_buses]

/-- The object `ACCOMMODATION_COSTS`, read at a numeric key: the property
lookup `ACCOMMODATION_COSTS[k]` is defined for the keys 1, 2 and 3 only and
is `undefined` (here `none`) at every other number. -/
def ACCOMMODATION_COSTS (k : ℚ) : Option ℚ :=
  if k = 1 then some 3000
  else if k = 2 then some 5000
  else if k = 3 then some 7000
  else none

/-- JavaScript `a || b` where `a` is a number or `undefined`: `b` is taken
when `a` is `undefined` or the falsy number 0. -/
def orElseNum (a : Option ℚ) (b : ℚ) : ℚ :=
  match a with
  | some x => if x = 0 then b else x
  | none => b

/-- The success object of `calculateTripCost`, without its `breakdown` of
display strings. -/
structure TripCost where
  mapDistance : ℚ
  practicalDistance : ℚ
  roundedDistance : ℚ
  vehicle : String
  ratePerKm : ℚ
  baseCost : ℚ
  accommodationCost : ℚ
  totalCost : ℚ
  deriving DecidableEq

/-- The function `calculateTripCost(mapDistance, vehicleId, tripDays,
accommodationProvided)`.  The `throw` inside the `try` block is caught by
the function's own `catch`, which returns `{success: false, error:
error.message}`: this is the `Except.error` result.  The default arguments
`tripDays = 1` and `accommodationProvided = true` are passed explicitly. -/
def calculateTripCost (mapDistance : ℚ) (vehicleId : String) (tripDays : ℚ)
    (accommodationProvided : Bool) : Except String TripCost :=
  match VEHICLE_CATEGORIES.find? (fun v => v.id == vehicleId) with
  | none => Except.error "Vehicle category not found"
  | some vehicle =>
    let practicalDistance := mapDistance + 10
    let roundedDistance : ℚ := (⌈practicalDistance / 10⌉ : ℤ) * 10
    let baseCost := roundedDistance * vehicle.systemRate
    let accommodationCost : ℚ :=
      if !accommodationProvided && decide (tripDays > 1) then
        let nights := tripDays - 1
        orElseNum (ACCOMMODATION_COSTS (min nights 3)) (nights * 2500)
      else 0
    let totalCost := baseCost + accommodationCost
    Except.ok
      { mapDistance := mapDistance
        practicalDistance := practicalDistance
        roundedDistance := roundedDistance
        vehicle := vehicle.name
        ratePerKm := vehicle.systemRate
        baseCost := baseCost
        accommodationCost := accommodationCost
        totalCost := totalCost }

/-- The function `getSuitableVehicles(passengerCount)`. -/
def getSuitableVehicles (passengerCount : ℚ) : List VehicleCategory :=
  VEHICLE_CATEGORIES.filter (fun vehicle =>
    decide (passengerCount ≥ vehicle.minPassengers) &&
      decide (passengerCount ≤ vehicle.maxPassengers))

/-- The accommodation charge as `calculateTripCost` computes it (the `let
accommodationCost` block), named for use in the statements below. -/
def accommodationCharge (tripDays : ℚ) (accommodationProvided : Bool) : ℚ :=
  if !accommodationProvided && decide (tripDays > 1) then
    orElseNum (ACCOMMODATION_COSTS (min (tripDays - 1) 3)) ((tripDays - 1) * 2500)
  else 0

/-! ## mapUtils.js

The network lives behind a parameter: `fetch origin destination w` is the
outcome of `fetch(url)` followed by `response.json()` for the Distance Matrix
URL built from the two addresses, in the world state `w`, together with the
next world state.  Calls to `console.log` and `console.error` are left out. -/

/-- JavaScript `Math.round`: the nearest integer, halves going up. -/
def jsRound (x : ℚ) : ℤ := ⌊x + 1 / 2⌋

/-- JavaScript `a % b` on numbers with `b ≠ 0`: the remainder that takes the
sign of the dividend, `a - b * trunc(a / b)`. -/
def jsRem (a b : ℚ) : ℚ :=
  a - b * (if 0 ≤ a / b then (⌊a / b⌋ : ℤ) else (⌈a / b⌉ : ℤ))

/-- Decimal digits of the fractional part `r / den` (with `r < den`), at most
`fuel` of them. -/
def fractionDigits : Nat → Nat → Nat → List Char
  | 0, _, _ => []
  | fuel + 1, r, den =>
    if r = 0 then []
    else Nat.digitChar (r * 10 / den) :: fractionDigits fuel (r * 10 % den) den

/-- Conversion of a number to a string, as in a template literal.  An integer
is printed in decimal, as JavaScript does for integers below `1e21`.  Another
number is printed with its exact decimal expansion, cut after 20 fractional
digits; this agrees with JavaScript for short terminating decimals such as
`1.5`, and is an idealisation elsewhere. -/
def numberToString (x : ℚ) : String :=
  if x.den = 1 then toString x.num
  else
    (if x < 0 then "-" else "") ++ toString (x.num.natAbs / x.den) ++ "." ++
      String.mk (fractionDigits 20 (x.num.natAbs % x.den) x.den)

/-- JavaScript `s.padStart(2, '0')`. -/
def padStart2 (s : String) : String :=
  String.mk (List.replicate (2 - s.length) '0') ++ s

/-- The characters that `trim` and `Number` treat as white space (the ASCII
ones). -/
def isSpaceChar (c : Char) : Bool :=
  c = ' ' || c = '\t' || c = '\n' || c = '\r'

/-- JavaScript `Number(s)` on a string, `none` standing for `NaN`.  The model
covers strings of decimal digits, possibly empty (value 0) and possibly
surrounded by white space; every other string is mapped to `NaN`, which is
exact for text that is no numeric literal and leaves signed, fractional,
exponent and hexadecimal literals outside the model. -/
def jsNumber (s : String) : Option ℚ :=
  let cs := ((s.data.dropWhile isSpaceChar).reverse.dropWhile isSpaceChar).reverse
  if cs.all Char.isDigit then
    some ((cs.foldl (fun n c => 10 * n + (c.toNat - '0'.toNat)) 0 : ℕ) : ℚ)
  else none

/-- Splitting of a character list at every `':'`, for `s.split(':')`. -/
def splitColon : List Char → List (List Char)
  | [] => [[]]
  | c :: cs =>
    match splitColon cs with
    | [] => [[c]]
    | p :: ps => if c = ':' then [] :: p :: ps else (c :: p) :: ps

/-- The function `calculateEndTime(startTime, durationHours)`.  When the
start time does not yield two numbers the arithmetic is on `NaN` and the
result is `'NaN:NaN'`. -/
def calculateEndTime (startTime : String) (durationHours : ℚ) : String :=
  match (splitColon startTime.data).map (fun p => jsNumber (String.mk p)) with
  | some hours :: some minutes :: _ =>
    let startMinutes := hours * 60 + minutes
    let endMinutes := startMinutes + durationHours * 60
    let endHours := jsRem ((⌊endMinutes / 60⌋ : ℤ) : ℚ) 24
    let endMins : ℚ := (jsRound (jsRem endMinutes 60) : ℤ)
    padStart2 (numberToString endHours) ++ ":" ++ padStart2 (numberToString endMins)
  | _ => "NaN:NaN"

/-- Rounding of a number to the nearest integer, halves going to the even
neighbour: the rounding of the binary64 significand. -/
def roundHalfEven (y : ℚ) : ℤ :=
  if y - (⌊y⌋ : ℤ) < 1 / 2 then ⌊y⌋
  else if 1 / 2 < y - (⌊y⌋ : ℤ) then ⌊y⌋ + 1
  else if ⌊y⌋ % 2 = 0 then ⌊y⌋
  else ⌊y⌋ + 1

/-- The binary64 number nearest to `x` (round to nearest, ties to even): the
value that a JavaScript `+`, `-`, `*` or `/` returns when its exact result is
`x`.  The significand has 53 bits; the exponent is not bounded, so overflow
to `Infinity` and subnormal numbers are left out, neither of which occurs for
the durations of this program. -/
def fl64 (x : ℚ) : ℚ :=
  if x = 0 then 0
  else (roundHalfEven (x / (2 : ℚ) ^ (Int.log 2 |x| - 52)) : ℚ) * (2 : ℚ) ^ (Int.log 2 |x| - 52)

/-- The function `formatDuration(hours)`, for a binary64 argument.  The
subtraction and the multiplication of `(hours - wholeHours) * 60` are rounded
to binary64; `Math.floor` and `Math.round` are exact. -/
def formatDuration (hours : ℚ) : String :=
  let wholeHours : ℚ := (⌊hours⌋ : ℤ)
  let minutes : ℚ := (jsRound (fl64 (fl64 (hours - wholeHours) * 60)) : ℤ)
  if wholeHours > 0 ∧ minutes > 0 then
    numberToString wholeHours ++ " hours " ++ numberToString minutes ++ " mins"
  else if wholeHours > 0 then
    numberToString wholeHours ++ " hours"
  else
    numberToString minutes ++ " mins"

/-- The object returned by `calculateTripDetails`. -/
structure TripDetails where
  daysNeeded : ℚ
  endTime : String
  feasible : Bool
  recommendation : String
  deriving DecidableEq

/-- The function `calculateTripDetails(totalHours, startTime)`. -/
def calculateTripDetails (totalHours : ℚ) (startTime : String) : TripDetails :=
  let daysNeeded : ℚ := if totalHours > 12 then ((⌈totalHours / 12⌉ : ℤ) : ℚ) else 1
  let endTime := calculateEndTime startTime totalHours
  { daysNeeded := daysNeeded
    endTime := endTime
    feasible := decide (totalHours ≤ 24)
    recommendation :=
      if totalHours > 12 then "This trip will require overnight accommodation"
      else "This trip can be completed in one day" }

/-- A `{text, value}` object of the Distance Matrix response. -/
structure Measure where
  text : String
  value : ℚ
  deriving DecidableEq

/-- One element of a row of the Distance Matrix response; `distance` and
`duration` may be absent. -/
structure MatrixElement where
  status : String
  distance : Option Measure
  duration : Option Measure
  deriving DecidableEq

/-- The parsed JSON body of a Distance Matrix response; a row is its list of
`elements`. -/
structure MatrixData where
  status : String
  rows : List (List MatrixElement)
  origin_addresses : List String
  destination_addresses : List String
  deriving DecidableEq

/-- What `await fetch(url)` followed by `await response.json()` does: it
throws, or it yields the parsed body. -/
inductive FetchOutcome where
  | threw
  | json (data : MatrixData)
  deriving DecidableEq

/-- The distance provider over world states `σ`. -/
abbrev Fetch (σ : Type) := String → String → σ → FetchOutcome × σ

/-- The success object of `calculateSegmentDistance`. -/
structure SegmentDistance where
  distance : Option Measure
  duration : Option Measure
  originAddress : Option String
  destinationAddress : Option String
  deriving DecidableEq

/-- The function `calculateSegmentDistance(origin, destination)`.  Reading
`data.rows[0].elements[0]` in a body that has no first row or no first
element throws, and the `catch` turns that, like a failed fetch, into the
network error. -/
def calculateSegmentDistance {σ : Type} (fetch : Fetch σ) (origin destination : String)
    (w : σ) : Except String SegmentDistance × σ :=
  match fetch origin destination w with
  | (FetchOutcome.threw, w1) => (Except.error "Network error while calculating distance", w1)
  | (FetchOutcome.json data, w1) =>
    if data.status = "OK" then
      match data.rows with
      | (element :: _) :: _ =>
        if element.status = "OK" then
          (Except.ok
            { distance := element.distance
              duration := element.duration
              originAddress := data.origin_addresses.head?
              destinationAddress := data.destination_addresses.head? }, w1)
        else
          (Except.error
            ("Failed to calculate distance between " ++ origin ++ " and " ++ destination), w1)
      | _ => (Except.error "Network error while calculating distance", w1)
    else
      (Except.error
        ("Failed to calculate distance between " ++ origin ++ " and " ++ destination), w1)

/-- The `options` argument of `calculateRouteDistance`, with the defaults of
its destructuring. -/
structure RouteOptions where
  isReturnTrip : Bool := false
  startTime : String := "09:00"
  additionalStopTime : ℚ := 3

/-- One entry of `segments`. -/
structure Segment where
  «from» : String
  «to» : String
  distance : Measure
  duration : Measure
  index : ℚ
  deriving DecidableEq

/-- The three accumulators of the loop of `calculateRouteDistance`;
`totalDistance` is in metres and `totalDuration` in seconds. -/
structure RouteTotals where
  segments : List Segment
  totalDistance : ℚ
  totalDuration : ℚ
  deriving DecidableEq

/-- The `for` loop of `calculateRouteDistance`, from index `i` on: `rest` is
`routeLocations` from position `i`, and `n` is `routeLocations.length`.  A
failed segment is returned as it is; a segment result without `distance` or
`duration` makes `.value` throw, which the `catch` of `calculateRouteDistance`
turns into its own error. -/
def routeLoop {σ : Type} (fetch : Fetch σ) (additionalStopTime : ℚ) (n : ℕ) :
    ℕ → List String → RouteTotals → σ → Except String RouteTotals × σ
  | i, origin :: destination :: rest, acc, w =>
    match calculateSegmentDistance fetch origin destination w with
    | (Except.error e, w1) => (Except.error e, w1)
    | (Except.ok segmentResult, w1) =>
      match segmentResult.distance, segmentResult.duration with
      | some distance, some duration =>
        let segments := acc.segments ++
          [{ «from» := origin, «to» := destination, distance := distance,
             duration := duration, index := (i : ℚ) + 1 }]
        let totalDistance := acc.totalDistance + distance.value
        let totalDuration := acc.totalDuration + duration.value
        let totalDuration :=
          if (i : ℚ) < (n : ℚ) - 2 then totalDuration + additionalStopTime * 3600
          else totalDuration
        routeLoop fetch additionalStopTime n (i + 1) (destination :: rest)
          { segments := segments, totalDistance := totalDistance,
            totalDuration := totalDuration } w1
      | _, _ =>
        (Except.error "Failed to calculate route distance. Please try again.", w1)
  | _, _, acc, w => (Except.ok acc, w)

/-- One entry of `breakdown.segments`. -/
structure SegmentText where
  «from» : String
  «to» : String
  distance : String
  duration : String
  deriving DecidableEq

/-- The `breakdown` object of the route result. -/
structure RouteBreakdown where
  segments : List SegmentText
  totalDistance : String
  totalDuration : String
  tripType : String
  deriving DecidableEq

/-- The `feasibility` object of the route result. -/
structure Feasibility where
  tripType : String
  distance : String
  drivingTime : String
  stopTime : String
  totalDuration : String
  deriving DecidableEq

/-- The `schedule` object of the route result. -/
structure Schedule where
  startTime : String
  estimatedEndTime : String
  daysNeeded : ℚ
  deriving DecidableEq

/-- The success object of `calculateRouteDistance`. -/
structure RouteResult where
  totalDistance : ℚ
  totalDuration : ℚ
  segments : List Segment
  tripDetails : TripDetails
  breakdown : RouteBreakdown
  feasibility : Feasibility
  schedule : Schedule
  deriving DecidableEq

/-- The part of `calculateRouteDistance` after its loop: the success object
built from the accumulated totals.  The numbers of the object are exact; the
duration texts are made from binary64 values, as the program makes them: the
quotient `totalDuration / 3600` and the difference
`totalDuration / 3600 - additionalStopTime * (segments.length - 1)` are
rounded operation by operation before `formatDuration` reads them. -/
def routeSummary (options : RouteOptions) (acc : RouteTotals) : RouteResult :=
  let totalDistanceKm : ℚ := (jsRound (acc.totalDistance / 1000) : ℤ)
  let totalDurationHours := acc.totalDuration / 3600
  let tripDetails := calculateTripDetails totalDurationHours options.startTime
  let tripType := if options.isReturnTrip then "Return Trip" else "One-way Trip"
  let segmentCount : ℚ := (acc.segments.length : ℚ)
  { totalDistance := totalDistanceKm
    totalDuration := totalDurationHours
    segments := acc.segments
    tripDetails := tripDetails
    breakdown :=
      { segments := acc.segments.map (fun seg =>
          { «from» := seg.from
            «to» := seg.to
            distance := numberToString (jsRound (seg.distance.value / 1000) : ℤ) ++ " km"
            duration := numberToString (jsRound (seg.duration.value / 60) : ℤ) ++ " mins" })
        totalDistance := numberToString totalDistanceKm ++ " km"
        totalDuration := formatDuration (fl64 totalDurationHours)
        tripType := tripType }
    feasibility :=
      { tripType := tripType
        distance := numberToString totalDistanceKm ++ " km"
        drivingTime := formatDuration
          (fl64 (fl64 (acc.totalDuration / 3600) -
            fl64 (options.additionalStopTime * (segmentCount - 1))))
        stopTime :=
          if segmentCount > 1 then
            numberToString (options.additionalStopTime * (segmentCount - 1)) ++ " hours"
          else "No stops"
        totalDuration := formatDuration (fl64 totalDurationHours) }
    schedule :=
      { startTime := options.startTime
        estimatedEndTime := calculateEndTime options.startTime totalDurationHours
        daysNeeded := tripDetails.daysNeeded } }

/-- The list `routeLocations`: the locations, followed by the first of them
on a return trip. -/
def routeLocations (locations : List String) (isReturnTrip : Bool) : List String :=
  if isReturnTrip then locations ++ locations.head?.toList else locations

/-- The function `calculateRouteDistance(locations, options)`; `none` is a
missing `locations` argument. -/
def calculateRouteDistance {σ : Type} (fetch : Fetch σ) (locations : Option (List String))
    (options : RouteOptions) (w : σ) : Except String RouteResult × σ :=
  match locations with
  | none => (Except.error "At least origin and one destination are required", w)
  | some locations =>
    if locations.length < 2 then
      (Except.error "At least origin and one destination are required", w)
    else
      let route := routeLocations locations options.isReturnTrip
      match routeLoop fetch options.additionalStopTime route.length 0 route
          { segments := [], totalDistance := 0, totalDuration := 0 } w with
      | (Except.error e, w1) => (Except.error e, w1)
      | (Except.ok acc, w1) => (Except.ok (routeSummary options acc), w1)

/-! ## A provider for the end-to-end scenarios -/

/-- The body of a Distance Matrix response with one row and one `OK` element
carrying the given distance (metres) and duration (seconds). -/
def okBody (distance duration : ℚ) : MatrixData :=
  { status := "OK"
    rows := [[{ status := "OK"
                distance := some { text := numberToString distance ++ " m", value := distance }
                duration := some { text := numberToString duration ++ " s", value := duration } }]]
    origin_addresses := []
    destination_addresses := [] }

/-- A stateless provider given by a table of legs `(origin, destination,
metres, seconds)`: a listed leg is answered with `okBody`, any other leg with
an element of status `NOT_FOUND`. -/
def tableFetch (table : List (String × String × ℚ × ℚ)) : Fetch Unit :=
  fun origin destination w =>
    match table.find? (fun e => e.1 == origin && e.2.1 == destination) with
    | some e => (FetchOutcome.json (okBody e.2.2.1 e.2.2.2), w)
    | none =>
      (FetchOutcome.json
        { status := "OK"
          rows := [[{ status := "NOT_FOUND", distance := none, duration := none }]]
          origin_addresses := []
          destination_addresses := [] }, w)

/-- The provider of scenarios A and B: Colombo to Kandy is 115 km in 3 h,
Kandy to Ella is 140 km in 4 h. -/
def scenarioFetch : Fetch Unit :=
  tableFetch [("Colombo", "Kandy", 115000, 10800), ("Kandy", "Ella", 140000, 14400)]

/-- The segment `g` carries what the provider answered for its leg: in some
world state the provider, asked for `g.from` and `g.to`, returned a body
whose first element holds exactly the distance and the duration of `g`. -/
def ProviderAnswered {σ : Type} (fetch : Fetch σ) (g : Segment) : Prop :=
  ∃ (w0 w1 : σ) (data : MatrixData) (element : MatrixElement)
    (others : List MatrixElement) (rows : List (List MatrixElement)),
    fetch g.from g.to w0 = (FetchOutcome.json data, w1) ∧
    data.rows = (element :: others) :: rows ∧
    element.distance = some g.distance ∧ element.duration = some g.duration

/-! ## Specification vocabulary for the route claims -/

/-- The loop's view of a run over the stops `l` from leg index `i`: the
provider is asked once for every consecutive pair, in order, each time in the
world state the previous call left; every reply is `OK` with a first element
that is `OK`, and the segment listed for the leg records the two stops, the
leg number and that element's distance and duration.  The last two arguments
are the world states before the first and after the last call. -/
def LegsAnswered {σ : Type} (fetch : Fetch σ) :
    List String → ℕ → List Segment → σ → σ → Prop
  | a :: b :: rest, i, g :: gs, w, w' =>
    g.from = a ∧ g.to = b ∧ g.index = (i : ℚ) + 1 ∧
    ∃ (w1 : σ) (data : MatrixData) (element : MatrixElement)
      (others : List MatrixElement) (rows : List (List MatrixElement)),
      fetch a b w = (FetchOutcome.json data, w1) ∧
      data.status = "OK" ∧ data.rows = (element :: others) :: rows ∧
      element.status = "OK" ∧
      element.distance = some g.distance ∧ element.duration = some g.duration ∧
      LegsAnswered fetch (b :: rest) (i + 1) gs w1 w'
  | [_], _, [], w, w' => w' = w
  | [], _, [], w, w' => w' = w
  | _, _, _, _, _ => False

/-- JavaScript `s.trim()`, for the ASCII white space of `isSpaceChar`. -/
def jsTrim (s : String) : String :=
  String.mk ((s.data.dropWhile isSpaceChar).reverse.dropWhile isSpaceChar).reverse

/-- Whether the text `t` occurs in the text `s`. -/
def containsText (s t : String) : Bool :=
  s.data.tails.any (fun tl => t.data.isPrefixOf tl)

/-- A provider that keeps a log of the legs it was asked for: it answers like
`tableFetch table` and appends the leg to the log. -/
def loggingFetch (table : List (String × String × ℚ × ℚ)) : Fetch (List (String × String)) :=
  fun origin destination log =>
    ((tableFetch table origin destination ()).1, log ++ [(origin, destination)])

/-- A provider without network: every request throws; the legs asked for are
logged. -/
def offlineFetch : Fetch (List (String × String)) :=
  fun origin destination log => (FetchOutcome.threw, log ++ [(origin, destination)])

/-- A logging provider that knows the legs Colombo to Kandy and Atlantis to
Ella, and no leg from Kandy to Atlantis. -/
def brokenLegFetch : Fetch (List (String × String)) :=
  loggingFetch [("Colombo", "Kandy", 115000, 10800), ("Atlantis", "Ella", 1000, 60)]

/-- A stateless provider that knows one leg, from Colombo to a stop made of
three blanks. -/
def blankStopFetch : Fetch Unit :=
  tableFetch [("Colombo", "   ", 1000, 60)]

/-- A stateless provider with two legs of 1400 m each. -/
def shortLegsFetch : Fetch Unit :=
  tableFetch [("Fort", "Pettah", 1400, 300), ("Pettah", "Maradana", 1400, 300)]

/-- A stateless provider whose single leg, Colombo to Kandy, takes 3599
seconds. -/
def oddSecondsFetch : Fetch Unit :=
  tableFetch [("Colombo", "Kandy", 115000, 3599)]

/-! ## server/src/utils/helpers.js: the validators

The regular expressions of `isValidPassword` and `isValidPhone` are written
in a small abstract syntax and run by a backtracking matcher.  A string is
its list of characters; the patterns below admit ASCII characters only (or,
for `.`, anything but a line terminator), so that reading a string by code
points or by UTF-16 units makes no difference. -/

/-- The fragment of regular expressions used by the validators. -/
inductive Re where
  /-- A single character of a class, such as `[a-z]`, `\d` or `\+`. -/
  | cls (p : Char → Bool)
  /-- The empty pattern. -/
  | eps
  /-- Concatenation. -/
  | seq (a b : Re)
  /-- Alternation `a|b`. -/
  | alt (a b : Re)
  /-- Repetition `X*` of a single-character class. -/
  | star (p : Char → Bool)
  /-- Positive look-ahead `(?=a)`. -/
  | lookahead (a : Re)
  /-- The anchor `^` (no `m` flag: start of input). -/
  | bol
  /-- The anchor `$` (no `m` flag: end of input). -/
  | eol

/-- Matching of `X*` with continuation `k`: the longest run first, then the
shorter ones.  The flag tells whether the position is the start of the
input. -/
def starRun (p : Char → Bool) (k : Bool → List Char → Bool) : Bool → List Char → Bool
  | s, [] => k s []
  | s, c :: rest => (p c && starRun p k false rest) || k s (c :: rest)

/-- The backtracking matcher: `r.run atStart cs k` tells whether `r` matches
a prefix of `cs` such that the continuation `k` accepts what follows. -/
def Re.run : Re → Bool → List Char → (Bool → List Char → Bool) → Bool
  | Re.cls p, _, c :: rest, k => p c && k false rest
  | Re.cls _, _, [], _ => false
  | Re.eps, s, cs, k => k s cs
  | Re.seq a b, s, cs, k => a.run s cs (fun s1 r => b.run s1 r k)
  | Re.alt a b, s, cs, k => a.run s cs k || b.run s cs k
  | Re.star p, s, cs, k => starRun p k s cs
  | Re.lookahead a, s, cs, k => a.run s cs (fun _ _ => true) && k s cs
  | Re.bol, s, cs, k => s && k s cs
  | Re.eol, s, cs, k => cs.isEmpty && k s cs

/-- The pattern `r{n}`. -/
def Re.rep (r : Re) : ℕ → Re
  | 0 => Re.eps
  | n + 1 => Re.seq r (Re.rep r n)

/-- The search of `test`: a match is tried at every position, from the left. -/
def Re.search (r : Re) : Bool → List Char → Bool
  | s, [] => r.run s [] (fun _ _ => true)
  | s, c :: rest => r.run s (c :: rest) (fun _ _ => true) || Re.search r false rest

/-- The method `RegExp.prototype.test` for a pattern without flags. -/
def Re.test (r : Re) (s : String) : Bool := Re.search r true s.data

/-- The class `[a-z]`. -/
def isLowerAZ (c : Char) : Bool := decide ('a' ≤ c) && decide (c ≤ 'z')

/-- The class `[A-Z]`. -/
def isUpperAZ (c : Char) : Bool := decide ('A' ≤ c) && decide (c ≤ 'Z')

/-- The class `\d`, which is `[0-9]`. -/
def isDigit09 (c : Char) : Bool := decide ('0' ≤ c) && decide (c ≤ '9')

/-- The class `.` (no `s` flag): any character but a line terminator. -/
def isDot (c : Char) : Bool :=
  !(c = '\n' || c = '\r' || c = Char.ofNat 0x2028 || c = Char.ofNat 0x2029)

/-- The class `[a-zA-Z\d@$!%*?&]`. -/
def isPasswordChar (c : Char) : Bool :=
  isLowerAZ c || isUpperAZ c || isDigit09 c ||
    c = '@' || c = '$' || c = '!' || c = '%' || c = '*' || c = '?' || c = '&'

/-- The pattern `/^(?=.*[a-z])(?=.*[A-Z])(?=.*\d)[a-zA-Z\d@$!%*?&]{8,}$/`. -/
def passwordRegex : Re :=
  Re.seq Re.bol
    (Re.seq (Re.lookahead (Re.seq (Re.star isDot) (Re.cls isLowerAZ)))
      (Re.seq (Re.lookahead (Re.seq (Re.star isDot) (Re.cls isUpperAZ)))
        (Re.seq (Re.lookahead (Re.seq (Re.star isDot) (Re.cls isDigit09)))
          (Re.seq (Re.seq (Re.rep (Re.cls isPasswordChar) 8) (Re.star isPasswordChar))
            Re.eol))))

/-- The function `isValidPassword(password)`. -/
def isValidPassword (password : String) : Bool := passwordRegex.test password

/-- The pattern `/^(\+94|0)[0-9]{9}$/`. -/
def phoneRegex : Re :=
  Re.seq Re.bol
    (Re.seq
      (Re.alt
        (Re.seq (Re.cls (fun c => c = '+'))
          (Re.seq (Re.cls (fun c => c = '9')) (Re.cls (fun c => c = '4'))))
        (Re.cls (fun c => c = '0')))
      (Re.seq (Re.rep (Re.cls isDigit09) 9) Re.eol))

/-- The function `isValidPhone(phone)`. -/
def isValidPhone (phone : String) : Bool := phoneRegex.test phone

/-- The password rule of `registerValidation` in `routes/auth.js`:
`isLength({ min: 8 })` and `matches(/^(?=.*[a-z])(?=.*[A-Z])(?=.*\d)/)`. -/
def registerPasswordRule (password : String) : Bool :=
  decide (8 ≤ password.length) &&
    Re.test
      (Re.seq Re.bol
        (Re.seq (Re.lookahead (Re.seq (Re.star isDot) (Re.cls isLowerAZ)))
          (Re.seq (Re.lookahead (Re.seq (Re.star isDot) (Re.cls isUpperAZ)))
            (Re.lookahead (Re.seq (Re.star isDot) (Re.cls isDigit09))))))
      password

/-! ## TripPlanner.js and VehicleSelection.js: the parts the claims name -/

/-- The object `categoryMapping` of `proceedToBooking`, read at a vehicle id:
`none` is `undefined`. -/
def categoryMapping (id : String) : Option ℚ :=
  if id = "cars" then some 1
  else if id = "kdh_flat_roof" then some 2
  else if id = "kdh_high_roof" then some 3
  else if id = "other_vans" then some 4
  else if id = "mini_buses" then some 5
  else none

/-- The test `!selectedCategoryId` of `proceedToBooking`, which leads to the
error `'Invalid vehicle category selected'`: the looked-up value is
`undefined` or the falsy number 0. -/
def invalidCategorySelected (id : String) : Bool :=
  match categoryMapping id with
  | none => true
  | some k => decide (k = 0)

/-- The field `driverAccommodationProvided` of the booking payload:
`costBreakdown.accommodationCost === 0`. -/
def driverAccommodationProvided (costBreakdown : TripCost) : Bool :=
  decide (costBreakdown.accommodationCost = 0)

/-- The passenger counts that the selector of `VehicleSelection` offers. -/
def passengerOptions : List ℚ :=
  [1, 2, 3, 4, 5, 6, 7, 8, 9, 10, 11, 12, 13, 14, 15, 16, 17, 18, 19, 20, 21, 22, 23, 24, 25]

/-- A stateless provider that knows the way from Colombo to Kandy and back,
115 km in 3 h each. -/
def roundTripFetch : Fetch Unit :=
  tableFetch [("Colombo", "Kandy", 115000, 10800), ("Kandy", "Colombo", 115000, 10800)]

/-- A stateless provider whose second leg ends on a half minute: Colombo to
Kandy takes 10800 s, Kandy to Ella 14430 s. -/
def halfMinuteFetch : Fetch Unit :=
  tableFetch [("Colombo", "Kandy", 115000, 10800), ("Kandy", "Ella", 140000, 14430)]

/-! ## Lemmas on the fare calculation -/

theorem mem_table_iff (v : VehicleCategory) :
    v ∈ VEHICLE_CATEGORIES ↔
      v = cars ∨ v = kdh_flat_roof ∨ v = kdh_high_roof ∨ v = other_vans ∨ v = mini_buses := by
  simp [VEHICLE_CATEGORIES]

theorem cars_mem : cars ∈ VEHICLE_CATEGORIES := by simp [VEHICLE_CATEGORIES]

theorem mini_buses_mem : mini_buses ∈ VEHICLE_CATEGORIES := by simp [VEHICLE_CATEGORIES]

theorem find_of_mem {v : VehicleCategory} (hv : v ∈ VEHICLE_CATEGORIES) :
    VEHICLE_CATEGORIES.find? (fun w => w.id == v.id) = some v := by
  rcases (mem_table_iff v).mp hv with rfl | rfl | rfl | rfl | rfl <;> rfl

theorem systemRate_pos {v : VehicleCategory} (hv : v ∈ VEHICLE_CATEGORIES) :
    0 < v.systemRate := by
  rcases (mem_table_iff v).mp hv with rfl | rfl | rfl | rfl | rfl <;>
    norm_num [cars, kdh_flat_roof, kdh_high_roof, other_vans, mini_buses]

theorem driverRate_lt_systemRate {v : VehicleCategory} (hv : v ∈ VEHICLE_CATEGORIES) :
    v.driverRate < v.systemRate := by
  rcases (mem_table_iff v).mp hv with rfl | rfl | rfl | rfl | rfl <;>
    norm_num [cars, kdh_flat_roof, kdh_high_roof, other_vans, mini_buses]

/-- Evaluation of `Math.ceil` at a number between `z - 1` and `z`. -/
theorem ceil_eval {x : ℚ} {z : ℤ} (h1 : (z : ℚ) - 1 < x) (h2 : x ≤ z) : ⌈x⌉ = z :=
  Int.ceil_eq_iff.mpr ⟨h1, h2⟩

/-- On a table category the function succeeds, and this is its result. -/
theorem calculateTripCost_of_mem {v : VehicleCategory} (hv : v ∈ VEHICLE_CATEGORIES)
    (d t : ℚ) (a : Bool) :
    calculateTripCost d v.id t a = Except.ok
      { mapDistance := d
        practicalDistance := d + 10
        roundedDistance := (⌈(d + 10) / 10⌉ : ℤ) * 10
        vehicle := v.name
        ratePerKm := v.systemRate
        baseCost := (⌈(d + 10) / 10⌉ : ℤ) * 10 * v.systemRate
        accommodationCost := accommodationCharge t a
        totalCost := (⌈(d + 10) / 10⌉ : ℤ) * 10 * v.systemRate + accommodationCharge t a } := by
  simp only [calculateTripCost, find_of_mem hv, accommodationCharge]

theorem accommodationCharge_provided (t : ℚ) : accommodationCharge t true = 0 := by
  simp [accommodationCharge]

theorem accommodationCharge_single_day {t : ℚ} (ht : t ≤ 1) (a : Bool) :
    accommodationCharge t a = 0 := by
  have h : ¬ (t > 1) := not_lt.mpr ht
  simp [accommodationCharge, h]

theorem accommodationCharge_capped {t : ℚ} (ht : 4 ≤ t) :
    accommodationCharge t false = 7000 := by
  have h1 : t > 1 := by linarith
  have h3 : min (t - 1) 3 = 3 := min_eq_right (by linarith)
  simp [accommodationCharge, h1, h3, ACCOMMODATION_COSTS, orElseNum]

theorem accommodationCharge_two : accommodationCharge 2 false = 3000 := by
  norm_num [accommodationCharge, ACCOMMODATION_COSTS, orElseNum]

theorem accommodationCharge_three : accommodationCharge 3 false = 5000 := by
  norm_num [accommodationCharge, ACCOMMODATION_COSTS, orElseNum]

theorem roundedDistance_mono {d1 d2 : ℚ} (h : d1 ≤ d2) :
    ((⌈(d1 + 10) / 10⌉ : ℤ) : ℚ) * 10 ≤ ((⌈(d2 + 10) / 10⌉ : ℤ) : ℚ) * 10 := by
  have h1 : ⌈(d1 + 10) / 10⌉ ≤ ⌈(d2 + 10) / 10⌉ := Int.ceil_mono (by linarith)
  have h2 : ((⌈(d1 + 10) / 10⌉ : ℤ) : ℚ) ≤ ((⌈(d2 + 10) / 10⌉ : ℤ) : ℚ) := by
    exact_mod_cast h1
  linarith

theorem roundedDistance_nonneg {d : ℚ} (h : 0 ≤ d) :
    0 ≤ ((⌈(d + 10) / 10⌉ : ℤ) : ℚ) * 10 := by
  have h1 := Int.le_ceil ((d + 10) / 10)
  linarith

/-! ## Claims on `calculateTripCost` and `getSuitableVehicles` -/

/-- C1: for every vehicle of `VEHICLE_CATEGORIES` and every map distance `d`,
`calculateTripCost` succeeds and returns `mapDistance = d`,
`practicalDistance = d + 10`, `ratePerKm` equal to that category's
`systemRate` (which differs from its `driverRate`), `baseCost =
roundedDistance * ratePerKm` and `totalCost = baseCost + accommodationCost`;
and `calculateTripCost(115, 'cars', 1, true)` has practical distance 125,
rounded distance 130, base cost 16900, accommodation cost 0, total 16900. -/
theorem calculateTripCost_breakdown (v : VehicleCategory) (hv : v ∈ VEHICLE_CATEGORIES)
    (d t : ℚ) (a : Bool) :
    (∃ r, calculateTripCost d v.id t a = Except.ok r ∧
      r.mapDistance = d ∧ r.practicalDistance = d + 10 ∧
      r.ratePerKm = v.systemRate ∧ r.ratePerKm ≠ v.driverRate ∧
      r.baseCost = r.roundedDistance * r.ratePerKm ∧
      r.totalCost = r.baseCost + r.accommodationCost) ∧
    (∃ r, calculateTripCost 115 "cars" 1 true = Except.ok r ∧
      r.practicalDistance = 125 ∧ r.roundedDistance = 130 ∧ r.baseCost = 16900 ∧
      r.accommodationCost = 0 ∧ r.totalCost = 16900) := by
  have hc : ⌈(25 : ℚ) / 2⌉ = 13 := ceil_eval (by norm_num) (by norm_num)
  refine ⟨⟨_, calculateTripCost_of_mem hv d t a, rfl, rfl, rfl, ?_, rfl, rfl⟩,
    ⟨_, calculateTripCost_of_mem cars_mem 115 1 true, ?_, ?_, ?_, ?_, ?_⟩⟩
  · exact ne_of_gt (driverRate_lt_systemRate hv)
  · norm_num
  · norm_num [hc]
  · norm_num [hc, cars]
  · exact accommodationCharge_provided 1
  · norm_num [hc, cars, accommodationCharge_provided]

theorem calculateTripCost_breakdown_witness :
    ∃ r, calculateTripCost 255 "mini_buses" 2 false = Except.ok r ∧
      r.mapDistance = 255 ∧ r.practicalDistance = 255 + 10 ∧
      r.ratePerKm = mini_buses.systemRate ∧ r.ratePerKm ≠ mini_buses.driverRate ∧
      r.baseCost = r.roundedDistance * r.ratePerKm ∧
      r.totalCost = r.baseCost + r.accommodationCost :=
  (calculateTripCost_breakdown mini_buses mini_buses_mem 255 2 false).1

/-- C2: for every map distance `d ≥ 0`, the `roundedDistance` returned by
`calculateTripCost` is the least multiple of 10 that is at least `d + 10`:
it is an integer divisible by 10, it is `≥ d + 10` and `< d + 20`, and no
multiple of 10 that is `≥ d + 10` lies below it. -/
theorem roundedDistance_least_multiple (v : VehicleCategory)
    (hv : v ∈ VEHICLE_CATEGORIES) (d : ℚ) (_hd : 0 ≤ d) (t : ℚ) (a : Bool) :
    ∃ r, calculateTripCost d v.id t a = Except.ok r ∧
      (∃ n : ℤ, r.roundedDistance = n ∧ n % 10 = 0) ∧
      d + 10 ≤ r.roundedDistance ∧ r.roundedDistance < d + 20 ∧
      (∀ m : ℤ, d + 10 ≤ ((10 * m : ℤ) : ℚ) → r.roundedDistance ≤ ((10 * m : ℤ) : ℚ)) := by
  refine ⟨_, calculateTripCost_of_mem hv d t a, ⟨⌈(d + 10) / 10⌉ * 10, ?_, ?_⟩, ?_, ?_, ?_⟩
  · push_cast; rfl
  · exact Int.mul_emod_left _ _
  · have h := Int.le_ceil ((d + 10) / 10)
    show d + 10 ≤ (⌈(d + 10) / 10⌉ : ℚ) * 10
    linarith
  · have h := Int.ceil_lt_add_one ((d + 10) / 10)
    show (⌈(d + 10) / 10⌉ : ℚ) * 10 < d + 20
    linarith
  · intro m hm
    have h : ⌈(d + 10) / 10⌉ ≤ m := by
      apply Int.ceil_le.mpr
      push_cast at hm
      linarith
    have h2 : ((⌈(d + 10) / 10⌉ : ℤ) : ℚ) ≤ (m : ℚ) := by exact_mod_cast h
    show (⌈(d + 10) / 10⌉ : ℚ) * 10 ≤ ((10 * m : ℤ) : ℚ)
    push_cast
    linarith

theorem roundedDistance_least_multiple_witness :
    (0 : ℚ) ≤ 115 ∧
    ∃ r, calculateTripCost 115 "cars" 1 true = Except.ok r ∧
      (∃ n : ℤ, r.roundedDistance = n ∧ n % 10 = 0) ∧
      (115 : ℚ) + 10 ≤ r.roundedDistance ∧ r.roundedDistance < 115 + 20 ∧
      (∀ m : ℤ, (115 : ℚ) + 10 ≤ ((10 * m : ℤ) : ℚ) →
        r.roundedDistance ≤ ((10 * m : ℤ) : ℚ)) :=
  ⟨by norm_num, roundedDistance_least_multiple cars cars_mem 115 (by norm_num) 1 true⟩

/-- C3 (the code departs from the claim): for every integer `tripDays ≥ 5`
with `accommodationProvided = false` the lookup key is `Math.min(nights, 3) =
3`, so `calculateTripCost` charges the 3-night table value 7000 and never the
linear fallback `nights * 2500`; at `tripDays = 5` the charge is 7000, not
`4 * 2500 = 10000`. -/
theorem accommodation_beyond_three_nights (v : VehicleCategory)
    (hv : v ∈ VEHICLE_CATEGORIES) (d : ℚ) (t : ℤ) (ht : 5 ≤ t) :
    (∃ r, calculateTripCost d v.id (t : ℚ) false = Except.ok r ∧
      r.accommodationCost = 7000 ∧ r.accommodationCost ≠ ((t : ℚ) - 1) * 2500) ∧
    (∃ r, calculateTripCost 115 "cars" 5 false = Except.ok r ∧
      r.accommodationCost = 7000 ∧ r.accommodationCost ≠ 4 * 2500) := by
  have ht' : (5 : ℚ) ≤ (t : ℚ) := by exact_mod_cast ht
  have h7 : accommodationCharge (t : ℚ) false = 7000 :=
    accommodationCharge_capped (by linarith)
  have h5 : accommodationCharge 5 false = 7000 := accommodationCharge_capped (by norm_num)
  refine ⟨⟨_, calculateTripCost_of_mem hv d t false, h7, ?_⟩,
    ⟨_, calculateTripCost_of_mem cars_mem 115 5 false, h5, ?_⟩⟩
  · show accommodationCharge (t : ℚ) false ≠ ((t : ℚ) - 1) * 2500
    rw [h7]
    intro h
    linarith
  · show accommodationCharge 5 false ≠ 4 * 2500
    rw [h5]
    norm_num

theorem accommodation_beyond_three_nights_witness :
    (5 : ℤ) ≤ 6 ∧
    ∃ r, calculateTripCost 300 "kdh_high_roof" ((6 : ℤ) : ℚ) false = Except.ok r ∧
      r.accommodationCost = 7000 ∧ r.accommodationCost ≠ (((6 : ℤ) : ℚ) - 1) * 2500 :=
  ⟨by decide, (accommodation_beyond_three_nights kdh_high_roof
    (by simp [VEHICLE_CATEGORIES]) 300 6 (by decide)).1⟩

/-- C4: with `accommodationProvided = false`, `calculateTripCost` charges the
fixed table value for 1, 2 and 3 nights: `tripDays = 2` gives 3000,
`tripDays = 3` gives 5000, `tripDays = 4` gives 7000, for every table vehicle
and distance; and `calculateTripCost(115, 'cars', 3, false)` has
accommodation cost 5000 and total cost `16900 + 5000 = 21900`. -/
theorem accommodation_table_values (v : VehicleCategory) (hv : v ∈ VEHICLE_CATEGORIES)
    (d : ℚ) :
    (∃ r, calculateTripCost d v.id 2 false = Except.ok r ∧ r.accommodationCost = 3000) ∧
    (∃ r, calculateTripCost d v.id 3 false = Except.ok r ∧ r.accommodationCost = 5000) ∧
    (∃ r, calculateTripCost d v.id 4 false = Except.ok r ∧ r.accommodationCost = 7000) ∧
    (∃ r, calculateTripCost 115 "cars" 3 false = Except.ok r ∧
      r.accommodationCost = 5000 ∧ r.baseCost = 16900 ∧ r.totalCost = 21900) := by
  have hc : ⌈(25 : ℚ) / 2⌉ = 13 := ceil_eval (by norm_num) (by norm_num)
  refine ⟨⟨_, calculateTripCost_of_mem hv d 2 false, accommodationCharge_two⟩,
    ⟨_, calculateTripCost_of_mem hv d 3 false, accommodationCharge_three⟩,
    ⟨_, calculateTripCost_of_mem hv d 4 false, accommodationCharge_capped le_rfl⟩,
    ⟨_, calculateTripCost_of_mem cars_mem 115 3 false, accommodationCharge_three, ?_, ?_⟩⟩
  · norm_num [hc, cars]
  · norm_num [hc, cars, accommodationCharge_three]

theorem accommodation_table_values_witness :
    (∃ r, calculateTripCost 40 "other_vans" 2 false = Except.ok r ∧
      r.accommodationCost = 3000) ∧
    (∃ r, calculateTripCost 40 "other_vans" 3 false = Except.ok r ∧
      r.accommodationCost = 5000) ∧
    (∃ r, calculateTripCost 40 "other_vans" 4 false = Except.ok r ∧
      r.accommodationCost = 7000) :=
  have h := accommodation_table_values other_vans (by simp [VEHICLE_CATEGORIES]) 40
  ⟨h.1, h.2.1, h.2.2.1⟩

/-- C5: for every table vehicle and every map distance, if
`accommodationProvided` is true or `tripDays ≤ 1` then `calculateTripCost`
returns `accommodationCost = 0` and `totalCost = baseCost`. -/
theorem accommodation_zero_when_provided_or_single_day (v : VehicleCategory)
    (hv : v ∈ VEHICLE_CATEGORIES) (d t : ℚ) (a : Bool) (h : a = true ∨ t ≤ 1) :
    ∃ r, calculateTripCost d v.id t a = Except.ok r ∧
      r.accommodationCost = 0 ∧ r.totalCost = r.baseCost := by
  have h0 : accommodationCharge t a = 0 := by
    rcases h with rfl | h
    · exact accommodationCharge_provided t
    · exact accommodationCharge_single_day h a
  refine ⟨_, calculateTripCost_of_mem hv d t a, h0, ?_⟩
  show _ + accommodationCharge t a = _
  rw [h0, add_zero]

theorem accommodation_zero_when_provided_or_single_day_witness :
    (false = true ∨ (1 : ℚ) ≤ 1) ∧
    ∃ r, calculateTripCost 115 "cars" 1 false = Except.ok r ∧
      r.accommodationCost = 0 ∧ r.totalCost = r.baseCost :=
  ⟨Or.inr le_rfl,
    accommodation_zero_when_provided_or_single_day cars cars_mem 115 1 false (Or.inr le_rfl)⟩

/-- C6: the fare is monotonically non-decreasing in distance and in rate, for
fixed `tripDays` and accommodation flag: (a) for every table category and all
`0 ≤ d1 ≤ d2` the total cost at `d1` is at most the total cost at `d2`;
(b) for every `d ≥ 0` and two table categories with `systemRate` `r1 ≤ r2`,
the total cost under the first is at most the total cost under the second. -/
theorem totalCost_monotone (t : ℚ) (a : Bool)
    (v : VehicleCategory) (hv : v ∈ VEHICLE_CATEGORIES)
    (d1 d2 : ℚ) (_h1 : 0 ≤ d1) (h12 : d1 ≤ d2)
    (v1 v2 : VehicleCategory) (hv1 : v1 ∈ VEHICLE_CATEGORIES) (hv2 : v2 ∈ VEHICLE_CATEGORIES)
    (hr : v1.systemRate ≤ v2.systemRate) (d : ℚ) (hd : 0 ≤ d) :
    (∃ r1 r2, calculateTripCost d1 v.id t a = Except.ok r1 ∧
      calculateTripCost d2 v.id t a = Except.ok r2 ∧ r1.totalCost ≤ r2.totalCost) ∧
    (∃ r1 r2, calculateTripCost d v1.id t a = Except.ok r1 ∧
      calculateTripCost d v2.id t a = Except.ok r2 ∧ r1.totalCost ≤ r2.totalCost) := by
  refine ⟨⟨_, _, calculateTripCost_of_mem hv d1 t a, calculateTripCost_of_mem hv d2 t a, ?_⟩,
    ⟨_, _, calculateTripCost_of_mem hv1 d t a, calculateTripCost_of_mem hv2 d t a, ?_⟩⟩
  · show _ * v.systemRate + _ ≤ _ * v.systemRate + _
    have := mul_le_mul_of_nonneg_right (roundedDistance_mono h12) (systemRate_pos hv).le
    linarith
  · show _ * v1.systemRate + _ ≤ _ * v2.systemRate + _
    have := mul_le_mul_of_nonneg_left hr (roundedDistance_nonneg hd)
    linarith

theorem totalCost_monotone_witness :
    ((0 : ℚ) ≤ 115 ∧ (115 : ℚ) ≤ 255 ∧ cars.systemRate ≤ mini_buses.systemRate ∧
      (0 : ℚ) ≤ 42) ∧
    (∃ r1 r2, calculateTripCost 115 "kdh_flat_roof" 3 false = Except.ok r1 ∧
      calculateTripCost 255 "kdh_flat_roof" 3 false = Except.ok r2 ∧
      r1.totalCost ≤ r2.totalCost) ∧
    (∃ r1 r2, calculateTripCost 42 "cars" 3 false = Except.ok r1 ∧
      calculateTripCost 42 "mini_buses" 3 false = Except.ok r2 ∧
      r1.totalCost ≤ r2.totalCost) :=
  ⟨⟨by norm_num, by norm_num, by norm_num [cars, mini_buses], by norm_num⟩,
    totalCost_monotone 3 false kdh_flat_roof (by simp [VEHICLE_CATEGORIES]) 115 255
      (by norm_num) (by norm_num) cars mini_buses cars_mem mini_buses_mem
      (by norm_num [cars, mini_buses]) 42 (by norm_num)⟩

/-- C7: `calculateTripCost` returns the failure result with error
`'Vehicle category not found'` (a result carrying no cost fields) if and only
if `vehicleId` is not the id of one of the five entries of
`VEHICLE_CATEGORIES`, and a success result exactly otherwise; being a total
function it always returns one of the two and never throws. -/
theorem calculateTripCost_failure_iff (d : ℚ) (vehicleId : String) (t : ℚ) (a : Bool) :
    VEHICLE_CATEGORIES.length = 5 ∧
    (calculateTripCost d vehicleId t a = Except.error "Vehicle category not found" ↔
      vehicleId ∉ VEHICLE_CATEGORIES.map (fun v => v.id)) ∧
    ((∃ r, calculateTripCost d vehicleId t a = Except.ok r) ↔
      vehicleId ∈ VEHICLE_CATEGORIES.map (fun v => v.id)) := by
  refine ⟨rfl, ?_⟩
  by_cases h : vehicleId ∈ VEHICLE_CATEGORIES.map (fun v => v.id)
  · obtain ⟨v, hv, rfl⟩ := List.mem_map.mp h
    have hok := calculateTripCost_of_mem hv d t a
    refine ⟨⟨fun he => ?_, fun hn => absurd h hn⟩, ⟨fun _ => h, fun _ => ⟨_, hok⟩⟩⟩
    rw [hok] at he
    cases he
  · have hnone : VEHICLE_CATEGORIES.find? (fun v => v.id == vehicleId) = none := by
      rw [List.find?_eq_none]
      intro v hv hveq
      exact h (List.mem_map.mpr ⟨v, hv, by simpa using hveq⟩)
    have herr : calculateTripCost d vehicleId t a =
        Except.error "Vehicle category not found" := by
      simp only [calculateTripCost, hnone]
    refine ⟨⟨fun _ => h, fun _ => herr⟩, ⟨fun ⟨r, hr⟩ => ?_, fun hm => absurd hm h⟩⟩
    rw [herr] at hr
    cases hr

/-- C8 (counterexample): the claim that a known vehicle id with
`mapDistance < 0` or `tripDays < 1` gives a failure is false:
`calculateTripCost(-25, 'cars', 1, true)` succeeds with base cost `-1300`,
and `calculateTripCost(115, 'cars', 0, false)` succeeds as well. -/
theorem malformed_numbers_not_rejected :
    cars ∈ VEHICLE_CATEGORIES ∧ (-25 : ℚ) < 0 ∧ (0 : ℚ) < 1 ∧
    (∃ r, calculateTripCost (-25) cars.id 1 true = Except.ok r ∧ r.baseCost = -1300) ∧
    (∃ r, calculateTripCost 115 cars.id 0 false = Except.ok r) := by
  have hc : ⌈-((3 : ℚ) / 2)⌉ = -1 := ceil_eval (by norm_num) (by norm_num)
  refine ⟨cars_mem, by norm_num, by norm_num,
    ⟨_, calculateTripCost_of_mem cars_mem (-25) 1 true, ?_⟩,
    ⟨_, calculateTripCost_of_mem cars_mem 115 0 false⟩⟩
  norm_num [hc, cars]

/-- C8 (amended): `calculateTripCost` does not validate its numeric inputs.
For every known vehicle id it succeeds for every `mapDistance` and
`tripDays`, also when `mapDistance < 0` or `tripDays < 1`: the base cost is
then `ceil((d + 10) / 10) * 10 * systemRate` as for any other input, which is
negative as soon as `mapDistance ≤ -20`, and the accommodation cost is 0 when
`tripDays < 1`. -/
theorem malformed_numbers_accepted (v : VehicleCategory) (hv : v ∈ VEHICLE_CATEGORIES)
    (d t : ℚ) (a : Bool) (_h : d < 0 ∨ t < 1) :
    ∃ r, calculateTripCost d v.id t a = Except.ok r ∧
      r.baseCost = ((⌈(d + 10) / 10⌉ : ℤ) : ℚ) * 10 * v.systemRate ∧
      (d ≤ -20 → r.baseCost < 0) ∧
      (t < 1 → r.accommodationCost = 0) := by
  refine ⟨_, calculateTripCost_of_mem hv d t a, rfl, ?_, ?_⟩
  · intro hd
    show ((⌈(d + 10) / 10⌉ : ℤ) : ℚ) * 10 * v.systemRate < 0
    have h1 : ⌈(d + 10) / 10⌉ ≤ -1 := Int.ceil_le.mpr (by push_cast; linarith)
    have h2 : ((⌈(d + 10) / 10⌉ : ℤ) : ℚ) ≤ -1 := by exact_mod_cast h1
    have h3 := systemRate_pos hv
    nlinarith
  · intro ht
    exact accommodationCharge_single_day ht.le a

theorem malformed_numbers_accepted_witness :
    ((-25 : ℚ) < 0 ∨ (1 : ℚ) < 1) ∧
    ∃ r, calculateTripCost (-25) "cars" 1 true = Except.ok r ∧
      r.baseCost = ((⌈((-25 : ℚ) + 10) / 10⌉ : ℤ) : ℚ) * 10 * cars.systemRate ∧
      ((-25 : ℚ) ≤ -20 → r.baseCost < 0) ∧
      ((1 : ℚ) < 1 → r.accommodationCost = 0) :=
  ⟨Or.inl (by norm_num),
    malformed_numbers_accepted cars cars_mem (-25) 1 true (Or.inl (by norm_num))⟩

/-- C9: for every integer `passengerCount`, `getSuitableVehicles` returns
exactly the entries of `VEHICLE_CATEGORIES` with `minPassengers ≤
passengerCount ≤ maxPassengers`, in table order (it is a sublist of the
table) and without duplicates; it is total; it returns the empty list for 0
and for 999, and exactly `[Cars]` for 3. -/
theorem getSuitableVehicles_spec (n : ℤ) :
    (∀ v, v ∈ getSuitableVehicles (n : ℚ) ↔
      v ∈ VEHICLE_CATEGORIES ∧ v.minPassengers ≤ (n : ℚ) ∧ (n : ℚ) ≤ v.maxPassengers) ∧
    List.Sublist (getSuitableVehicles (n : ℚ)) VEHICLE_CATEGORIES ∧
    (getSuitableVehicles (n : ℚ)).Nodup ∧
    getSuitableVehicles 0 = [] ∧ getSuitableVehicles 999 = [] ∧
    getSuitableVehicles 3 = [cars] := by
  have hnd : VEHICLE_CATEGORIES.Nodup := by decide
  refine ⟨fun v => ?_, List.filter_sublist _, hnd.filter _, by rfl, by rfl, by rfl⟩
  simp [getSuitableVehicles, List.mem_filter]

/-! ## Lemmas on the route loop -/

/-- A loop of `calculateRouteDistance` that runs to its end has appended one
segment per leg and added, to the totals, the distances and durations of
these segments and one dwell time per leg that is not the last. -/
theorem routeLoop_ok {σ : Type} (fetch : Fetch σ) (s : ℚ) (n : ℕ) :
    ∀ (l : List String) (i : ℕ) (acc : RouteTotals) (w : σ) (acc' : RouteTotals) (w' : σ),
      i + l.length = n →
      routeLoop fetch s n i l acc w = (Except.ok acc', w') →
      ∃ segs : List Segment, acc'.segments = acc.segments ++ segs ∧
        segs.length = l.length - 1 ∧
        acc'.totalDistance =
          acc.totalDistance + (segs.map (fun g => g.distance.value)).sum ∧
        acc'.totalDuration =
          acc.totalDuration + (segs.map (fun g => g.duration.value)).sum +
            s * 3600 * ((l.length - 2 : ℕ) : ℚ) := by
  intro l
  induction l with
  | nil =>
    intro i acc w acc' w' _ h
    simp only [routeLoop, Prod.mk.injEq, Except.ok.injEq] at h
    obtain ⟨rfl, rfl⟩ := h
    exact ⟨[], by simp⟩
  | cons a t ih =>
    cases t with
    | nil =>
      intro i acc w acc' w' _ h
      simp only [routeLoop, Prod.mk.injEq, Except.ok.injEq] at h
      obtain ⟨rfl, rfl⟩ := h
      exact ⟨[], by simp⟩
    | cons b rest =>
      intro i acc w acc' w' hn h
      rw [routeLoop] at h
      split at h
      · simp at h
      · split at h
        · rename_i distance duration _ _
          obtain ⟨segs, h1, h2, h3, h4⟩ :=
            ih (i + 1) _ _ acc' w' (by simp only [List.length_cons] at hn ⊢; omega) h
          have hseg : ∃ g : Segment, g = { «from» := a, «to» := b, distance := distance,
                                           duration := duration, index := (i : ℚ) + 1 } :=
            ⟨_, rfl⟩
          obtain ⟨g, hg⟩ := hseg
          rw [← hg] at h1
          refine ⟨g :: segs, ?_, ?_, ?_, ?_⟩
          · rw [h1]; simp
          · simp only [List.length_cons] at h2 ⊢; omega
          · rw [h3, hg]; simp only [List.map_cons, List.sum_cons]; ring
          · rw [h4, hg]
            simp only [List.map_cons, List.sum_cons, List.length_cons]
            have hn' : (n : ℚ) = (i : ℚ) + (rest.length : ℚ) + 2 := by
              have : n = i + rest.length + 2 := by
                simp only [List.length_cons] at hn; omega
              rw [this]; push_cast; ring
            rcases Nat.eq_zero_or_pos rest.length with h0 | hpos
            · have hc : ¬ ((i : ℚ) < (n : ℚ) - 2) := by
                rw [hn', h0]; push_cast; linarith
              rw [if_neg hc, h0]
              norm_num
              ring
            · have hq : (0 : ℚ) < (rest.length : ℚ) := by exact_mod_cast hpos
              have hc : (i : ℚ) < (n : ℚ) - 2 := by rw [hn']; linarith
              rw [if_pos hc]
              have e1 : rest.length + 1 + 1 - 2 = rest.length := by omega
              have e2 : ((rest.length + 1 - 2 : ℕ) : ℚ) = (rest.length : ℚ) - 1 := by
                have : rest.length + 1 - 2 = rest.length - 1 := by omega
                rw [this, Nat.cast_sub hpos]; simp
              rw [e1, e2]
              ring
        · simp at h

/-- A successful `calculateSegmentDistance` hands on the first element of
the first row of the body that the provider returned. -/
theorem calculateSegmentDistance_ok {σ : Type} (fetch : Fetch σ) (origin destination : String)
    (w w1 : σ) (sr : SegmentDistance)
    (h : calculateSegmentDistance fetch origin destination w = (Except.ok sr, w1)) :
    ∃ (data : MatrixData) (element : MatrixElement) (others : List MatrixElement)
      (rows : List (List MatrixElement)),
      fetch origin destination w = (FetchOutcome.json data, w1) ∧
      data.status = "OK" ∧ data.rows = (element :: others) :: rows ∧
      element.status = "OK" ∧
      sr.distance = element.distance ∧ sr.duration = element.duration := by
  unfold calculateSegmentDistance at h
  split at h
  · simp at h
  · rename_i data w2 hf
    split at h
    · rename_i hs
      split at h
      · rename_i element others rows hrows
        split at h
        · rename_i hes
          simp only [Prod.mk.injEq, Except.ok.injEq] at h
          obtain ⟨rfl, rfl⟩ := h
          exact ⟨data, element, others, rows, hf, hs, hrows, hes, rfl, rfl⟩
        · simp at h
      · simp at h
    · simp at h

/-- Every segment that the loop appends carries the provider's answer for its
leg. -/
theorem routeLoop_provider {σ : Type} (fetch : Fetch σ) (s : ℚ) (n : ℕ) :
    ∀ (l : List String) (i : ℕ) (acc : RouteTotals) (w : σ) (acc' : RouteTotals) (w' : σ),
      routeLoop fetch s n i l acc w = (Except.ok acc', w') →
      (∀ g ∈ acc.segments, ProviderAnswered fetch g) →
      ∀ g ∈ acc'.segments, ProviderAnswered fetch g := by
  intro l
  induction l with
  | nil =>
    intro i acc w acc' w' h hacc
    simp only [routeLoop, Prod.mk.injEq, Except.ok.injEq] at h
    obtain ⟨rfl, rfl⟩ := h
    exact hacc
  | cons a t ih =>
    cases t with
    | nil =>
      intro i acc w acc' w' h hacc
      simp only [routeLoop, Prod.mk.injEq, Except.ok.injEq] at h
      obtain ⟨rfl, rfl⟩ := h
      exact hacc
    | cons b rest =>
      intro i acc w acc' w' h hacc
      rw [routeLoop] at h
      split at h
      · simp at h
      · rename_i sr w1 hseg
        split at h
        · rename_i distance duration hdist hdur
          refine ih (i + 1) _ _ acc' w' h ?_
          intro g hg
          simp only [List.mem_append, List.mem_singleton] at hg
          rcases hg with hg | rfl
          · exact hacc g hg
          · obtain ⟨data, element, others, rows, hf, _, hrows, _, hd1, hd2⟩ :=
              calculateSegmentDistance_ok fetch a b w w1 sr hseg
            exact ⟨w, w1, data, element, others, rows, hf, hrows,
              by rw [← hd1, hdist], by rw [← hd2, hdur]⟩
        · simp at h

/-- The effective stop list has one stop more on a return trip. -/
theorem routeLocations_length (locs : List String) (hl : 2 ≤ locs.length) (b : Bool) :
    (routeLocations locs b).length = locs.length + (if b then 1 else 0) := by
  cases locs with
  | nil => simp at hl
  | cons a t => cases b <;> simp [routeLocations]

/-- A successful `calculateRouteDistance` had at least two locations and is
the summary of a loop that ran to its end over the effective stop list. -/
theorem calculateRouteDistance_ok {σ : Type} (fetch : Fetch σ)
    (locations : Option (List String)) (options : RouteOptions) (w w' : σ) (r : RouteResult)
    (h : calculateRouteDistance fetch locations options w = (Except.ok r, w')) :
    ∃ locs acc, locations = some locs ∧ 2 ≤ locs.length ∧
      routeLoop fetch options.additionalStopTime
        (routeLocations locs options.isReturnTrip).length 0
        (routeLocations locs options.isReturnTrip)
        { segments := [], totalDistance := 0, totalDuration := 0 } w = (Except.ok acc, w') ∧
      r = routeSummary options acc := by
  unfold calculateRouteDistance at h
  split at h
  · simp at h
  · rename_i locs
    split at h
    · simp at h
    · rename_i hlen
      simp only at h
      split at h
      · simp at h
      · rename_i acc w1 hloop
        simp only [Prod.mk.injEq, Except.ok.injEq] at h
        obtain ⟨rfl, rfl⟩ := h
        exact ⟨locs, acc, rfl, by omega, hloop, rfl⟩

/-- Scenario B runs to success: the loop over Colombo, Kandy, Ella with the
scenario provider ends with two segments, 255000 m and 36000 s. -/
theorem scenarioB_result :
    calculateRouteDistance scenarioFetch (some ["Colombo", "Kandy", "Ella"]) {} () =
      (Except.ok (routeSummary {}
        { segments :=
            [{ «from» := "Colombo", «to» := "Kandy",
               distance := { text := numberToString 115000 ++ " m", value := 115000 },
               duration := { text := numberToString 10800 ++ " s", value := 10800 },
               index := 1 },
             { «from» := "Kandy", «to» := "Ella",
               distance := { text := numberToString 140000 ++ " m", value := 140000 },
               duration := { text := numberToString 14400 ++ " s", value := 14400 },
               index := 2 }]
          totalDistance := 255000
          totalDuration := 36000 }), ()) := by
  simp [calculateRouteDistance, routeLocations, routeLoop, calculateSegmentDistance,
    scenarioFetch, tableFetch, okBody, List.find?]
  norm_num

/-! ## Claims on `calculateRouteDistance` -/

/-- C10: for every successful `calculateRouteDistance` call, `totalDuration`
(hours) is the sum of the segment durations in seconds divided by 3600, plus
`additionalStopTime * max(0, effectiveStopCount - 2)`, where the effective
stop count is the number of locations plus one on a return trip, and every
segment duration summed is the one the provider answered for that leg.  A
route of 2 effective stops has no dwell overhead, a route of 3 has exactly
one dwell unit, and scenario B (3 h and 4 h, dwell 3 h) gives 10 hours. -/
theorem totalDuration_formula {σ : Type} (fetch : Fetch σ)
    (locations : Option (List String)) (options : RouteOptions) (w w' : σ) (r : RouteResult)
    (h : calculateRouteDistance fetch locations options w = (Except.ok r, w')) :
    (∃ locs : List String, locations = some locs ∧
      (routeLocations locs options.isReturnTrip).length =
        locs.length + (if options.isReturnTrip then 1 else 0) ∧
      (∀ g ∈ r.segments, ProviderAnswered fetch g) ∧
      r.segments.length = (routeLocations locs options.isReturnTrip).length - 1 ∧
      r.totalDuration =
        (r.segments.map (fun g => g.duration.value)).sum / 3600 +
          options.additionalStopTime *
            max 0 (((routeLocations locs options.isReturnTrip).length : ℚ) - 2) ∧
      ((routeLocations locs options.isReturnTrip).length = 2 →
        r.totalDuration = (r.segments.map (fun g => g.duration.value)).sum / 3600) ∧
      ((routeLocations locs options.isReturnTrip).length = 3 →
        r.totalDuration = (r.segments.map (fun g => g.duration.value)).sum / 3600 +
          options.additionalStopTime)) ∧
    (∃ rB, calculateRouteDistance scenarioFetch (some ["Colombo", "Kandy", "Ella"])
        { isReturnTrip := false, startTime := "09:00", additionalStopTime := 3 } () =
        (Except.ok rB, ()) ∧
      rB.segments.map (fun g => g.duration.value) = [3 * 3600, 4 * 3600] ∧
      rB.totalDuration = 10) := by
  obtain ⟨locs, acc, rfl, hlen, hloop, rfl⟩ :=
    calculateRouteDistance_ok fetch locations options w w' r h
  have hn := routeLocations_length locs hlen options.isReturnTrip
  obtain ⟨segs, h1, h2, _, h4⟩ :=
    routeLoop_ok fetch options.additionalStopTime _ _ 0 _ w acc w' (Nat.zero_add _) hloop
  simp only [List.nil_append] at h1
  have hprov := routeLoop_provider fetch options.additionalStopTime _ _ 0 _ w acc w' hloop
    (by simp)
  have hn2 : 2 ≤ (routeLocations locs options.isReturnTrip).length := by omega
  have hcast : (((routeLocations locs options.isReturnTrip).length - 2 : ℕ) : ℚ) =
      ((routeLocations locs options.isReturnTrip).length : ℚ) - 2 := by
    rw [Nat.cast_sub hn2]; simp
  have hmax : max 0 (((routeLocations locs options.isReturnTrip).length : ℚ) - 2) =
      ((routeLocations locs options.isReturnTrip).length : ℚ) - 2 := by
    apply max_eq_right
    have : (2 : ℚ) ≤ ((routeLocations locs options.isReturnTrip).length : ℚ) := by
      exact_mod_cast hn2
    linarith
  have hdur : (routeSummary options acc).totalDuration =
      ((routeSummary options acc).segments.map (fun g => g.duration.value)).sum / 3600 +
        options.additionalStopTime *
          (((routeLocations locs options.isReturnTrip).length : ℚ) - 2) := by
    show acc.totalDuration / 3600 = (acc.segments.map (fun g => g.duration.value)).sum / 3600 + _
    rw [h4, h1, hcast]
    ring
  refine ⟨⟨locs, rfl, hn, hprov, ?_, ?_, ?_, ?_⟩, ⟨_, scenarioB_result, ?_, ?_⟩⟩
  · show acc.segments.length = _
    rw [h1, h2]
  · rw [hmax]; exact hdur
  · intro h2'
    rw [hdur, h2']; norm_num
  · intro h3'
    rw [hdur, h3']; norm_num
  · simp [routeSummary]; norm_num
  · simp [routeSummary]; norm_num

theorem totalDuration_formula_witness :
    ∃ r, calculateRouteDistance scenarioFetch (some ["Colombo", "Kandy"]) {} () =
        (Except.ok r, ()) ∧
      r.segments.length = (routeLocations ["Colombo", "Kandy"] false).length - 1 ∧
      r.totalDuration =
        (r.segments.map (fun g => g.duration.value)).sum / 3600 +
          3 * max 0 (((routeLocations ["Colombo", "Kandy"] false).length : ℚ) - 2) := by
  have hA : calculateRouteDistance scenarioFetch (some ["Colombo", "Kandy"]) {} () =
      (Except.ok (routeSummary {}
        { segments :=
            [{ «from» := "Colombo", «to» := "Kandy",
               distance := { text := numberToString 115000 ++ " m", value := 115000 },
               duration := { text := numberToString 10800 ++ " s", value := 10800 },
               index := 1 }]
          totalDistance := 115000
          totalDuration := 10800 }), ()) := by
    simp [calculateRouteDistance, routeLocations, routeLoop, calculateSegmentDistance,
      scenarioFetch, tableFetch, okBody, List.find?]
  obtain ⟨locs, hl, _, _, h4, h5, _, _⟩ :=
    (totalDuration_formula scenarioFetch (some ["Colombo", "Kandy"]) {} () () _ hA).1
  cases hl
  exact ⟨_, hA, h4, h5⟩

/-! ## Lemmas on the order of the provider calls -/

/-- A reply that is `OK` with an `OK` first element makes
`calculateSegmentDistance` succeed with that element's distance and
duration. -/
theorem calculateSegmentDistance_of_answer {σ : Type} (fetch : Fetch σ)
    (origin destination : String) (w w1 : σ) (data : MatrixData) (element : MatrixElement)
    (others : List MatrixElement) (rows : List (List MatrixElement))
    (hf : fetch origin destination w = (FetchOutcome.json data, w1))
    (hs : data.status = "OK") (hrows : data.rows = (element :: others) :: rows)
    (hes : element.status = "OK") :
    calculateSegmentDistance fetch origin destination w =
      (Except.ok
        { distance := element.distance
          duration := element.duration
          originAddress := data.origin_addresses.head?
          destinationAddress := data.destination_addresses.head? }, w1) := by
  unfold calculateSegmentDistance
  rw [hf]
  simp only [hs, if_true, hrows, hes]

/-- A loop that runs to its end has asked the provider for every leg in
order, and the segments it appended are the record of these calls. -/
theorem routeLoop_trace {σ : Type} (fetch : Fetch σ) (s : ℚ) (n : ℕ) :
    ∀ (l : List String) (i : ℕ) (acc : RouteTotals) (w : σ) (acc' : RouteTotals) (w' : σ),
      routeLoop fetch s n i l acc w = (Except.ok acc', w') →
      ∃ segs : List Segment, acc'.segments = acc.segments ++ segs ∧
        LegsAnswered fetch l i segs w w' := by
  intro l
  induction l with
  | nil =>
    intro i acc w acc' w' h
    simp only [routeLoop, Prod.mk.injEq, Except.ok.injEq] at h
    obtain ⟨rfl, rfl⟩ := h
    exact ⟨[], by simp, by simp [LegsAnswered]⟩
  | cons a t ih =>
    cases t with
    | nil =>
      intro i acc w acc' w' h
      simp only [routeLoop, Prod.mk.injEq, Except.ok.injEq] at h
      obtain ⟨rfl, rfl⟩ := h
      exact ⟨[], by simp, by simp [LegsAnswered]⟩
    | cons b rest =>
      intro i acc w acc' w' h
      rw [routeLoop] at h
      split at h
      · simp at h
      · rename_i sr w1 hseg
        split at h
        · rename_i distance duration hdist hdur
          obtain ⟨segs, h1, h2⟩ := ih (i + 1) _ _ acc' w' h
          obtain ⟨data, element, others, rows, hf, hs, hrows, hes, hd1, hd2⟩ :=
            calculateSegmentDistance_ok fetch a b w w1 sr hseg
          have hseg : ∃ g : Segment, g = { «from» := a, «to» := b, distance := distance,
                                           duration := duration, index := (i : ℚ) + 1 } :=
            ⟨_, rfl⟩
          obtain ⟨g, hg⟩ := hseg
          rw [← hg] at h1
          refine ⟨g :: segs, by rw [h1]; simp, ?_⟩
          simp only [LegsAnswered]
          refine ⟨by rw [hg], by rw [hg], by rw [hg], w1, data, element, others, rows, hf, hs,
            hrows, hes, ?_, ?_, h2⟩
          · rw [← hd1, hdist, hg]
          · rw [← hd2, hdur, hg]
        · simp at h

/-- The segments of an answered run follow the stop list: there is one per
leg, and the segment at position `k` goes from stop `k` to stop `k + 1`, is
numbered `i + k + 1` and carries the provider's answer. -/
theorem LegsAnswered_index {σ : Type} (fetch : Fetch σ) :
    ∀ (l : List String) (i : ℕ) (segs : List Segment) (w w' : σ),
      LegsAnswered fetch l i segs w w' →
      segs.length = l.length - 1 ∧
      ∀ (k : ℕ) (g : Segment), segs[k]? = some g →
        l[k]? = some g.from ∧ l[k + 1]? = some g.to ∧ g.index = (i : ℚ) + (k : ℚ) + 1 ∧
        ProviderAnswered fetch g := by
  intro l
  induction l with
  | nil =>
    intro i segs w w' h
    cases segs with
    | nil => simp
    | cons g gs => simp [LegsAnswered] at h
  | cons a t ih =>
    cases t with
    | nil =>
      intro i segs w w' h
      cases segs with
      | nil => simp
      | cons g gs => simp [LegsAnswered] at h
    | cons b rest =>
      intro i segs w w' h
      cases segs with
      | nil => simp [LegsAnswered] at h
      | cons g gs =>
        simp only [LegsAnswered] at h
        obtain ⟨hfrom, hto, hidx, w1, data, element, others, rows, hf, _, hrows, _, hd1, hd2,
          hrest⟩ := h
        obtain ⟨hlen, hk⟩ := ih (i + 1) gs w1 w' hrest
        refine ⟨by simp only [List.length_cons] at hlen ⊢; omega, ?_⟩
        intro k g' hg'
        cases k with
        | zero =>
          simp only [List.getElem?_cons_zero, Option.some.injEq] at hg'
          subst hg'
          refine ⟨by simp [hfrom], by simp [hto], by rw [hidx]; simp, ?_⟩
          exact ⟨w, w1, data, element, others, rows, by rw [hfrom, hto]; exact hf, hrows,
            hd1, hd2⟩
        | succ k =>
          simp only [List.getElem?_cons_succ] at hg'
          obtain ⟨h1, h2, h3, h4⟩ := hk k g' hg'
          refine ⟨by simpa using h1, by simpa using h2, ?_, h4⟩
          rw [h3]; push_cast; ring

/-- C11: for every successful `calculateRouteDistance` call the stops are a
list `s0 :: rest` of at least two; the effective stop list `e` is the stops
when one-way and the stops followed by `s0` on a return trip; `segments` has
exactly `length e - 1` entries; its entry at position `k` has `from = e[k]`,
`to = e[k + 1]`, number `k + 1` and the distance and duration of the
provider's reply for that pair; and the provider was asked once per pair, in
route order (`LegsAnswered`). -/
theorem segments_follow_route {σ : Type} (fetch : Fetch σ)
    (locations : Option (List String)) (options : RouteOptions) (w w' : σ) (r : RouteResult)
    (h : calculateRouteDistance fetch locations options w = (Except.ok r, w')) :
    ∃ (s0 : String) (rest : List String), locations = some (s0 :: rest) ∧
      1 ≤ rest.length ∧
      routeLocations (s0 :: rest) options.isReturnTrip =
        (if options.isReturnTrip then (s0 :: rest) ++ [s0] else s0 :: rest) ∧
      r.segments.length = (routeLocations (s0 :: rest) options.isReturnTrip).length - 1 ∧
      (∀ (k : ℕ) (g : Segment), r.segments[k]? = some g →
        (routeLocations (s0 :: rest) options.isReturnTrip)[k]? = some g.from ∧
        (routeLocations (s0 :: rest) options.isReturnTrip)[k + 1]? = some g.to ∧
        g.index = (k : ℚ) + 1 ∧ ProviderAnswered fetch g) ∧
      LegsAnswered fetch (routeLocations (s0 :: rest) options.isReturnTrip) 0 r.segments w w' := by
  obtain ⟨locs, acc, rfl, hlen, hloop, rfl⟩ :=
    calculateRouteDistance_ok fetch locations options w w' r h
  obtain ⟨segs, h1, htrace⟩ :=
    routeLoop_trace fetch options.additionalStopTime _ _ 0 _ w acc w' hloop
  simp only [List.nil_append] at h1
  obtain ⟨hl, hk⟩ := LegsAnswered_index fetch _ 0 segs w w' htrace
  cases locs with
  | nil => simp at hlen
  | cons s0 rest =>
    refine ⟨s0, rest, rfl, by simp only [List.length_cons] at hlen; omega, ?_, ?_, ?_, ?_⟩
    · simp [routeLocations]
    · show acc.segments.length = _
      rw [h1, hl]
    · intro k g hg
      have hg' : segs[k]? = some g := by rw [← h1]; exact hg
      obtain ⟨a1, a2, a3, a4⟩ := hk k g hg'
      refine ⟨a1, a2, ?_, a4⟩
      rw [a3]; simp
    · show LegsAnswered fetch _ 0 acc.segments w w'
      rw [h1]; exact htrace

theorem segments_follow_route_witness :
    ∃ r, calculateRouteDistance scenarioFetch (some ["Colombo", "Kandy", "Ella"]) {} () =
        (Except.ok r, ()) ∧
      r.segments.length = 2 ∧
      LegsAnswered scenarioFetch ["Colombo", "Kandy", "Ella"] 0 r.segments () () := by
  obtain ⟨s0, rest, hl, _, _, h4, _, h6⟩ :=
    segments_follow_route scenarioFetch (some ["Colombo", "Kandy", "Ella"]) {} () () _
      scenarioB_result
  cases hl
  exact ⟨_, scenarioB_result, h4, h6⟩

/-! ## Lemmas on a failing leg -/

/-- One turn of the loop on an answered leg. -/
theorem routeLoop_step {σ : Type} (fetch : Fetch σ) (s : ℚ) (n i : ℕ) (p q : String)
    (rest : List String) (acc : RouteTotals) (w w1 : σ) (data : MatrixData)
    (element : MatrixElement) (others : List MatrixElement) (rows : List (List MatrixElement))
    (distance duration : Measure)
    (hf : fetch p q w = (FetchOutcome.json data, w1))
    (hs : data.status = "OK") (hrows : data.rows = (element :: others) :: rows)
    (hes : element.status = "OK")
    (hd1 : element.distance = some distance) (hd2 : element.duration = some duration) :
    routeLoop fetch s n i (p :: q :: rest) acc w =
      routeLoop fetch s n (i + 1) (q :: rest)
        { segments := acc.segments ++
            [{ «from» := p, «to» := q, distance := distance, duration := duration,
               index := (i : ℚ) + 1 }]
          totalDistance := acc.totalDistance + distance.value
          totalDuration :=
            if (i : ℚ) < (n : ℚ) - 2 then acc.totalDuration + duration.value + s * 3600
            else acc.totalDuration + duration.value } w1 := by
  rw [routeLoop,
    calculateSegmentDistance_of_answer fetch p q w w1 data element others rows hf hs hrows hes]
  simp only [hd1, hd2]

/-- After the legs of a prefix of the route have been answered, the loop
stands at the last stop of the prefix, in the world state the last call left,
with the segments of the prefix appended. -/
theorem routeLoop_prefix {σ : Type} (fetch : Fetch σ) (s : ℚ) (n : ℕ) (a : String)
    (tail : List String) :
    ∀ (pre : List String) (i : ℕ) (acc : RouteTotals) (w wk : σ) (segs : List Segment),
      LegsAnswered fetch (pre ++ [a]) i segs w wk →
      ∃ accK : RouteTotals, accK.segments = acc.segments ++ segs ∧
        routeLoop fetch s n i (pre ++ a :: tail) acc w =
          routeLoop fetch s n (i + pre.length) (a :: tail) accK wk := by
  intro pre
  induction pre with
  | nil =>
    intro i acc w wk segs h
    cases segs with
    | nil =>
      simp only [List.nil_append, LegsAnswered] at h
      subst h
      exact ⟨acc, by simp, by simp⟩
    | cons g gs => simp [LegsAnswered] at h
  | cons p pre' ih =>
    intro i acc w wk segs h
    have hne : ∃ q restA restB, pre' ++ [a] = q :: restA ∧ pre' ++ a :: tail = q :: restB := by
      cases pre' with
      | nil => exact ⟨a, [], tail, rfl, rfl⟩
      | cons q pre'' => exact ⟨q, pre'' ++ [a], pre'' ++ a :: tail, rfl, rfl⟩
    obtain ⟨q, restA, restB, hA, hB⟩ := hne
    rw [List.cons_append, hA] at h
    cases segs with
    | nil => simp [LegsAnswered] at h
    | cons g gs =>
      simp only [LegsAnswered] at h
      obtain ⟨hfrom, hto, hidx, w1, data, element, others, rows, hf, hs, hrows, hes, hd1, hd2,
        hrest⟩ := h
      rw [← hA] at hrest
      have hg : g = { «from» := p, «to» := q, distance := g.distance,
                      duration := g.duration, index := (i : ℚ) + 1 } := by
        cases g with
        | mk f t d du ix =>
          simp only at hfrom hto hidx
          subst hfrom hto hidx
          rfl
      have key := routeLoop_step fetch s n i p q restB acc w w1 data element others rows
        g.distance g.duration hf hs hrows hes hd1 hd2
      rw [← hg] at key
      obtain ⟨accN, hN⟩ : ∃ x : RouteTotals, x =
          { segments := acc.segments ++ [g]
            totalDistance := acc.totalDistance + g.distance.value
            totalDuration :=
              if (i : ℚ) < (n : ℚ) - 2 then acc.totalDuration + g.duration.value + s * 3600
              else acc.totalDuration + g.duration.value } := ⟨_, rfl⟩
      rw [← hN] at key
      obtain ⟨accK, hK1, hK2⟩ := ih (i + 1) accN w1 wk gs hrest
      refine ⟨accK, ?_, ?_⟩
      · rw [hK1, hN]
        simp
      · rw [List.cons_append, hB, key, ← hB, hK2]
        simp only [List.length_cons]
        rw [Nat.add_assoc, Nat.add_comm 1 pre'.length]

/-- A failing leg ends the loop with the failure of that leg, in the world
state the failing call left. -/
theorem routeLoop_fail {σ : Type} (fetch : Fetch σ) (s : ℚ) (n i : ℕ) (a b : String)
    (post : List String) (acc : RouteTotals) (w w' : σ) (err : String)
    (hfail : calculateSegmentDistance fetch a b w = (Except.error err, w')) :
    routeLoop fetch s n i (a :: b :: post) acc w = (Except.error err, w') := by
  rw [routeLoop, hfail]

/-- The run of `brokenLegFetch` over Colombo, Kandy, Atlantis, Ella: the
first leg is answered, the second fails, the third is never asked for. -/
theorem brokenLeg_result :
    calculateRouteDistance brokenLegFetch (some ["Colombo", "Kandy", "Atlantis", "Ella"]) {} [] =
      (Except.error "Failed to calculate distance between Kandy and Atlantis",
        [("Colombo", "Kandy"), ("Kandy", "Atlantis")]) := by
  simp [calculateRouteDistance, routeLocations, routeLoop, calculateSegmentDistance,
    brokenLegFetch, loggingFetch, tableFetch, okBody, List.find?]

/-- A failing leg, reached after the legs before it were answered, is the
result of `calculateRouteDistance`. -/
theorem calculateRouteDistance_fail {σ : Type} (fetch : Fetch σ) (locs : List String)
    (options : RouteOptions) (w wk w' : σ) (pre post : List String) (a b : String)
    (segs : List Segment) (err : String)
    (hlen : 2 ≤ locs.length)
    (hroute : routeLocations locs options.isReturnTrip = pre ++ a :: b :: post)
    (hpre : LegsAnswered fetch (pre ++ [a]) 0 segs w wk)
    (hfail : calculateSegmentDistance fetch a b wk = (Except.error err, w')) :
    calculateRouteDistance fetch (some locs) options w = (Except.error err, w') := by
  obtain ⟨accK, _, hK⟩ := routeLoop_prefix fetch options.additionalStopTime
    (routeLocations locs options.isReturnTrip).length a (b :: post) pre 0
    { segments := [], totalDistance := 0, totalDuration := 0 } w wk segs hpre
  have hloop : routeLoop fetch options.additionalStopTime
      (routeLocations locs options.isReturnTrip).length 0
      (routeLocations locs options.isReturnTrip)
      { segments := [], totalDistance := 0, totalDuration := 0 } w =
      (Except.error err, w') := by
    conv_lhs => rw [hroute]
    rw [hroute] at hK
    rw [hK]
    exact routeLoop_fail fetch _ _ _ a b post accK wk w' err hfail
  unfold calculateRouteDistance
  simp only [not_lt.mpr hlen, if_false, hloop]

/-- A run in which every leg of the stop list is answered ends the loop with
success, the segments being the record of the run. -/
theorem routeLoop_of_trace {σ : Type} (fetch : Fetch σ) (s : ℚ) (n : ℕ) (l : List String)
    (hl : l ≠ []) (i : ℕ) (acc : RouteTotals) (w w' : σ) (segs : List Segment)
    (h : LegsAnswered fetch l i segs w w') :
    ∃ acc' : RouteTotals, acc'.segments = acc.segments ++ segs ∧
      routeLoop fetch s n i l acc w = (Except.ok acc', w') := by
  rcases List.eq_nil_or_concat l with hnil | ⟨pre, a, rfl⟩
  · exact absurd hnil hl
  · rw [List.concat_eq_append] at h
    obtain ⟨accK, hK1, hK2⟩ := routeLoop_prefix fetch s n a [] pre i acc w w' segs h
    refine ⟨accK, hK1, ?_⟩
    rw [List.concat_eq_append, hK2]
    simp [routeLoop]

/-- Whether the text `t` occurs in `s`, in terms of lists of characters. -/
theorem containsText_iff (s t : String) :
    containsText s t = true ↔ t.data <:+: s.data := by
  unfold containsText
  rw [List.any_eq_true, List.infix_iff_prefix_suffix]
  constructor
  · rintro ⟨tl, htl, hp⟩
    exact ⟨tl, List.isPrefixOf_iff_prefix.mp hp, (List.mem_tails _ _).mp htl⟩
  · rintro ⟨tl, hp, hs⟩
    exact ⟨tl, (List.mem_tails _ _).mpr hs, List.isPrefixOf_iff_prefix.mpr hp⟩

/-- The message of a leg whose reply is not `OK` contains both stops. -/
theorem failed_message_names_both (a b : String) :
    containsText ("Failed to calculate distance between " ++ a ++ " and " ++ b) a = true ∧
    containsText ("Failed to calculate distance between " ++ a ++ " and " ++ b) b = true := by
  constructor
  · rw [containsText_iff]
    exact ⟨"Failed to calculate distance between ".data, " and ".data ++ b.data, by
      simp [String.data_append]⟩
  · rw [containsText_iff]
    exact ⟨"Failed to calculate distance between ".data ++ a.data ++ " and ".data, [], by
      simp [String.data_append]⟩

/-- The four ways in which `calculateSegmentDistance` fails, with the error
of each. -/
theorem calculateSegmentDistance_errors {σ : Type} (fetch : Fetch σ) (a b : String)
    (w w' : σ) (out : FetchOutcome) (hfetch : fetch a b w = (out, w')) :
    (out = FetchOutcome.threw →
      calculateSegmentDistance fetch a b w =
        (Except.error "Network error while calculating distance", w')) ∧
    (∀ data, out = FetchOutcome.json data → data.status ≠ "OK" →
      calculateSegmentDistance fetch a b w =
        (Except.error ("Failed to calculate distance between " ++ a ++ " and " ++ b), w')) ∧
    (∀ data element others rows, out = FetchOutcome.json data → data.status = "OK" →
      data.rows = (element :: others) :: rows → element.status ≠ "OK" →
      calculateSegmentDistance fetch a b w =
        (Except.error ("Failed to calculate distance between " ++ a ++ " and " ++ b), w')) ∧
    (∀ data, out = FetchOutcome.json data → data.status = "OK" →
      (data.rows = [] ∨ ∃ rows, data.rows = [] :: rows) →
      calculateSegmentDistance fetch a b w =
        (Except.error "Network error while calculating distance", w')) := by
  refine ⟨?_, ?_, ?_, ?_⟩
  · rintro rfl
    unfold calculateSegmentDistance
    rw [hfetch]
  · rintro data rfl hs
    unfold calculateSegmentDistance
    rw [hfetch]
    simp only [hs, if_false]
  · rintro data element others rows rfl hs hrows hes
    unfold calculateSegmentDistance
    rw [hfetch]
    simp only [hs, if_true, hrows, hes, if_false]
  · rintro data rfl hs hrows
    unfold calculateSegmentDistance
    rw [hfetch]
    rcases hrows with h0 | ⟨rows, h0⟩ <;> simp only [hs, if_true, h0]

/-- C12: if the provider fails for a leg `(a, b)` of the effective route
after the legs before it were answered, `calculateRouteDistance` returns the
failure of that leg (a result without segments, totals or schedule, never a
success), and the world state returned is the one the failing call left: no
later leg is asked for.  With a provider that logs its calls and fails on the
second of three legs, the log holds the first two legs only. -/
theorem first_failure_returned {σ : Type} (fetch : Fetch σ) (locs : List String)
    (options : RouteOptions) (w wk w' : σ) (pre post : List String) (a b : String)
    (segs : List Segment) (err : String)
    (hlen : 2 ≤ locs.length)
    (hroute : routeLocations locs options.isReturnTrip = pre ++ a :: b :: post)
    (hpre : LegsAnswered fetch (pre ++ [a]) 0 segs w wk)
    (hfail : calculateSegmentDistance fetch a b wk = (Except.error err, w')) :
    calculateRouteDistance fetch (some locs) options w = (Except.error err, w') ∧
    (∀ (r : RouteResult) (w2 : σ),
      calculateRouteDistance fetch (some locs) options w ≠ (Except.ok r, w2)) ∧
    calculateRouteDistance brokenLegFetch (some ["Colombo", "Kandy", "Atlantis", "Ella"]) {} [] =
      (Except.error "Failed to calculate distance between Kandy and Atlantis",
        [("Colombo", "Kandy"), ("Kandy", "Atlantis")]) := by
  have hmain := calculateRouteDistance_fail fetch locs options w wk w' pre post a b segs err
    hlen hroute hpre hfail
  refine ⟨hmain, ?_, brokenLeg_result⟩
  intro r w2 hok
  rw [hmain] at hok
  simp at hok

theorem first_failure_returned_witness :
    2 ≤ ["Colombo", "Kandy", "Atlantis", "Ella"].length ∧
    calculateSegmentDistance brokenLegFetch "Kandy" "Atlantis" [("Colombo", "Kandy")] =
      (Except.error "Failed to calculate distance between Kandy and Atlantis",
        [("Colombo", "Kandy"), ("Kandy", "Atlantis")]) ∧
    calculateRouteDistance brokenLegFetch (some ["Colombo", "Kandy", "Atlantis", "Ella"])
        { isReturnTrip := false } [] =
      (Except.error "Failed to calculate distance between Kandy and Atlantis",
        [("Colombo", "Kandy"), ("Kandy", "Atlantis")]) :=
  have hfail : calculateSegmentDistance brokenLegFetch "Kandy" "Atlantis" [("Colombo", "Kandy")] =
      (Except.error "Failed to calculate distance between Kandy and Atlantis",
        [("Colombo", "Kandy"), ("Kandy", "Atlantis")]) := by rfl
  ⟨by decide, hfail,
    (first_failure_returned brokenLegFetch ["Colombo", "Kandy", "Atlantis", "Ella"]
      { isReturnTrip := false } [] [("Colombo", "Kandy")]
      [("Colombo", "Kandy"), ("Kandy", "Atlantis")] ["Colombo"] ["Ella"] "Kandy" "Atlantis"
      [{ «from» := "Colombo", «to» := "Kandy",
         distance := { text := numberToString 115000 ++ " m", value := 115000 },
         duration := { text := numberToString 10800 ++ " s", value := 10800 },
         index := 1 }]
      "Failed to calculate distance between Kandy and Atlantis"
      (by decide) (by rfl)
      (by
        refine ⟨rfl, rfl, by norm_num, [("Colombo", "Kandy")], okBody 115000 10800, _, [], [],
          rfl, rfl, rfl, rfl, rfl, rfl, rfl⟩)
      hfail).1⟩

/-- C13: for a missing `locations` argument and for every list of fewer than
two locations (empty or one element), `calculateRouteDistance` returns the
failure `'At least origin and one destination are required'` and leaves the
world state as it was, whatever the provider: no provider call is made. -/
theorem too_few_locations {σ : Type} (fetch : Fetch σ) (locations : Option (List String))
    (options : RouteOptions) (w : σ) (h : ∀ l, locations = some l → l.length < 2) :
    calculateRouteDistance fetch locations options w =
      (Except.error "At least origin and one destination are required", w) := by
  unfold calculateRouteDistance
  cases locations with
  | none => rfl
  | some l => simp only [h l rfl, if_true]

theorem too_few_locations_witness :
    (∀ l, some ["Colombo"] = some l → l.length < 2) ∧
    calculateRouteDistance brokenLegFetch (some ["Colombo"]) { isReturnTrip := true } [] =
      (Except.error "At least origin and one destination are required", []) :=
  have h : ∀ l, some ["Colombo"] = some l → l.length < 2 := by
    intro l hl
    cases hl
    decide
  ⟨h, too_few_locations brokenLegFetch (some ["Colombo"]) { isReturnTrip := true } [] h⟩

/-- C14 (counterexample): the stop list `['Colombo', '   ']`, whose second stop
is empty after trimming, is not rejected before the provider is called.  A
logging provider that knows no leg is asked for the leg and the failure is
that of the leg; a provider that answers the leg makes the call succeed. -/
theorem blank_stop_reaches_provider :
    jsTrim "   " = "" ∧
    calculateRouteDistance (loggingFetch []) (some ["Colombo", "   "]) {} [] =
      (Except.error "Failed to calculate distance between Colombo and    ",
        [("Colombo", "   ")]) ∧
    ∃ r, calculateRouteDistance blankStopFetch (some ["Colombo", "   "]) {} () =
      (Except.ok r, ()) := by
  refine ⟨by decide, ?_, ?_⟩
  · simp [calculateRouteDistance, routeLocations, routeLoop, calculateSegmentDistance,
      loggingFetch, tableFetch, List.find?]
  · refine ⟨routeSummary {}
      { segments :=
          [{ «from» := "Colombo", «to» := "   ",
             distance := { text := numberToString 1000 ++ " m", value := 1000 },
             duration := { text := numberToString 60 ++ " s", value := 60 },
             index := 1 }]
        totalDistance := 1000
        totalDuration := 60 }, ?_⟩
    simp [calculateRouteDistance, routeLocations, routeLoop, calculateSegmentDistance,
      blankStopFetch, tableFetch, okBody, List.find?]

/-- C14 (amended): `calculateRouteDistance` does not inspect the text of the
stops.  A list of at least two stops, one of which is empty after trimming,
goes to the provider like any other: if the first leg fails, the result is
that failure in the world state the call left, and if every leg of the
effective route is answered, the call succeeds with the segments of these
legs. -/
theorem blank_stops_not_validated {σ : Type} (fetch : Fetch σ) (a b : String)
    (rest : List String) (options : RouteOptions) (w : σ)
    (_hblank : ∃ s ∈ a :: b :: rest, jsTrim s = "") :
    (∀ (err : String) (w1 : σ),
      calculateSegmentDistance fetch a b w = (Except.error err, w1) →
      calculateRouteDistance fetch (some (a :: b :: rest)) options w = (Except.error err, w1)) ∧
    (∀ (segs : List Segment) (w' : σ),
      LegsAnswered fetch (routeLocations (a :: b :: rest) options.isReturnTrip) 0 segs w w' →
      ∃ r, calculateRouteDistance fetch (some (a :: b :: rest)) options w = (Except.ok r, w') ∧
        r.segments = segs) := by
  have hlen : 2 ≤ (a :: b :: rest).length := by simp
  constructor
  · intro err w1 hfail
    obtain ⟨post, hpost⟩ : ∃ post,
        routeLocations (a :: b :: rest) options.isReturnTrip = [] ++ a :: b :: post := by
      cases hrt : options.isReturnTrip
      · exact ⟨rest, by simp [routeLocations]⟩
      · exact ⟨rest ++ [a], by simp [routeLocations]⟩
    exact calculateRouteDistance_fail fetch _ options w w w1 [] post a b [] err hlen hpost
      (by simp [LegsAnswered]) hfail
  · intro segs w' htrace
    have hne : routeLocations (a :: b :: rest) options.isReturnTrip ≠ [] := by
      cases hrt : options.isReturnTrip <;> simp [routeLocations]
    obtain ⟨acc', h1, h2⟩ := routeLoop_of_trace fetch options.additionalStopTime
      (routeLocations (a :: b :: rest) options.isReturnTrip).length _ hne 0
      { segments := [], totalDistance := 0, totalDuration := 0 } w w' segs htrace
    refine ⟨routeSummary options acc', ?_, ?_⟩
    · unfold calculateRouteDistance
      simp only [not_lt.mpr hlen, if_false, h2]
    · show acc'.segments = segs
      rw [h1]; rfl

theorem blank_stops_not_validated_witness :
    (∃ s ∈ ["Colombo", "   "], jsTrim s = "") ∧
    (∀ (err : String) (w1 : List (String × String)),
      calculateSegmentDistance (loggingFetch []) "Colombo" "   " [] = (Except.error err, w1) →
      calculateRouteDistance (loggingFetch []) (some ["Colombo", "   "]) {} [] =
        (Except.error err, w1)) :=
  have hb : ∃ s ∈ ["Colombo", "   "], jsTrim s = "" := ⟨"   ", by simp, by decide⟩
  ⟨hb, (blank_stops_not_validated (loggingFetch []) "Colombo" "   " [] {} [] hb).1⟩

/-- C15 (counterexample): when the network fails on the leg from Colombo to
Kandy, the error returned is `'Network error while calculating distance'`,
a text in which neither `Colombo` nor `Kandy` occurs. -/
theorem network_error_names_no_stop :
    calculateRouteDistance offlineFetch (some ["Colombo", "Kandy"]) {} [] =
      (Except.error "Network error while calculating distance", [("Colombo", "Kandy")]) ∧
    containsText "Network error while calculating distance" "Colombo" = false ∧
    containsText "Network error while calculating distance" "Kandy" = false := by
  refine ⟨?_, by decide, by decide⟩
  simp [calculateRouteDistance, routeLocations, routeLoop, calculateSegmentDistance,
    offlineFetch]

/-- C15 (amended): when the leg `(a, b)` is the first that cannot be
resolved, the error of `calculateRouteDistance` depends on the cause.  If the
reply has a status other than `OK`, for the whole reply or for its first
element, the error is `'Failed to calculate distance between a and b'`, which
names both stops of the leg.  If the request throws, or the reply has no
first element, the error is the fixed text `'Network error while calculating
distance'`. -/
theorem segment_error_message {σ : Type} (fetch : Fetch σ) (locs : List String)
    (options : RouteOptions) (w wk w' : σ) (pre post : List String) (a b : String)
    (segs : List Segment) (out : FetchOutcome)
    (hlen : 2 ≤ locs.length)
    (hroute : routeLocations locs options.isReturnTrip = pre ++ a :: b :: post)
    (hpre : LegsAnswered fetch (pre ++ [a]) 0 segs w wk)
    (hfetch : fetch a b wk = (out, w')) :
    (∀ data, out = FetchOutcome.json data → data.status ≠ "OK" →
      calculateRouteDistance fetch (some locs) options w =
        (Except.error ("Failed to calculate distance between " ++ a ++ " and " ++ b), w')) ∧
    (∀ data element others rows, out = FetchOutcome.json data → data.status = "OK" →
      data.rows = (element :: others) :: rows → element.status ≠ "OK" →
      calculateRouteDistance fetch (some locs) options w =
        (Except.error ("Failed to calculate distance between " ++ a ++ " and " ++ b), w')) ∧
    (containsText ("Failed to calculate distance between " ++ a ++ " and " ++ b) a = true ∧
      containsText ("Failed to calculate distance between " ++ a ++ " and " ++ b) b = true) ∧
    (out = FetchOutcome.threw →
      calculateRouteDistance fetch (some locs) options w =
        (Except.error "Network error while calculating distance", w')) ∧
    (∀ data, out = FetchOutcome.json data → data.status = "OK" →
      (data.rows = [] ∨ ∃ rows, data.rows = [] :: rows) →
      calculateRouteDistance fetch (some locs) options w =
        (Except.error "Network error while calculating distance", w')) := by
  obtain ⟨e1, e2, e3, e4⟩ := calculateSegmentDistance_errors fetch a b wk w' out hfetch
  have key : ∀ err, calculateSegmentDistance fetch a b wk = (Except.error err, w') →
      calculateRouteDistance fetch (some locs) options w = (Except.error err, w') :=
    fun err hfail => calculateRouteDistance_fail fetch locs options w wk w' pre post a b segs
      err hlen hroute hpre hfail
  refine ⟨fun data h1 h2 => key _ (e2 data h1 h2),
    fun data element others rows h1 h2 h3 h4 => key _ (e3 data element others rows h1 h2 h3 h4),
    failed_message_names_both a b,
    fun h1 => key _ (e1 h1),
    fun data h1 h2 h3 => key _ (e4 data h1 h2 h3)⟩

theorem segment_error_message_witness :
    calculateRouteDistance brokenLegFetch (some ["Colombo", "Kandy", "Atlantis", "Ella"])
        { isReturnTrip := false } [] =
      (Except.error ("Failed to calculate distance between " ++ "Kandy" ++ " and " ++ "Atlantis"),
        [("Colombo", "Kandy"), ("Kandy", "Atlantis")]) :=
  (segment_error_message brokenLegFetch ["Colombo", "Kandy", "Atlantis", "Ella"]
    { isReturnTrip := false } [] [("Colombo", "Kandy")]
    [("Colombo", "Kandy"), ("Kandy", "Atlantis")] ["Colombo"] ["Ella"] "Kandy" "Atlantis"
    [{ «from» := "Colombo", «to» := "Kandy",
       distance := { text := numberToString 115000 ++ " m", value := 115000 },
       duration := { text := numberToString 10800 ++ " s", value := 10800 },
       index := 1 }]
    (FetchOutcome.json
      { status := "OK"
        rows := [[{ status := "NOT_FOUND", distance := none, duration := none }]]
        origin_addresses := []
        destination_addresses := [] })
    (by decide) (by rfl)
    (by
      refine ⟨rfl, rfl, by norm_num, [("Colombo", "Kandy")], okBody 115000 10800, _, [], [],
        rfl, rfl, rfl, rfl, rfl, rfl, rfl⟩)
    (by rfl)).2.1 _ _ [] [] rfl rfl rfl (by decide)

/-! ## Lemmas on rounding and on the display strings -/

/-- Evaluation of `Math.floor` at a number between `z` and `z + 1`. -/
theorem floor_eval {x : ℚ} {z : ℤ} (h1 : (z : ℚ) ≤ x) (h2 : x < z + 1) : ⌊x⌋ = z :=
  Int.floor_eq_iff.mpr ⟨h1, h2⟩

/-- Evaluation of `Math.round` at a number within a half of `z`. -/
theorem jsRound_eval {x : ℚ} {z : ℤ} (h1 : (z : ℚ) - 1 / 2 ≤ x) (h2 : x < z + 1 / 2) :
    jsRound x = z := by
  unfold jsRound
  exact floor_eval (by linarith) (by linarith)

/-- `Math.round` is within a half of its argument. -/
theorem jsRound_bounds (x : ℚ) :
    x - 1 / 2 < (jsRound x : ℚ) ∧ (jsRound x : ℚ) ≤ x + 1 / 2 := by
  unfold jsRound
  have h1 := Int.floor_le (x + 1 / 2)
  have h2 := Int.lt_floor_add_one (x + 1 / 2)
  constructor <;> linarith

/-- The remainder `a % b` for a non-negative quotient with integer part `q`. -/
theorem jsRem_eval {a b : ℚ} {q : ℤ} (h0 : 0 ≤ a / b) (h1 : (q : ℚ) ≤ a / b)
    (h2 : a / b < q + 1) : jsRem a b = a - b * q := by
  unfold jsRem
  rw [if_pos h0, floor_eval h1 h2]

/-- An integer is printed in decimal. -/
theorem numberToString_int (z : ℤ) : numberToString (z : ℚ) = toString z := by
  simp [numberToString]

/-- Scenario A runs to success with one segment, 115000 m and 10800 s. -/
theorem scenarioA_result :
    calculateRouteDistance scenarioFetch (some ["Colombo", "Kandy"]) {} () =
      (Except.ok (routeSummary {}
        { segments :=
            [{ «from» := "Colombo", «to» := "Kandy",
               distance := { text := numberToString 115000 ++ " m", value := 115000 },
               duration := { text := numberToString 10800 ++ " s", value := 10800 },
               index := 1 }]
          totalDistance := 115000
          totalDuration := 10800 }), ()) := by
  simp [calculateRouteDistance, routeLocations, routeLoop, calculateSegmentDistance,
    scenarioFetch, tableFetch, okBody, List.find?]

/-- The run of `shortLegsFetch` over its two legs. -/
theorem shortLegs_result :
    calculateRouteDistance shortLegsFetch (some ["Fort", "Pettah", "Maradana"]) {} () =
      (Except.ok (routeSummary {}
        { segments :=
            [{ «from» := "Fort", «to» := "Pettah",
               distance := { text := numberToString 1400 ++ " m", value := 1400 },
               duration := { text := numberToString 300 ++ " s", value := 300 },
               index := 1 },
             { «from» := "Pettah", «to» := "Maradana",
               distance := { text := numberToString 1400 ++ " m", value := 1400 },
               duration := { text := numberToString 300 ++ " s", value := 300 },
               index := 2 }]
          totalDistance := 2800
          totalDuration := 11400 }), ()) := by
  simp [calculateRouteDistance, routeLocations, routeLoop, calculateSegmentDistance,
    shortLegsFetch, tableFetch, okBody, List.find?]
  norm_num

/-- The run of `oddSecondsFetch` over its leg. -/
theorem oddSeconds_result :
    calculateRouteDistance oddSecondsFetch (some ["Colombo", "Kandy"]) {} () =
      (Except.ok (routeSummary {}
        { segments :=
            [{ «from» := "Colombo", «to» := "Kandy",
               distance := { text := numberToString 115000 ++ " m", value := 115000 },
               duration := { text := numberToString 3599 ++ " s", value := 3599 },
               index := 1 }]
          totalDistance := 115000
          totalDuration := 3599 }), ()) := by
  simp [calculateRouteDistance, routeLocations, routeLoop, calculateSegmentDistance,
    oddSecondsFetch, tableFetch, okBody, List.find?]

/-- The value of `daysNeeded` that `calculateTripDetails` computes. -/
theorem daysNeeded_eq (h : ℚ) (startTime : String) :
    (calculateTripDetails h startTime).daysNeeded =
      if h > 12 then ((⌈h / 12⌉ : ℤ) : ℚ) else 1 := rfl

/-! ## Claims on the schedule, the totals and the display strings -/

/-- C16: for every total duration `h ≥ 0` hours, `schedule.daysNeeded` of the
route result (which is `tripDetails.daysNeeded`) is 1 if `h ≤ 12` and
`ceil(h / 12)` otherwise; it is the least integer `n ≥ 1` with `12 * n ≥ h`.
Durations 3, 10 and 12 give 1, and every duration above 12 and at most 24
gives 2. -/
theorem daysNeeded_spec (h : ℚ) (_hh : 0 ≤ h) (options : RouteOptions) (acc : RouteTotals)
    (hacc : acc.totalDuration / 3600 = h) :
    (routeSummary options acc).totalDuration = h ∧
    (routeSummary options acc).schedule.daysNeeded =
      (calculateTripDetails h options.startTime).daysNeeded ∧
    (h ≤ 12 → (routeSummary options acc).schedule.daysNeeded = 1) ∧
    (12 < h → (routeSummary options acc).schedule.daysNeeded = ((⌈h / 12⌉ : ℤ) : ℚ)) ∧
    (∃ n : ℤ, (routeSummary options acc).schedule.daysNeeded = (n : ℚ) ∧ 1 ≤ n ∧
      h ≤ 12 * (n : ℚ) ∧ ∀ m : ℤ, 1 ≤ m → h ≤ 12 * (m : ℚ) → n ≤ m) ∧
    (calculateTripDetails 3 options.startTime).daysNeeded = 1 ∧
    (calculateTripDetails 10 options.startTime).daysNeeded = 1 ∧
    (calculateTripDetails 12 options.startTime).daysNeeded = 1 ∧
    (∀ e : ℚ, 0 < e → e ≤ 12 →
      (calculateTripDetails (12 + e) options.startTime).daysNeeded = 2) := by
  have hd : (routeSummary options acc).schedule.daysNeeded =
      if h > 12 then ((⌈h / 12⌉ : ℤ) : ℚ) else 1 := by
    show (calculateTripDetails (acc.totalDuration / 3600) options.startTime).daysNeeded = _
    rw [hacc, daysNeeded_eq]
  refine ⟨hacc, ?_, ?_, ?_, ?_, ?_, ?_, ?_, ?_⟩
  · rw [hd, daysNeeded_eq]
  · intro h12
    rw [hd, if_neg (not_lt.mpr h12)]
  · intro h12
    rw [hd, if_pos h12]
  · by_cases h12 : h > 12
    · refine ⟨⌈h / 12⌉, by rw [hd, if_pos h12], ?_, ?_, ?_⟩
      · have : (0 : ℚ) < h / 12 := by positivity
        exact Int.one_le_ceil_iff.mpr this
      · have := Int.le_ceil (h / 12)
        linarith
      · intro m _ hm
        exact Int.ceil_le.mpr (by linarith)
    · refine ⟨1, by rw [hd, if_neg h12]; simp, le_refl _, ?_, ?_⟩
      · push_cast; linarith [not_lt.mp h12]
      · intro m hm _
        exact hm
  · rw [daysNeeded_eq, if_neg (by norm_num)]
  · rw [daysNeeded_eq, if_neg (by norm_num)]
  · rw [daysNeeded_eq, if_neg (by norm_num)]
  · intro e he0 he12
    rw [daysNeeded_eq, if_pos (by linarith)]
    have : ⌈(12 + e) / 12⌉ = 2 := ceil_eval (by push_cast; linarith) (by push_cast; linarith)
    rw [this]
    norm_num

theorem daysNeeded_spec_witness :
    (0 : ℚ) ≤ 10 ∧
    (routeSummary {} { segments := [], totalDistance := 255000, totalDuration := 36000 }
      ).schedule.daysNeeded = 1 :=
  ⟨by norm_num,
    (daysNeeded_spec 10 (by norm_num) {}
      { segments := [], totalDistance := 255000, totalDuration := 36000 }
      (by norm_num)).2.2.1 (by norm_num)⟩

/-- C17: for every successful `calculateRouteDistance` call, `totalDistance`
is `Math.round` of the sum of the segment distances in metres divided by
1000, every summed distance being the provider's answer for its leg: an
integer within half a kilometre of the exact sum.  The sum is rounded once:
two legs of 1400 m give 3 km, not 1 + 1.  One leg of 115000 m gives 115, and
115000 m + 140000 m give 255. -/
theorem totalDistance_rounded {σ : Type} (fetch : Fetch σ)
    (locations : Option (List String)) (options : RouteOptions) (w w' : σ) (r : RouteResult)
    (h : calculateRouteDistance fetch locations options w = (Except.ok r, w')) :
    (∀ g ∈ r.segments, ProviderAnswered fetch g) ∧
    r.totalDistance =
      ((jsRound ((r.segments.map (fun g => g.distance.value)).sum / 1000) : ℤ) : ℚ) ∧
    |r.totalDistance - (r.segments.map (fun g => g.distance.value)).sum / 1000| ≤ 1 / 2 ∧
    (∃ rA, calculateRouteDistance scenarioFetch (some ["Colombo", "Kandy"]) {} () =
        (Except.ok rA, ()) ∧
      rA.segments.map (fun g => g.distance.value) = [115000] ∧ rA.totalDistance = 115) ∧
    (∃ rB, calculateRouteDistance scenarioFetch (some ["Colombo", "Kandy", "Ella"]) {} () =
        (Except.ok rB, ()) ∧
      rB.segments.map (fun g => g.distance.value) = [115000, 140000] ∧
      rB.totalDistance = 255) ∧
    (∃ rS, calculateRouteDistance shortLegsFetch (some ["Fort", "Pettah", "Maradana"]) {} () =
        (Except.ok rS, ()) ∧
      rS.segments.map (fun g => g.distance.value) = [1400, 1400] ∧
      rS.totalDistance = 3 ∧ jsRound ((1400 : ℚ) / 1000) + jsRound ((1400 : ℚ) / 1000) = 2) := by
  obtain ⟨locs, acc, rfl, hlen, hloop, rfl⟩ :=
    calculateRouteDistance_ok fetch locations options w w' r h
  obtain ⟨segs, h1, _, h3, _⟩ :=
    routeLoop_ok fetch options.additionalStopTime _ _ 0 _ w acc w' (Nat.zero_add _) hloop
  simp only [List.nil_append] at h1
  have hprov := routeLoop_provider fetch options.additionalStopTime _ _ 0 _ w acc w' hloop
    (by simp)
  have hsum : acc.totalDistance = (acc.segments.map (fun g => g.distance.value)).sum := by
    rw [h3, h1]; simp
  have hround : (routeSummary options acc).totalDistance =
      ((jsRound (((routeSummary options acc).segments.map
        (fun g => g.distance.value)).sum / 1000) : ℤ) : ℚ) := by
    show ((jsRound (acc.totalDistance / 1000) : ℤ) : ℚ) = _
    rw [hsum]
    rfl
  have hr115 : jsRound (115 : ℚ) = 115 := jsRound_eval (by norm_num) (by norm_num)
  have hr255 : jsRound (255 : ℚ) = 255 := jsRound_eval (by norm_num) (by norm_num)
  have hr3 : jsRound ((14 : ℚ) / 5) = 3 := jsRound_eval (by norm_num) (by norm_num)
  have hr1 : jsRound ((1400 : ℚ) / 1000) = 1 := jsRound_eval (by norm_num) (by norm_num)
  refine ⟨hprov, hround, ?_, ⟨_, scenarioA_result, ?_, ?_⟩, ⟨_, scenarioB_result, ?_, ?_⟩,
    ⟨_, shortLegs_result, ?_, ?_, ?_⟩⟩
  · rw [hround]
    obtain ⟨b1, b2⟩ := jsRound_bounds
      (((routeSummary options acc).segments.map (fun g => g.distance.value)).sum / 1000)
    rw [abs_le]
    constructor <;> linarith
  · simp [routeSummary]
  · simp [routeSummary]; norm_num [hr115]
  · simp [routeSummary]
  · simp [routeSummary]; norm_num [hr255]
  · simp [routeSummary]
  · simp [routeSummary]; norm_num [hr3]
  · rw [hr1]; rfl

theorem totalDistance_rounded_witness :
    ∃ r, calculateRouteDistance shortLegsFetch (some ["Fort", "Pettah", "Maradana"]) {} () =
        (Except.ok r, ()) ∧
      r.totalDistance =
        ((jsRound ((r.segments.map (fun g => g.distance.value)).sum / 1000) : ℤ) : ℚ) ∧
      |r.totalDistance - (r.segments.map (fun g => g.distance.value)).sum / 1000| ≤ 1 / 2 :=
  have h := totalDistance_rounded shortLegsFetch (some ["Fort", "Pettah", "Maradana"]) {} () ()
    _ shortLegs_result
  ⟨_, shortLegs_result, h.2.1, h.2.2.1⟩

/-- C18 (the code departs from the claim): for the valid start time `09:00`
and the duration of 3599 whole seconds, `calculateEndTime` returns `09:60`,
whose minutes are not in 00..59: the minutes are rounded after the remainder
by 60 is taken, and 59.98 rounds to 60 without a carry into the hours.  The
same text is the `estimatedEndTime` of a route whose single leg takes 3599
seconds. -/
theorem endTime_minutes_sixty :
    calculateEndTime "09:00" (3599 / 3600) = "09:60" ∧
    ∃ r, calculateRouteDistance oddSecondsFetch (some ["Colombo", "Kandy"])
        { isReturnTrip := false, startTime := "09:00", additionalStopTime := 3 } () =
        (Except.ok r, ()) ∧
      r.totalDuration = 3599 / 3600 ∧ r.schedule.estimatedEndTime = "09:60" := by
  have hend : calculateEndTime "09:00" (3599 / 3600) = "09:60" := by
    have hparse : (splitColon "09:00".data).map (fun p => jsNumber (String.mk p)) =
        [some 9, some 0] := by decide
    unfold calculateEndTime
    rw [hparse]
    simp only
    have hf : ⌊((9 : ℚ) * 60 + 0 + 3599 / 3600 * 60) / 60⌋ = 9 :=
      floor_eval (by norm_num) (by norm_num)
    have hr1 : jsRem ((9 : ℤ) : ℚ) 24 = ((9 : ℤ) : ℚ) := by
      rw [jsRem_eval (q := 0) (by norm_num) (by norm_num) (by norm_num)]
      norm_num
    have hr2 : jsRem ((9 : ℚ) * 60 + 0 + 3599 / 3600 * 60) 60 = 3599 / 60 := by
      rw [jsRem_eval (q := 9) (by norm_num) (by norm_num) (by norm_num)]
      norm_num
    have hr3 : jsRound (3599 / 60) = 60 := jsRound_eval (by norm_num) (by norm_num)
    rw [hf, hr1, hr2, hr3, numberToString_int, numberToString_int]
    decide
  refine ⟨hend, _, oddSeconds_result, rfl, ?_⟩
  show calculateEndTime "09:00" (3599 / 3600) = "09:60"
  exact hend

/-! ## Lemmas on binary64 rounding -/

theorem fl64_zero : fl64 0 = 0 := by simp [fl64]

/-- Rounding to the nearest integer moves a number by at most a half. -/
theorem roundHalfEven_error (y : ℚ) : |(roundHalfEven y : ℚ) - y| ≤ 1 / 2 := by
  have h1 := Int.floor_le y
  have h2 := Int.lt_floor_add_one y
  unfold roundHalfEven
  rw [abs_le]
  split_ifs with a b c
  · constructor <;> linarith
  · push_cast; constructor <;> linarith
  · push_neg at a b; constructor <;> linarith
  · push_neg at a b; push_cast; constructor <;> linarith

/-- Evaluation of the significand rounding at a number strictly within a half
of `m`. -/
theorem roundHalfEven_eval {y : ℚ} {m : ℤ} (h1 : (m : ℚ) - 1 / 2 < y)
    (h2 : y < (m : ℚ) + 1 / 2) : roundHalfEven y = m := by
  have e1 := Int.floor_le y
  have e2 := Int.lt_floor_add_one y
  have hf : ⌊y⌋ = m ∨ ⌊y⌋ = m - 1 := by
    have a1 : ((⌊y⌋ : ℤ) : ℚ) < (m : ℚ) + 1 := by linarith
    have a2 : (m : ℚ) - 2 < ((⌊y⌋ : ℤ) : ℚ) := by linarith
    have a3 : ⌊y⌋ < m + 1 := by exact_mod_cast a1
    have a4 : m - 2 < ⌊y⌋ := by exact_mod_cast a2
    omega
  unfold roundHalfEven
  rcases hf with hf | hf
  · rw [hf]
    rw [if_pos (by linarith)]
  · rw [hf]
    rw [if_neg (by push_cast; linarith), if_pos (by push_cast; linarith)]
    ring

theorem roundHalfEven_intCast (k : ℤ) : roundHalfEven (k : ℚ) = k :=
  roundHalfEven_eval (by linarith) (by linarith)

theorem two_zpow_pos (e : ℤ) : (0 : ℚ) < (2 : ℚ) ^ e := zpow_pos (by norm_num) e

/-- The binade of a non-zero number. -/
theorem log_two_bounds {x : ℚ} (hx : x ≠ 0) :
    (2 : ℚ) ^ (Int.log 2 |x|) ≤ |x| ∧ |x| < (2 : ℚ) ^ (Int.log 2 |x| + 1) := by
  have hpos : 0 < |x| := abs_pos.mpr hx
  have h1 := Int.zpow_log_le_self (b := 2) (by norm_num) hpos
  have h2 := Int.lt_zpow_succ_log_self (b := 2) (by norm_num) |x|
  simp only [Nat.cast_ofNat] at h1 h2
  exact ⟨h1, h2⟩

theorem log_two_eq {x : ℚ} {L : ℤ} (h1 : (2 : ℚ) ^ L ≤ |x|) (h2 : |x| < (2 : ℚ) ^ (L + 1)) :
    Int.log 2 |x| = L := by
  have hpos : 0 < |x| := lt_of_lt_of_le (two_zpow_pos L) h1
  have a := (Int.zpow_le_iff_le_log (b := 2) (by norm_num) hpos (x := L)).mp
    (by simpa using h1)
  have b := (Int.lt_zpow_iff_log_lt (b := 2) (by norm_num) hpos (x := L + 1)).mp
    (by simpa using h2)
  omega

/-- The relative error of one binary64 rounding is at most `2 ^ (-53)`. -/
theorem fl64_error (x : ℚ) : |fl64 x - x| ≤ |x| / 2 ^ 53 := by
  by_cases hx : x = 0
  · subst hx; simp [fl64]
  obtain ⟨h1, _⟩ := log_two_bounds hx
  have hp := two_zpow_pos (Int.log 2 |x| - 52)
  have hr := roundHalfEven_error (x / (2 : ℚ) ^ (Int.log 2 |x| - 52))
  have hsplit : (2 : ℚ) ^ (Int.log 2 |x|) = (2 : ℚ) ^ (Int.log 2 |x| - 52) * 2 ^ 52 := by
    rw [zpow_sub₀ (by norm_num)]
    have : (2 : ℚ) ^ (52 : ℤ) = 2 ^ 52 := by norm_cast
    rw [this]
    field_simp
  have hfl : fl64 x - x =
      ((roundHalfEven (x / (2 : ℚ) ^ (Int.log 2 |x| - 52)) : ℚ) -
        x / (2 : ℚ) ^ (Int.log 2 |x| - 52)) * (2 : ℚ) ^ (Int.log 2 |x| - 52) := by
    unfold fl64
    rw [if_neg hx]
    field_simp
  rw [hfl, abs_mul, abs_of_pos hp]
  have : |(roundHalfEven (x / (2 : ℚ) ^ (Int.log 2 |x| - 52)) : ℚ) -
        x / (2 : ℚ) ^ (Int.log 2 |x| - 52)| * (2 : ℚ) ^ (Int.log 2 |x| - 52) ≤
      1 / 2 * (2 : ℚ) ^ (Int.log 2 |x| - 52) := by
    exact mul_le_mul_of_nonneg_right hr hp.le
  rw [hsplit] at h1
  rw [le_div_iff₀ (by norm_num)]
  nlinarith

/-- A number `m * 2 ^ e` whose integer significand `m` has at most 53 bits is
a binary64 number: rounding leaves it as it is. -/
theorem fl64_exact (m e : ℤ) (hm : |m| < 2 ^ 53) :
    fl64 ((m : ℚ) * (2 : ℚ) ^ e) = (m : ℚ) * (2 : ℚ) ^ e := by
  by_cases hx : (m : ℚ) * (2 : ℚ) ^ e = 0
  · rw [hx]; exact fl64_zero
  obtain ⟨h1, _⟩ := log_two_bounds hx
  have hpe := two_zpow_pos e
  have hlt : |(m : ℚ) * (2 : ℚ) ^ e| < (2 : ℚ) ^ (53 + e) := by
    rw [abs_mul, abs_of_pos hpe, zpow_add₀ (by norm_num)]
    have : |(m : ℚ)| < (2 : ℚ) ^ (53 : ℤ) := by
      have : ((|m| : ℤ) : ℚ) < ((2 ^ 53 : ℤ) : ℚ) := by exact_mod_cast hm
      rw [Int.cast_abs] at this
      calc |(m : ℚ)| < ((2 ^ 53 : ℤ) : ℚ) := this
        _ = (2 : ℚ) ^ (53 : ℤ) := by norm_num
    exact mul_lt_mul_of_pos_right this hpe
  have hL : Int.log 2 |(m : ℚ) * (2 : ℚ) ^ e| < 53 + e := by
    have := lt_of_le_of_lt h1 hlt
    exact (zpow_lt_zpow_iff_right₀ (by norm_num)).mp this
  obtain ⟨n, hn⟩ : ∃ n : ℕ, e - (Int.log 2 |(m : ℚ) * (2 : ℚ) ^ e| - 52) = n :=
    ⟨(e - (Int.log 2 |(m : ℚ) * (2 : ℚ) ^ e| - 52)).toNat, by omega⟩
  have hq : (m : ℚ) * (2 : ℚ) ^ e / (2 : ℚ) ^ (Int.log 2 |(m : ℚ) * (2 : ℚ) ^ e| - 52) =
      ((m * 2 ^ n : ℤ) : ℚ) := by
    rw [mul_div_assoc, ← zpow_sub₀ (by norm_num), hn]
    push_cast
    rw [zpow_natCast]
  unfold fl64
  rw [if_neg hx, hq, roundHalfEven_intCast, ← hq]
  have := two_zpow_pos (Int.log 2 |(m : ℚ) * (2 : ℚ) ^ e| - 52)
  field_simp

theorem fl64_of_eq {x : ℚ} (m e : ℤ) (hm : |m| < 2 ^ 53) (hx : x = (m : ℚ) * (2 : ℚ) ^ e) :
    fl64 x = x := by
  rw [hx]; exact fl64_exact m e hm

/-- An integer below `2 ^ 53` in size is a binary64 number. -/
theorem fl64_intCast (z : ℤ) (hz : |z| < 2 ^ 53) : fl64 (z : ℚ) = z :=
  fl64_of_eq z 0 hz (by simp)

/-- The rounding of a number in the binade `2 ^ (e + 52) ≤ |x| < 2 ^ (e + 53)`:
its significand is `x / 2 ^ e`, rounded to an integer. -/
theorem fl64_binade {x : ℚ} (e : ℤ) (hlo : (2 : ℚ) ^ (e + 52) ≤ |x|)
    (hhi : |x| < (2 : ℚ) ^ (e + 52 + 1)) :
    fl64 x = (roundHalfEven (x / (2 : ℚ) ^ e) : ℚ) * (2 : ℚ) ^ e := by
  have hL := log_two_eq hlo hhi
  have hx : x ≠ 0 := by
    intro h
    rw [h, abs_zero] at hlo
    exact absurd hlo (not_le.mpr (two_zpow_pos _))
  unfold fl64
  rw [if_neg hx, hL]
  have : e + 52 - 52 = e := by ring
  rw [this]

/-- Evaluation of a rounding: the exponent is fixed by the binade of `x`, the
significand is the integer nearest to `x / 2 ^ e`. -/
theorem fl64_eval {x : ℚ} (e m : ℤ) (hlo : (2 : ℚ) ^ (e + 52) ≤ |x|)
    (hhi : |x| < (2 : ℚ) ^ (e + 52 + 1)) (h1 : (m : ℚ) - 1 / 2 < x / (2 : ℚ) ^ e)
    (h2 : x / (2 : ℚ) ^ e < (m : ℚ) + 1 / 2) : fl64 x = (m : ℚ) * (2 : ℚ) ^ e := by
  rw [fl64_binade e hlo hhi, roundHalfEven_eval h1 h2]

/-- A significand half way between an odd integer and the next goes up to the
even one. -/
theorem roundHalfEven_odd_half (f : ℤ) (hf : f % 2 = 1) :
    roundHalfEven ((f : ℚ) + 1 / 2) = f + 1 := by
  have hfl : ⌊(f : ℚ) + 1 / 2⌋ = f := floor_eval (by linarith) (by linarith)
  unfold roundHalfEven
  rw [hfl, if_neg (by norm_num), if_neg (by norm_num), if_neg (by omega)]

/-- The minutes that `formatDuration` rounds are two binary64 roundings away
from the exact `t * 60`. -/
theorem minutes_error {t : ℚ} (h0 : 0 ≤ t) (h1 : t ≤ 1) :
    |fl64 (fl64 t * 60) - t * 60| ≤ 121 / 2 ^ 53 := by
  have e1 := fl64_error t
  have e2 := fl64_error (fl64 t * 60)
  rw [abs_of_nonneg h0] at e1
  have e1' : |fl64 t - t| ≤ 1 / 2 ^ 53 :=
    le_trans e1 (div_le_div_of_nonneg_right h1 (by norm_num))
  obtain ⟨a1, a2⟩ := abs_le.mp e1'
  have hb : |fl64 t * 60| ≤ 61 := by
    rw [abs_le]
    norm_num at a1 a2 ⊢
    constructor <;> linarith
  have e2' : |fl64 (fl64 t * 60) - fl64 t * 60| ≤ 61 / 2 ^ 53 :=
    le_trans e2 (div_le_div_of_nonneg_right hb (by norm_num))
  obtain ⟨b1, b2⟩ := abs_le.mp e2'
  rw [abs_le]
  norm_num at a1 a2 b1 b2 ⊢
  constructor <;> linarith

/-- The minutes of `formatDuration` are the nearest whole minute `M` when
the exact minutes are off a half-minute tie by `2 ^ (-40)` or more. -/
theorem minutes_eval {t : ℚ} {M : ℤ} (h0 : 0 ≤ t) (h1 : t ≤ 1)
    (hM : |t * 60 - M| ≤ 1 / 2 - 1 / 2 ^ 40) : jsRound (fl64 (fl64 t * 60)) = M := by
  obtain ⟨a1, a2⟩ := abs_le.mp (minutes_error h0 h1)
  obtain ⟨b1, b2⟩ := abs_le.mp hM
  norm_num at a1 a2 b1 b2
  apply jsRound_eval <;> linarith

/-- The minutes of `formatDuration` for a fractional part `t` whose exact
minutes are not above `59.5 - 2 ^ (-40)`: a whole number in 0..59 within
`1/2 + 2 ^ (-40)` of the exact minutes. -/
theorem minutes_range {t : ℚ} (h0 : 0 ≤ t) (h1 : t ≤ 1)
    (hfrac : t * 60 ≤ 119 / 2 - 1 / 2 ^ 40) :
    ∃ M : ℤ, jsRound (fl64 (fl64 t * 60)) = M ∧ 0 ≤ M ∧ M ≤ 59 ∧
      |t * 60 - (M : ℚ)| ≤ 1 / 2 + 1 / 2 ^ 40 := by
  obtain ⟨a1, a2⟩ := abs_le.mp (minutes_error h0 h1)
  obtain ⟨b1, b2⟩ := jsRound_bounds (fl64 (fl64 t * 60))
  generalize fl64 (fl64 t * 60) = g at a1 a2 b1 b2 ⊢
  generalize jsRound g = M at b1 b2 ⊢
  norm_num at a1 a2 hfrac
  have hM0 : 0 ≤ M := by
    have : (-1 : ℚ) < (M : ℚ) := by linarith
    have : (-1 : ℤ) < M := by exact_mod_cast this
    omega
  have hM59 : M ≤ 59 := by
    have : (M : ℚ) < 60 := by linarith
    have : M < 60 := by exact_mod_cast this
    omega
  refine ⟨M, rfl, hM0, hM59, ?_⟩
  rw [abs_le]
  norm_num
  constructor <;> linarith

theorem minutes_zero : jsRound (fl64 (fl64 0 * 60)) = 0 := by
  rw [fl64_zero, zero_mul, fl64_zero]
  exact jsRound_eval (by norm_num) (by norm_num)

/-- The text of `formatDuration` from its whole hours `H` and its minutes
`M`. -/
theorem formatDuration_eval {a : ℚ} {H M : ℤ} (hH : ⌊a⌋ = H)
    (hM : jsRound (fl64 (fl64 (a - (H : ℚ)) * 60)) = M) :
    formatDuration a =
      if 0 < H ∧ 0 < M then toString H ++ " hours " ++ toString M ++ " mins"
      else if 0 < H then toString H ++ " hours"
      else toString M ++ " mins" := by
  unfold formatDuration
  simp only [hH, hM, gt_iff_lt, Int.cast_pos, numberToString_int]

/-- Two durations that are both within `2 ^ (-30)` hours of `H` hours and `w`
seconds, `w` not being a half minute, get the same text. -/
theorem formatDuration_parts {a : ℚ} {H : ℤ} {w : ℕ} (hw1 : 1 ≤ w) (hw2 : w ≤ 3599)
    (hw : w % 60 ≠ 30) (ha : |a - ((H : ℚ) + (w : ℚ) / 3600)| ≤ 1 / 2 ^ 30) :
    ⌊a⌋ = H ∧ jsRound (fl64 (fl64 (a - (H : ℚ)) * 60)) = (((w + 30) / 60 : ℕ) : ℤ) := by
  obtain ⟨a1, a2⟩ := abs_le.mp ha
  have c1 : (1 : ℚ) ≤ (w : ℚ) := by exact_mod_cast hw1
  have c2 : (w : ℚ) ≤ 3599 := by exact_mod_cast hw2
  have d1 : 60 * ((w + 30) / 60) ≤ w + 29 := by omega
  have d2 : w ≤ 60 * ((w + 30) / 60) + 29 := by omega
  generalize (w + 30) / 60 = M at d1 d2 ⊢
  have d1' : 60 * (M : ℚ) ≤ (w : ℚ) + 29 := by exact_mod_cast d1
  have d2' : (w : ℚ) ≤ 60 * (M : ℚ) + 29 := by exact_mod_cast d2
  norm_num at a1 a2
  have hfloor : ⌊a⌋ = H := floor_eval (by linarith) (by linarith)
  refine ⟨hfloor, minutes_eval (by linarith) (by linarith) ?_⟩
  rw [abs_le, Int.cast_natCast]
  norm_num
  constructor <;> linarith

theorem formatDuration_near {a b : ℚ} {H : ℤ} {w : ℕ} (hw1 : 1 ≤ w) (hw2 : w ≤ 3599)
    (hw : w % 60 ≠ 30) (ha : |a - ((H : ℚ) + (w : ℚ) / 3600)| ≤ 1 / 2 ^ 30)
    (hb : |b - ((H : ℚ) + (w : ℚ) / 3600)| ≤ 1 / 2 ^ 30) :
    formatDuration a = formatDuration b := by
  obtain ⟨p1, p2⟩ := formatDuration_parts hw1 hw2 hw ha
  obtain ⟨q1, q2⟩ := formatDuration_parts hw1 hw2 hw hb
  rw [formatDuration_eval p1 p2, formatDuration_eval q1 q2]

/-- The arithmetic of `feasibility.drivingTime`: with `S` whole seconds of
driving, not a half minute, and `P` whole hours of dwell, subtracting the
dwell from the total in binary64 gives the text of `S / 3600`. -/
theorem drivingTime_arith (S P : ℕ) (hS : S % 60 ≠ 30)
    (hb : (S : ℚ) / 3600 + (P : ℚ) ≤ 2 ^ 20) :
    formatDuration (fl64 (fl64 ((S : ℚ) / 3600 + (P : ℚ)) - fl64 (P : ℚ))) =
      formatDuration (fl64 ((S : ℚ) / 3600)) := by
  have hS0 : (0 : ℚ) ≤ (S : ℚ) / 3600 := by positivity
  have hP0 : (0 : ℚ) ≤ (P : ℚ) := by positivity
  have hPle : (P : ℚ) ≤ 2 ^ 20 := by linarith
  have hPnat : P ≤ 2 ^ 20 := by exact_mod_cast hPle
  have hP : fl64 (P : ℚ) = (P : ℚ) := by
    have := fl64_intCast (P : ℤ) (by rw [abs_of_nonneg (by positivity)]; omega)
    simpa using this
  rw [hP]
  by_cases hw : S % 3600 = 0
  · have hSH : (S : ℚ) / 3600 = ((S / 3600 : ℕ) : ℚ) := by
      have : S = 3600 * (S / 3600) := by omega
      rw [div_eq_iff (by norm_num)]
      exact_mod_cast (by omega : S = S / 3600 * 3600)
    have hHle : ((S / 3600 : ℕ) : ℚ) + (P : ℚ) ≤ 2 ^ 20 := by rw [← hSH]; exact hb
    have hHnat : S / 3600 + P ≤ 2 ^ 20 := by exact_mod_cast hHle
    have e1 : fl64 (((S / 3600 : ℕ) : ℚ) + (P : ℚ)) = ((S / 3600 : ℕ) : ℚ) + (P : ℚ) := by
      have := fl64_intCast ((S / 3600 + P : ℕ) : ℤ) (by rw [abs_of_nonneg (by positivity)]; omega)
      simpa using this
    rw [hSH, e1, add_sub_cancel_right]
  · have hsplit : (S : ℚ) / 3600 = (((S / 3600 : ℕ) : ℤ) : ℚ) + ((S % 3600 : ℕ) : ℚ) / 3600 := by
      have : S = 3600 * (S / 3600) + S % 3600 := by omega
      have hq : (S : ℚ) = 3600 * ((S / 3600 : ℕ) : ℚ) + ((S % 3600 : ℕ) : ℚ) := by
        exact_mod_cast this
      rw [Int.cast_natCast, div_eq_iff (by norm_num), hq]
      ring
    have hT := abs_le.mp (fl64_error ((S : ℚ) / 3600 + (P : ℚ)))
    rw [abs_of_nonneg (by linarith)] at hT
    obtain ⟨t1, t2⟩ := hT
    have hD := abs_le.mp (fl64_error (fl64 ((S : ℚ) / 3600 + (P : ℚ)) - (P : ℚ)))
    have hDabs : |fl64 ((S : ℚ) / 3600 + (P : ℚ)) - (P : ℚ)| ≤ 2 ^ 20 + 1 := by
      rw [abs_le]
      norm_num at t1 t2 hb ⊢
      constructor <;> linarith
    obtain ⟨u1, u2⟩ := hD
    have hR := abs_le.mp (fl64_error ((S : ℚ) / 3600))
    rw [abs_of_nonneg hS0] at hR
    obtain ⟨r1, r2⟩ := hR
    apply formatDuration_near (H := ((S / 3600 : ℕ) : ℤ)) (w := S % 3600) (by omega) (by omega)
      (by omega)
    · rw [← hsplit, abs_le]
      norm_num at t1 t2 u1 u2 hb hDabs ⊢
      have k1 := div_le_div_of_nonneg_right hDabs (by norm_num : (0 : ℚ) ≤ 9007199254740992)
      constructor <;> linarith
    · rw [← hsplit, abs_le]
      norm_num at r1 r2 hb ⊢
      constructor <;> linarith

/-- C19 (counterexample): `formatDuration(0)` is `'0 mins'`: the minutes
component is shown although it is zero. -/
theorem formatDuration_zero : formatDuration 0 = "0 mins" := by
  have hM : jsRound (fl64 (fl64 ((0 : ℚ) - ((0 : ℤ) : ℚ)) * 60)) = 0 := by
    rw [Int.cast_zero, sub_zero]
    exact minutes_zero
  rw [formatDuration_eval Int.floor_zero hM]
  decide

/-- C19 (amended): for every duration `h ≥ 0` with whole hours `H = floor(h)`
and exact remaining minutes `x = (h - H) * 60` not above `59.5 - 2^-40`,
`formatDuration` renders `'H hours M mins'` when `H ≥ 1` and `M ≥ 1`,
`'H hours'` when `H ≥ 1` and `M = 0`, and `'M mins'` when `H = 0`, also for
`M = 0`.  Here `M` is a whole number of minutes in 0..59 within
`1/2 + 2^-40` of `x`: it is the whole minute nearest to `x` whenever `x` is
`2^-40` or more away from a half-minute tie, and at a tie it is one of the two
neighbours, as the binary64 arithmetic of `(h - H) * 60` decides. -/
theorem formatDuration_cases (h : ℚ) (hh : 0 ≤ h)
    (hfrac : (h - (⌊h⌋ : ℤ)) * 60 ≤ 119 / 2 - 1 / 2 ^ 40) :
    ∃ H M : ℤ, H = ⌊h⌋ ∧ 0 ≤ H ∧ 0 ≤ M ∧ M ≤ 59 ∧
      |(h - (H : ℚ)) * 60 - (M : ℚ)| ≤ 1 / 2 + 1 / 2 ^ 40 ∧
      (∀ N : ℤ, |(h - (H : ℚ)) * 60 - (N : ℚ)| ≤ 1 / 2 - 1 / 2 ^ 40 → M = N) ∧
      (1 ≤ H → 1 ≤ M →
        formatDuration h = toString H ++ " hours " ++ toString M ++ " mins") ∧
      (1 ≤ H → M = 0 → formatDuration h = toString H ++ " hours") ∧
      (H = 0 → formatDuration h = toString M ++ " mins") := by
  have hH0 : 0 ≤ ⌊h⌋ := Int.floor_nonneg.mpr hh
  have hfl := Int.floor_le h
  have hfu := Int.lt_floor_add_one h
  have t0 : 0 ≤ h - (⌊h⌋ : ℤ) := by linarith
  have t1 : h - (⌊h⌋ : ℤ) ≤ 1 := by linarith
  obtain ⟨M, hM, hM0, hM59, hnear⟩ := minutes_range t0 t1 hfrac
  have hfd := formatDuration_eval (a := h) rfl hM
  refine ⟨⌊h⌋, M, rfl, hH0, hM0, hM59, hnear, ?_, ?_, ?_, ?_⟩
  · intro N hN
    rw [← hM]
    exact minutes_eval t0 t1 hN
  · intro h1 h2
    rw [hfd, if_pos ⟨by omega, by omega⟩]
  · intro h1 h2
    rw [hfd, if_neg (by omega), if_pos (by omega)]
  · intro h1
    rw [hfd, if_neg (by omega), if_neg (by omega)]

theorem formatDuration_cases_witness :
    ((0 : ℚ) ≤ 3 / 2 ∧
      ((3 / 2 : ℚ) - (⌊(3 / 2 : ℚ)⌋ : ℤ)) * 60 ≤ 119 / 2 - 1 / 2 ^ 40) ∧
    ∃ H M : ℤ, H = ⌊(3 / 2 : ℚ)⌋ ∧ 0 ≤ H ∧ 0 ≤ M ∧ M ≤ 59 ∧
      |((3 / 2 : ℚ) - (H : ℚ)) * 60 - (M : ℚ)| ≤ 1 / 2 + 1 / 2 ^ 40 ∧
      (∀ N : ℤ, |((3 / 2 : ℚ) - (H : ℚ)) * 60 - (N : ℚ)| ≤ 1 / 2 - 1 / 2 ^ 40 → M = N) ∧
      (1 ≤ H → 1 ≤ M →
        formatDuration (3 / 2) = toString H ++ " hours " ++ toString M ++ " mins") ∧
      (1 ≤ H → M = 0 → formatDuration (3 / 2) = toString H ++ " hours") ∧
      (H = 0 → formatDuration (3 / 2) = toString M ++ " mins") :=
  have hf : ⌊(3 / 2 : ℚ)⌋ = 1 := floor_eval (by norm_num) (by norm_num)
  have h1 : (0 : ℚ) ≤ 3 / 2 := by norm_num
  have h2 : ((3 / 2 : ℚ) - (⌊(3 / 2 : ℚ)⌋ : ℤ)) * 60 ≤ 119 / 2 - 1 / 2 ^ 40 := by
    rw [hf]; norm_num
  ⟨⟨h1, h2⟩, formatDuration_cases (3 / 2) h1 h2⟩

/-- The run of `halfMinuteFetch` over its two legs: 25230 s of driving and
one dwell of 3 h make 36030 s. -/
theorem halfMinute_result :
    calculateRouteDistance halfMinuteFetch (some ["Colombo", "Kandy", "Ella"]) {} () =
      (Except.ok (routeSummary {}
        { segments :=
            [{ «from» := "Colombo", «to» := "Kandy",
               distance := { text := numberToString 115000 ++ " m", value := 115000 },
               duration := { text := numberToString 10800 ++ " s", value := 10800 },
               index := 1 },
             { «from» := "Kandy", «to» := "Ella",
               distance := { text := numberToString 140000 ++ " m", value := 140000 },
               duration := { text := numberToString 14430 ++ " s", value := 14430 },
               index := 2 }]
          totalDistance := 255000
          totalDuration := 36030 }), ()) := by
  simp [calculateRouteDistance, routeLocations, routeLoop, calculateSegmentDistance,
    halfMinuteFetch, tableFetch, okBody, List.find?]
  norm_num

/-- The binary64 quotient `36030 / 3600`, less the dwell of 3 hours, is
rendered `'7 hours'`: the remaining minutes come to just under a half. -/
theorem halfMinute_subtracted :
    formatDuration (fl64 (fl64 (36030 / 3600) - fl64 (3 * (2 - 1)))) = "7 hours" := by
  have q1 : fl64 ((36030 : ℚ) / 3600) = 1408547695956241 / 140737488355328 := by
    rw [fl64_eval (-49) 5634190783824964 (by norm_num [abs_of_pos])
      (by norm_num [abs_of_pos]) (by norm_num) (by norm_num)]
    norm_num
  have q2 : fl64 ((3 : ℚ) * (2 - 1)) = 3 := by
    have := fl64_intCast 3 (by norm_num)
    norm_num at this ⊢
    exact this
  have q3 : fl64 ((1408547695956241 : ℚ) / 140737488355328 - 3) =
      986335230890257 / 140737488355328 := by
    rw [fl64_of_eq 986335230890257 (-47) (by norm_num) (by norm_num)]
    norm_num
  have hH : ⌊(986335230890257 : ℚ) / 140737488355328⌋ = 7 :=
    floor_eval (by norm_num) (by norm_num)
  have m1 : fl64 ((986335230890257 : ℚ) / 140737488355328 - ((7 : ℤ) : ℚ)) =
      1172812402961 / 140737488355328 := by
    rw [fl64_of_eq 1172812402961 (-47) (by norm_num) (by norm_num)]
    norm_num
  have m2 : fl64 ((1172812402961 : ℚ) / 140737488355328 * 60) =
      17592186044415 / 35184372088832 := by
    rw [fl64_of_eq 17592186044415 (-45) (by norm_num) (by norm_num)]
    norm_num
  have hM : jsRound (fl64 (fl64 ((986335230890257 : ℚ) / 140737488355328 - ((7 : ℤ) : ℚ)) *
      60)) = 0 := by
    rw [m1, m2]
    exact jsRound_eval (by norm_num) (by norm_num)
  rw [q1, q2, q3, formatDuration_eval hH hM]
  decide

/-- The binary64 quotient `25230 / 3600` is rendered `'7 hours 1 mins'`: the
remaining minutes come to just over a half. -/
theorem halfMinute_direct : formatDuration (fl64 (25230 / 3600)) = "7 hours 1 mins" := by
  have q1 : fl64 ((25230 : ℚ) / 3600) = 7890681847122057 / 1125899906842624 := by
    rw [fl64_eval (-50) 7890681847122057 (by norm_num [abs_of_pos])
      (by norm_num [abs_of_pos]) (by norm_num) (by norm_num)]
    norm_num
  have hH : ⌊(7890681847122057 : ℚ) / 1125899906842624⌋ = 7 :=
    floor_eval (by norm_num) (by norm_num)
  have m1 : fl64 ((7890681847122057 : ℚ) / 1125899906842624 - ((7 : ℤ) : ℚ)) =
      9382499223689 / 1125899906842624 := by
    rw [fl64_of_eq 9382499223689 (-50) (by norm_num) (by norm_num)]
    norm_num
  have m2 : fl64 ((9382499223689 : ℚ) / 1125899906842624 * 60) =
      140737488355335 / 281474976710656 := by
    rw [fl64_of_eq 140737488355335 (-48) (by norm_num) (by norm_num)]
    norm_num
  have hM : jsRound (fl64 (fl64 ((7890681847122057 : ℚ) / 1125899906842624 - ((7 : ℤ) : ℚ)) *
      60)) = 1 := by
    rw [m1, m2]
    exact jsRound_eval (by norm_num) (by norm_num)
  rw [q1, formatDuration_eval hH hM]
  decide

/-- Two durations of whole seconds that end on a half minute, as binary64
quotients: 3630 s is rendered `'1 hours'`, the half minute going down, and
4290 s is rendered `'1 hours 12 mins'`, the half minute going up. -/
theorem half_minute_renderings :
    formatDuration (fl64 (3630 / 3600)) = "1 hours" ∧
    formatDuration (fl64 (4290 / 3600)) = "1 hours 12 mins" := by
  constructor
  · have q1 : fl64 ((3630 : ℚ) / 3600) = 2270564812132625 / 2251799813685248 := by
      rw [fl64_eval (-52) 4541129624265250 (by norm_num [abs_of_pos])
        (by norm_num [abs_of_pos]) (by norm_num) (by norm_num)]
      norm_num
    have hH : ⌊(2270564812132625 : ℚ) / 2251799813685248⌋ = 1 :=
      floor_eval (by norm_num) (by norm_num)
    have m1 : fl64 ((2270564812132625 : ℚ) / 2251799813685248 - ((1 : ℤ) : ℚ)) =
        18764998447377 / 2251799813685248 := by
      rw [fl64_of_eq 18764998447377 (-51) (by norm_num) (by norm_num)]
      norm_num
    have m2 : fl64 ((18764998447377 : ℚ) / 2251799813685248 * 60) =
        281474976710655 / 562949953421312 := by
      rw [fl64_of_eq 281474976710655 (-49) (by norm_num) (by norm_num)]
      norm_num
    have hM : jsRound (fl64 (fl64 ((2270564812132625 : ℚ) / 2251799813685248 -
        ((1 : ℤ) : ℚ)) * 60)) = 0 := by
      rw [m1, m2]
      exact jsRound_eval (by norm_num) (by norm_num)
    rw [q1, formatDuration_eval hH hM]
    decide
  · have q1 : fl64 ((4290 : ℚ) / 3600) = 5366789555949841 / 4503599627370496 := by
      rw [fl64_eval (-52) 5366789555949841 (by norm_num [abs_of_pos])
        (by norm_num [abs_of_pos]) (by norm_num) (by norm_num)]
      norm_num
    have hH : ⌊(5366789555949841 : ℚ) / 4503599627370496⌋ = 1 :=
      floor_eval (by norm_num) (by norm_num)
    have m1 : fl64 ((5366789555949841 : ℚ) / 4503599627370496 - ((1 : ℤ) : ℚ)) =
        863189928579345 / 4503599627370496 := by
      rw [fl64_of_eq 863189928579345 (-52) (by norm_num) (by norm_num)]
      norm_num
    have m2 : fl64 ((863189928579345 : ℚ) / 4503599627370496 * 60) = 23 / 2 := by
      have hy : (863189928579345 : ℚ) / 4503599627370496 * 60 / (2 : ℚ) ^ (-49 : ℤ) =
          ((6473924464345087 : ℤ) : ℚ) + 1 / 2 := by norm_num
      rw [fl64_binade (-49) (by norm_num [abs_of_pos]) (by norm_num [abs_of_pos]), hy,
        roundHalfEven_odd_half 6473924464345087 (by norm_num)]
      norm_num
    have hM : jsRound (fl64 (fl64 ((5366789555949841 : ℚ) / 4503599627370496 -
        ((1 : ℤ) : ℚ)) * 60)) = 12 := by
      rw [m1, m2]
      exact jsRound_eval (by norm_num) (by norm_num)
    rw [q1, formatDuration_eval hH hM]
    decide

/-- C20 (counterexample): for the route Colombo, Kandy, Ella with legs of
10800 s and 14430 s and a dwell of 3 hours, `feasibility.drivingTime` is
`'7 hours'`, while `formatDuration` of the sum of the segment durations
divided by 3600 is `'7 hours 1 mins'`: at a half minute of driving the
subtraction of the dwell in binary64 tips the rounding the other way. -/
theorem drivingTime_half_minute :
    ∃ r, calculateRouteDistance halfMinuteFetch (some ["Colombo", "Kandy", "Ella"]) {} () =
        (Except.ok r, ()) ∧
      (r.segments.map (fun g => g.duration.value)).sum = 25230 ∧
      r.feasibility.drivingTime = "7 hours" ∧
      formatDuration (fl64 ((r.segments.map (fun g => g.duration.value)).sum / 3600)) =
        "7 hours 1 mins" ∧
      r.feasibility.drivingTime ≠
        formatDuration (fl64 ((r.segments.map (fun g => g.duration.value)).sum / 3600)) := by
  refine ⟨_, halfMinute_result, ?_, ?_, ?_, ?_⟩
  · simp [routeSummary]
    norm_num
  · show formatDuration (fl64 (fl64 (36030 / 3600) - fl64 (3 * (((2 : ℕ) : ℚ) - 1)))) = _
    rw [Nat.cast_ofNat]
    exact halfMinute_subtracted
  · have hs : ((routeSummary {}
        { segments :=
            [{ «from» := "Colombo", «to» := "Kandy",
               distance := { text := numberToString 115000 ++ " m", value := 115000 },
               duration := { text := numberToString 10800 ++ " s", value := 10800 },
               index := 1 },
             { «from» := "Kandy", «to» := "Ella",
               distance := { text := numberToString 140000 ++ " m", value := 140000 },
               duration := { text := numberToString 14430 ++ " s", value := 14430 },
               index := 2 }]
          totalDistance := 255000
          totalDuration := 36030 }).segments.map (fun g => g.duration.value)).sum =
        25230 := by
      simp [routeSummary]
      norm_num
    rw [hs]
    exact halfMinute_direct
  · have hs : ((routeSummary {}
        { segments :=
            [{ «from» := "Colombo", «to» := "Kandy",
               distance := { text := numberToString 115000 ++ " m", value := 115000 },
               duration := { text := numberToString 10800 ++ " s", value := 10800 },
               index := 1 },
             { «from» := "Kandy", «to» := "Ella",
               distance := { text := numberToString 140000 ++ " m", value := 140000 },
               duration := { text := numberToString 14430 ++ " s", value := 14430 },
               index := 2 }]
          totalDistance := 255000
          totalDuration := 36030 }).segments.map (fun g => g.duration.value)).sum =
        25230 := by
      simp [routeSummary]
      norm_num
    have hd : (routeSummary {}
        { segments :=
            [{ «from» := "Colombo", «to» := "Kandy",
               distance := { text := numberToString 115000 ++ " m", value := 115000 },
               duration := { text := numberToString 10800 ++ " s", value := 10800 },
               index := 1 },
             { «from» := "Kandy", «to» := "Ella",
               distance := { text := numberToString 140000 ++ " m", value := 140000 },
               duration := { text := numberToString 14430 ++ " s", value := 14430 },
               index := 2 }]
          totalDistance := 255000
          totalDuration := 36030 }).feasibility.drivingTime = "7 hours" := by
      show formatDuration (fl64 (fl64 (36030 / 3600) - fl64 (3 * (((2 : ℕ) : ℚ) - 1)))) = _
      rw [Nat.cast_ofNat]
      exact halfMinute_subtracted
    rw [hs, hd, halfMinute_direct]
    decide

/-- C20 (amended): for every successful `calculateRouteDistance` call whose
segment durations are whole seconds with sum `S`, whose `additionalStopTime`
is a whole number `k` of hours, and whose total duration is at most `2^20`
hours: when `S` is not a whole number of minutes plus 30 seconds,
`feasibility.drivingTime` is `formatDuration` of the sum of the segment
durations in seconds divided by 3600, every summed duration being the
provider's answer for its leg; and in every such call that pure driving time
is the total duration minus the dwell overhead
`additionalStopTime * max(0, stops - 2)` that was added. -/
theorem drivingTime_is_pure_driving {σ : Type} (fetch : Fetch σ)
    (locations : Option (List String)) (options : RouteOptions) (w w' : σ) (r : RouteResult)
    (k S : ℕ)
    (h : calculateRouteDistance fetch locations options w = (Except.ok r, w'))
    (hk : options.additionalStopTime = (k : ℚ))
    (hlegs : ∀ g ∈ r.segments, ∃ n : ℕ, g.duration.value = (n : ℚ))
    (hS : (r.segments.map (fun g => g.duration.value)).sum = (S : ℚ))
    (hbound : r.totalDuration ≤ 2 ^ 20) :
    ∃ locs : List String, locations = some locs ∧
      (∀ g ∈ r.segments, ProviderAnswered fetch g) ∧
      (S % 60 ≠ 30 → r.feasibility.drivingTime =
        formatDuration (fl64 ((r.segments.map (fun g => g.duration.value)).sum / 3600))) ∧
      (r.segments.map (fun g => g.duration.value)).sum / 3600 =
        r.totalDuration - options.additionalStopTime *
          max 0 (((routeLocations locs options.isReturnTrip).length : ℚ) - 2) := by
  obtain ⟨locs, acc, rfl, hlen, hloop, rfl⟩ :=
    calculateRouteDistance_ok fetch locations options w w' r h
  have hn := routeLocations_length locs hlen options.isReturnTrip
  obtain ⟨segs, h1, h2, _, h4⟩ :=
    routeLoop_ok fetch options.additionalStopTime _ _ 0 _ w acc w' (Nat.zero_add _) hloop
  simp only [List.nil_append] at h1
  have hprov := routeLoop_provider fetch options.additionalStopTime _ _ 0 _ w acc w' hloop
    (by simp)
  have hn2 : 2 ≤ (routeLocations locs options.isReturnTrip).length := by omega
  have hcast : (((routeLocations locs options.isReturnTrip).length - 2 : ℕ) : ℚ) =
      ((routeLocations locs options.isReturnTrip).length : ℚ) - 2 := by
    rw [Nat.cast_sub hn2]; simp
  have hseglen : (acc.segments.length : ℚ) =
      ((routeLocations locs options.isReturnTrip).length : ℚ) - 1 := by
    rw [h1, h2, Nat.cast_sub (by omega)]; simp
  have hmax : max 0 (((routeLocations locs options.isReturnTrip).length : ℚ) - 2) =
      ((routeLocations locs options.isReturnTrip).length : ℚ) - 2 := by
    apply max_eq_right
    have : (2 : ℚ) ≤ ((routeLocations locs options.isReturnTrip).length : ℚ) := by
      exact_mod_cast hn2
    linarith
  have hdur : acc.totalDuration = (acc.segments.map (fun g => g.duration.value)).sum +
      options.additionalStopTime * 3600 *
        (((routeLocations locs options.isReturnTrip).length : ℚ) - 2) := by
    rw [h4, h1, hcast]; ring
  have hS' : (acc.segments.map (fun g => g.duration.value)).sum = (S : ℚ) := hS
  have hb' : acc.totalDuration / 3600 ≤ 2 ^ 20 := hbound
  have hwhole : ∀ g ∈ acc.segments, ∃ n : ℕ, g.duration.value = (n : ℚ) := hlegs
  have hdwell : options.additionalStopTime * ((acc.segments.length : ℚ) - 1) =
      ((k * ((routeLocations locs options.isReturnTrip).length - 2) : ℕ) : ℚ) := by
    rw [hseglen, hk, Nat.cast_mul, hcast]; ring
  have htotal : acc.totalDuration / 3600 =
      (S : ℚ) / 3600 + ((k * ((routeLocations locs options.isReturnTrip).length - 2) : ℕ) : ℚ) := by
    rw [hdur, hS', hk, Nat.cast_mul, hcast]; ring
  refine ⟨locs, rfl, hprov, ?_, ?_⟩
  · intro hhalf
    show formatDuration (fl64 (fl64 (acc.totalDuration / 3600) -
        fl64 (options.additionalStopTime * ((acc.segments.length : ℚ) - 1)))) =
      formatDuration (fl64 ((acc.segments.map (fun g => g.duration.value)).sum / 3600))
    rw [hdwell, hS']
    rw [htotal] at hb' ⊢
    exact drivingTime_arith S _ hhalf hb'
  · show (acc.segments.map (fun g => g.duration.value)).sum / 3600 =
      acc.totalDuration / 3600 - _
    rw [hmax, hdur]
    ring

theorem drivingTime_is_pure_driving_witness :
    ∃ r, calculateRouteDistance scenarioFetch (some ["Colombo", "Kandy", "Ella"]) {} () =
        (Except.ok r, ()) ∧
      r.feasibility.drivingTime =
        formatDuration (fl64 ((r.segments.map (fun g => g.duration.value)).sum / 3600)) := by
  have hk : ({} : RouteOptions).additionalStopTime = ((3 : ℕ) : ℚ) := by
    show (3 : ℚ) = ((3 : ℕ) : ℚ)
    norm_num
  obtain ⟨locs, _, _, h3, _⟩ :=
    drivingTime_is_pure_driving scenarioFetch (some ["Colombo", "Kandy", "Ella"]) {} () () _
      3 25200 scenarioB_result hk
      (by
        intro g hg
        simp [routeSummary] at hg
        rcases hg with rfl | rfl
        · exact ⟨10800, by norm_num⟩
        · exact ⟨14400, by norm_num⟩)
      (by simp [routeSummary]; norm_num)
      (by show (36000 : ℚ) / 3600 ≤ 2 ^ 20; norm_num)
  exact ⟨_, scenarioB_result, h3 (by decide)⟩

/-! ## Lemmas on the matcher -/

/-- A class matches one character of the class. -/
theorem cls_run_iff (p : Char → Bool) (s : Bool) (cs : List Char)
    (k : Bool → List Char → Bool) :
    (Re.cls p).run s cs k = true ↔
      ∃ c rest, cs = c :: rest ∧ p c = true ∧ k false rest = true := by
  cases cs with
  | nil => simp [Re.run]
  | cons c rest =>
    simp only [Re.run, Bool.and_eq_true]
    constructor
    · rintro ⟨h1, h2⟩
      exact ⟨c, rest, rfl, h1, h2⟩
    · rintro ⟨c', rest', h0, h1, h2⟩
      simp only [List.cons.injEq] at h0
      obtain ⟨rfl, rfl⟩ := h0
      exact ⟨h1, h2⟩

/-- The pattern `X*` matches a run of characters of the class. -/
theorem starRun_iff (p : Char → Bool) (k : Bool → List Char → Bool) :
    ∀ (cs : List Char) (s : Bool), starRun p k s cs = true ↔
      ∃ pre rest, cs = pre ++ rest ∧ (∀ c ∈ pre, p c = true) ∧
        k (s && pre.isEmpty) rest = true := by
  intro cs
  induction cs with
  | nil =>
    intro s
    simp only [starRun]
    constructor
    · intro h
      exact ⟨[], [], rfl, by simp, by simpa using h⟩
    · rintro ⟨pre, rest, h1, _, h3⟩
      have hp : pre = [] := (List.append_eq_nil.mp h1.symm).1
      have hr : rest = [] := (List.append_eq_nil.mp h1.symm).2
      subst hp hr
      simpa using h3
  | cons c t ih =>
    intro s
    simp only [starRun, Bool.or_eq_true, Bool.and_eq_true]
    constructor
    · rintro (⟨hc, h⟩ | h)
      · obtain ⟨pre, rest, h1, h2, h3⟩ := (ih false).mp h
        refine ⟨c :: pre, rest, by rw [h1]; rfl, ?_, ?_⟩
        · intro x hx
          rcases List.mem_cons.mp hx with rfl | hx
          · exact hc
          · exact h2 x hx
        · simpa using h3
      · exact ⟨[], c :: t, rfl, by simp, by simpa using h⟩
    · rintro ⟨pre, rest, h1, h2, h3⟩
      cases pre with
      | nil =>
        right
        simp only [List.nil_append] at h1
        rw [h1]
        simpa using h3
      | cons x pre' =>
        left
        simp only [List.cons_append, List.cons.injEq] at h1
        obtain ⟨rfl, rfl⟩ := h1
        refine ⟨h2 c (List.mem_cons_self _ _), (ih false).mpr ⟨pre', rest, rfl, ?_, ?_⟩⟩
        · intro y hy
          exact h2 y (List.mem_cons_of_mem _ hy)
        · simpa using h3

/-- The pattern `X{n}` matches exactly `n` characters of the class. -/
theorem rep_cls_iff (p : Char → Bool) (k : Bool → List Char → Bool) :
    ∀ (n : ℕ) (cs : List Char) (s : Bool), ((Re.cls p).rep n).run s cs k = true ↔
      ∃ pre rest, cs = pre ++ rest ∧ pre.length = n ∧ (∀ c ∈ pre, p c = true) ∧
        k (s && decide (n = 0)) rest = true := by
  intro n
  induction n with
  | zero =>
    intro cs s
    simp only [Re.rep, Re.run]
    constructor
    · intro h
      exact ⟨[], cs, rfl, rfl, by simp, by simpa using h⟩
    · rintro ⟨pre, rest, h1, h2, _, h4⟩
      have hp : pre = [] := List.length_eq_zero.mp h2
      subst hp
      simp only [List.nil_append] at h1
      subst h1
      simpa using h4
  | succ n ih =>
    intro cs s
    simp only [Re.rep, Re.run]
    rw [cls_run_iff]
    constructor
    · rintro ⟨c, rest, rfl, hc, h⟩
      obtain ⟨pre, rest', h1, h2, h3, h4⟩ := (ih rest false).mp h
      refine ⟨c :: pre, rest', by rw [h1]; rfl, by simp [h2], ?_, ?_⟩
      · intro x hx
        rcases List.mem_cons.mp hx with rfl | hx
        · exact hc
        · exact h3 x hx
      · simpa using h4
    · rintro ⟨pre, rest, h1, h2, h3, h4⟩
      cases pre with
      | nil => simp at h2
      | cons x pre' =>
        refine ⟨x, pre' ++ rest, by rw [h1]; rfl, h3 x (List.mem_cons_self _ _), ?_⟩
        refine (ih (pre' ++ rest) false).mpr ⟨pre', rest, rfl, by simpa using h2, ?_, ?_⟩
        · intro y hy
          exact h3 y (List.mem_cons_of_mem _ hy)
        · simpa using h4

/-- A pattern that begins with `^` matches at the start of the input only. -/
theorem search_bol (r : Re) :
    ∀ cs : List Char, Re.search (Re.seq Re.bol r) false cs = false := by
  intro cs
  induction cs with
  | nil => simp [Re.search, Re.run]
  | cons c t ih => simp [Re.search, Re.run, ih]

/-- The method `test` for a pattern that begins with `^`. -/
theorem test_bol (r : Re) (s : String) :
    (Re.seq Re.bol r).test s = r.run true s.data (fun _ _ => true) := by
  unfold Re.test
  cases h : s.data with
  | nil => simp [Re.search, Re.run]
  | cons c t => simp [Re.search, Re.run, search_bol]

/-- The look-ahead `(?=.*X)`: a character of the class `X` comes after
characters that are no line terminators. -/
theorem dotStar_cls_iff (q : Char → Bool) (s : Bool) (cs : List Char) :
    (Re.seq (Re.star isDot) (Re.cls q)).run s cs (fun _ _ => true) = true ↔
      ∃ pre c rest, cs = pre ++ c :: rest ∧ (∀ x ∈ pre, isDot x = true) ∧ q c = true := by
  simp only [Re.run]
  rw [starRun_iff]
  constructor
  · rintro ⟨pre, rest, h1, h2, h3⟩
    obtain ⟨c, rest', rfl, hc, _⟩ := (cls_run_iff q _ rest _).mp h3
    exact ⟨pre, c, rest', h1, h2, hc⟩
  · rintro ⟨pre, c, rest, h1, h2, h3⟩
    exact ⟨pre, c :: rest, h1, h2, (cls_run_iff q _ _ _).mpr ⟨c, rest, rfl, h3, rfl⟩⟩

/-- A look-ahead in front of a pattern: both must match at the position. -/
theorem lookahead_seq_run (a b : Re) (s : Bool) (cs : List Char)
    (k : Bool → List Char → Bool) :
    (Re.seq (Re.lookahead a) b).run s cs k =
      (a.run s cs (fun _ _ => true) && b.run s cs k) := by
  simp only [Re.run]

/-- The pattern `X{n,}$` matches an input of at least `n` characters, all of
the class. -/
theorem atLeast_eol_iff (p : Char → Bool) (n : ℕ) (s : Bool) (cs : List Char) :
    (Re.seq (Re.seq (Re.rep (Re.cls p) n) (Re.star p)) Re.eol).run s cs (fun _ _ => true) = true ↔
      n ≤ cs.length ∧ ∀ c ∈ cs, p c = true := by
  have hunf : (Re.seq (Re.seq (Re.rep (Re.cls p) n) (Re.star p)) Re.eol).run s cs
      (fun _ _ => true) =
      (Re.rep (Re.cls p) n).run s cs
        (fun s1 r => starRun p (fun _ r2 => r2.isEmpty && true) s1 r) := by
    simp only [Re.run]
  rw [hunf, rep_cls_iff]
  constructor
  · rintro ⟨pre, rest, h1, h2, h3, h4⟩
    obtain ⟨pre2, rest2, h5, h6, h7⟩ := (starRun_iff p _ rest _).mp h4
    have hr2 : rest2 = [] := by simpa using h7
    subst hr2
    subst h5
    subst h1
    refine ⟨by simp [h2], ?_⟩
    intro c hc
    simp only [List.append_nil, List.mem_append] at hc
    rcases hc with hc | hc
    · exact h3 c hc
    · exact h6 c hc
  · rintro ⟨h1, h2⟩
    refine ⟨cs.take n, cs.drop n, (List.take_append_drop n cs).symm, ?_, ?_, ?_⟩
    · simp [List.length_take, h1]
    · intro c hc
      exact h2 c (List.mem_of_mem_take hc)
    · refine (starRun_iff p _ _ _).mpr ⟨cs.drop n, [], by simp, ?_, by simp⟩
      intro c hc
      exact h2 c (List.mem_of_mem_drop hc)

/-- A character of the password class is no line terminator. -/
theorem isDot_of_isPasswordChar (c : Char) (h : isPasswordChar c = true) : isDot c = true := by
  simp only [isDot, Bool.not_eq_true', Bool.or_eq_false_iff, decide_eq_false_iff_not]
  refine ⟨⟨⟨?_, ?_⟩, ?_⟩, ?_⟩ <;>
  · rintro rfl
    revert h
    decide

/-- In an input of password characters, `(?=.*X)` holds exactly when a
character of the class `X` occurs. -/
theorem dotStar_cls_of_passwordChars (q : Char → Bool) (s : Bool) (cs : List Char)
    (hall : ∀ c ∈ cs, isPasswordChar c = true) :
    (Re.seq (Re.star isDot) (Re.cls q)).run s cs (fun _ _ => true) = true ↔
      ∃ c ∈ cs, q c = true := by
  rw [dotStar_cls_iff]
  constructor
  · rintro ⟨pre, c, rest, rfl, _, hc⟩
    exact ⟨c, by simp, hc⟩
  · rintro ⟨c, hc, hq⟩
    obtain ⟨pre, rest, rfl⟩ := List.append_of_mem hc
    refine ⟨pre, c, rest, rfl, ?_, hq⟩
    intro x hx
    exact isDot_of_isPasswordChar x (hall x (by simp [hx]))

/-- What `isValidPassword` accepts. -/
theorem isValidPassword_iff (s : String) :
    isValidPassword s = true ↔
      8 ≤ s.length ∧ (∃ c ∈ s.data, isUpperAZ c = true) ∧
      (∃ c ∈ s.data, isLowerAZ c = true) ∧ (∃ c ∈ s.data, isDigit09 c = true) ∧
      ∀ c ∈ s.data, isPasswordChar c = true := by
  have hlen : s.length = s.data.length := rfl
  unfold isValidPassword passwordRegex
  rw [test_bol, lookahead_seq_run, lookahead_seq_run, lookahead_seq_run]
  simp only [Bool.and_eq_true]
  rw [atLeast_eol_iff, hlen]
  constructor
  · rintro ⟨h1, h2, h3, h4, h5⟩
    exact ⟨h4, (dotStar_cls_of_passwordChars _ _ _ h5).mp h2,
      (dotStar_cls_of_passwordChars _ _ _ h5).mp h1,
      (dotStar_cls_of_passwordChars _ _ _ h5).mp h3, h5⟩
  · rintro ⟨h1, h2, h3, h4, h5⟩
    exact ⟨(dotStar_cls_of_passwordChars _ _ _ h5).mpr h3,
      (dotStar_cls_of_passwordChars _ _ _ h5).mpr h2,
      (dotStar_cls_of_passwordChars _ _ _ h5).mpr h4, h1, h5⟩

/-- Concatenation runs its second part in the continuation of the first. -/
theorem seq_run (a b : Re) (s : Bool) (cs : List Char) (k : Bool → List Char → Bool) :
    (Re.seq a b).run s cs k = a.run s cs (fun s1 r => b.run s1 r k) := by
  simp only [Re.run]

/-- Alternation tries its first part, then its second. -/
theorem alt_run (a b : Re) (s : Bool) (cs : List Char) (k : Bool → List Char → Bool) :
    (Re.alt a b).run s cs k = (a.run s cs k || b.run s cs k) := by
  simp only [Re.run]

/-- The pattern `X{n}$` matches an input of exactly `n` characters, all of the
class. -/
theorem exactly_eol_iff (p : Char → Bool) (n : ℕ) (s : Bool) (cs : List Char) :
    (Re.seq (Re.rep (Re.cls p) n) Re.eol).run s cs (fun _ _ => true) = true ↔
      cs.length = n ∧ ∀ c ∈ cs, p c = true := by
  have hunf : (Re.seq (Re.rep (Re.cls p) n) Re.eol).run s cs (fun _ _ => true) =
      (Re.rep (Re.cls p) n).run s cs (fun _ r => r.isEmpty && true) := by
    simp only [Re.run]
  rw [hunf, rep_cls_iff]
  constructor
  · rintro ⟨pre, rest, h1, h2, h3, h4⟩
    have hr : rest = [] := by simpa using h4
    subst hr
    subst h1
    exact ⟨by simpa using h2, by simpa using h3⟩
  · rintro ⟨h1, h2⟩
    exact ⟨cs, [], by simp, h1, h2, by simp⟩

/-- What `isValidPhone` accepts. -/
theorem isValidPhone_iff (s : String) :
    isValidPhone s = true ↔
      ∃ d : List Char, d.length = 9 ∧ (∀ c ∈ d, isDigit09 c = true) ∧
        (s.data = '+' :: '9' :: '4' :: d ∨ s.data = '0' :: d) := by
  unfold isValidPhone phoneRegex
  rw [test_bol, seq_run, alt_run, Bool.or_eq_true]
  constructor
  · rintro (h | h)
    · rw [seq_run, cls_run_iff] at h
      obtain ⟨c1, r1, e1, p1, h⟩ := h
      rw [seq_run, cls_run_iff] at h
      obtain ⟨c2, r2, e2, p2, h⟩ := h
      rw [cls_run_iff] at h
      obtain ⟨c3, r3, e3, p3, h⟩ := h
      obtain ⟨hl, hd⟩ := (exactly_eol_iff isDigit09 9 false r3).mp h
      refine ⟨r3, hl, hd, Or.inl ?_⟩
      rw [e1, e2, e3, of_decide_eq_true p1, of_decide_eq_true p2, of_decide_eq_true p3]
    · rw [cls_run_iff] at h
      obtain ⟨c1, r1, e1, p1, h⟩ := h
      obtain ⟨hl, hd⟩ := (exactly_eol_iff isDigit09 9 false r1).mp h
      refine ⟨r1, hl, hd, Or.inr ?_⟩
      rw [e1, of_decide_eq_true p1]
  · rintro ⟨d, hl, hd, h | h⟩
    · left
      rw [seq_run, cls_run_iff]
      refine ⟨'+', '9' :: '4' :: d, h, by decide, ?_⟩
      rw [seq_run, cls_run_iff]
      refine ⟨'9', '4' :: d, rfl, by decide, ?_⟩
      rw [cls_run_iff]
      exact ⟨'4', d, rfl, by decide, (exactly_eol_iff isDigit09 9 false d).mpr ⟨hl, hd⟩⟩
    · right
      rw [cls_run_iff]
      exact ⟨'0', d, h, by decide, (exactly_eol_iff isDigit09 9 false d).mpr ⟨hl, hd⟩⟩

/-! ## Claims on the validators -/

/-- C22 (the code departs from the claim): `isValidPassword` accepts a string
if and only if it has at least 8 characters, an uppercase letter, a lowercase
letter and a digit, and moreover consists only of characters of
`[a-zA-Z\d@$!%*?&]`.  The string `Password1#` has 10 characters, an
uppercase letter, a lowercase letter and a digit, and is rejected, while the
password rule of `registerValidation` accepts it. -/
theorem isValidPassword_charset :
    (∀ s : String, isValidPassword s = true ↔
      8 ≤ s.length ∧ (∃ c ∈ s.data, isUpperAZ c = true) ∧
      (∃ c ∈ s.data, isLowerAZ c = true) ∧ (∃ c ∈ s.data, isDigit09 c = true) ∧
      ∀ c ∈ s.data, isPasswordChar c = true) ∧
    (8 ≤ "Password1#".length ∧ isUpperAZ 'P' = true ∧ 'P' ∈ "Password1#".data ∧
      isLowerAZ 'a' = true ∧ 'a' ∈ "Password1#".data ∧
      isDigit09 '1' = true ∧ '1' ∈ "Password1#".data) ∧
    isValidPassword "Password1#" = false ∧
    registerPasswordRule "Password1#" = true := by
  refine ⟨isValidPassword_iff, ?_, by decide, by decide⟩
  decide

/-- C23: `isValidPhone` accepts a string if and only if it is exactly `+94`
followed by 9 decimal digits or exactly `0` followed by 9 decimal digits;
`+94771234567` and `0771234567` are accepted, and a blank before or a line
break after a valid number makes it rejected. -/
theorem isValidPhone_spec (s : String) :
    (isValidPhone s = true ↔
      ∃ d : List Char, d.length = 9 ∧ (∀ c ∈ d, isDigit09 c = true) ∧
        (s = String.mk ('+' :: '9' :: '4' :: d) ∨ s = String.mk ('0' :: d))) ∧
    (∀ c : Char, isDigit09 c = true ↔
      c ∈ ['0', '1', '2', '3', '4', '5', '6', '7', '8', '9']) ∧
    isValidPhone "+94771234567" = true ∧ isValidPhone "0771234567" = true ∧
    isValidPhone " 0771234567" = false ∧ isValidPhone "0771234567\n" = false ∧
    isValidPhone "94771234567" = false ∧ isValidPhone "077123456" = false := by
  refine ⟨?_, ?_, by decide, by decide, by decide, by decide, by decide, by decide⟩
  · rw [isValidPhone_iff]
    constructor
    · rintro ⟨d, h1, h2, h3⟩
      refine ⟨d, h1, h2, ?_⟩
      rcases h3 with h3 | h3
      · left; rw [← h3]
      · right; rw [← h3]
    · rintro ⟨d, h1, h2, h3⟩
      refine ⟨d, h1, h2, ?_⟩
      rcases h3 with h3 | h3
      · left; rw [h3]
      · right; rw [h3]
  · intro c
    constructor
    · intro h
      simp only [isDigit09, Bool.and_eq_true, decide_eq_true_eq] at h
      have a1 : 48 ≤ c.toNat := h.1
      have a2 : c.toNat ≤ 57 := h.2
      have hc : c = Char.ofNat c.toNat := (Char.ofNat_toNat c).symm
      generalize c.toNat = n at a1 a2 hc
      subst hc
      interval_cases n <;> decide
    · intro h
      simp only [List.mem_cons, List.mem_singleton, List.not_mem_nil, or_false] at h
      rcases h with rfl | rfl | rfl | rfl | rfl | rfl | rfl | rfl | rfl | rfl <;> decide

/-! ## Lemmas on the accommodation charge for whole days -/

/-- The accommodation charge for a whole number of days, case by case. -/
theorem accommodationCharge_int (t : ℤ) :
    (t ≤ 1 → accommodationCharge (t : ℚ) false = 0) ∧
    (t = 2 → accommodationCharge (t : ℚ) false = 3000) ∧
    (t = 3 → accommodationCharge (t : ℚ) false = 5000) ∧
    (4 ≤ t → accommodationCharge (t : ℚ) false = 7000) := by
  refine ⟨?_, ?_, ?_, ?_⟩
  · intro h
    exact accommodationCharge_single_day (by exact_mod_cast h) false
  · rintro rfl
    exact_mod_cast accommodationCharge_two
  · rintro rfl
    exact_mod_cast accommodationCharge_three
  · intro h
    exact accommodationCharge_capped (by exact_mod_cast h)

/-- A whole number of days falls in one of the four cases of the charge. -/
theorem days_cases (t : ℤ) : t ≤ 1 ∨ t = 2 ∨ t = 3 ∨ 4 ≤ t := by omega

/-- Every system rate of the table is five times a positive integer. -/
theorem systemRate_multiple_of_five {v : VehicleCategory} (hv : v ∈ VEHICLE_CATEGORIES) :
    ∃ q : ℤ, 1 ≤ q ∧ v.systemRate = 5 * (q : ℚ) := by
  rcases (mem_table_iff v).mp hv with rfl | rfl | rfl | rfl | rfl
  · exact ⟨26, by norm_num, by norm_num [cars]⟩
  · exact ⟨29, by norm_num, by norm_num [kdh_flat_roof]⟩
  · exact ⟨32, by norm_num, by norm_num [kdh_high_roof]⟩
  · exact ⟨29, by norm_num, by norm_num [other_vans]⟩
  · exact ⟨42, by norm_num, by norm_num [mini_buses]⟩

/-- The five entries of `categoryMapping`. -/
theorem categoryMapping_values :
    categoryMapping cars.id = some 1 ∧ categoryMapping kdh_flat_roof.id = some 2 ∧
    categoryMapping kdh_high_roof.id = some 3 ∧ categoryMapping other_vans.id = some 4 ∧
    categoryMapping mini_buses.id = some 5 :=
  ⟨rfl, rfl, rfl, rfl, rfl⟩

/-! ## Claims on the table, the fare and the booking payload -/

/-- C24: `getSuitableVehicles(n)` is non-empty if and only if `1 ≤ n ≤ 4` or
`6 ≤ n ≤ 25`; the passenger selector offers 5, and a party of 5 matches no
vehicle category. -/
theorem suitable_nonempty_iff (n : ℚ) :
    (getSuitableVehicles n ≠ [] ↔ (1 ≤ n ∧ n ≤ 4) ∨ (6 ≤ n ∧ n ≤ 25)) ∧
    (5 : ℚ) ∈ passengerOptions ∧ getSuitableVehicles 5 = [] := by
  refine ⟨?_, by simp [passengerOptions], by rfl⟩
  rw [Ne, getSuitableVehicles, List.filter_eq_nil_iff]
  simp only [VEHICLE_CATEGORIES, List.mem_cons, List.mem_singleton, List.not_mem_nil, or_false,
    Bool.and_eq_true, decide_eq_true_eq, not_forall, forall_eq_or_imp, forall_eq]
  simp only [cars, kdh_flat_roof, kdh_high_roof, other_vans, mini_buses]
  constructor
  · intro h
    by_contra hc
    apply h
    simp only [not_or, not_and, not_le] at hc
    obtain ⟨hc1, hc2⟩ := hc
    refine ⟨?_, ?_, ?_, ?_, ?_⟩ <;> intro hx <;> rcases hx with ⟨x1, x2⟩
    · exact absurd x2 (not_le.mpr (hc1 x1))
    · exact absurd (le_trans x2 (by norm_num)) (not_le.mpr (hc2 x1))
    · exact absurd (le_trans x2 (by norm_num)) (not_le.mpr (hc2 x1))
    · exact absurd (le_trans x2 (by norm_num)) (not_le.mpr (hc2 x1))
    · exact absurd x2 (not_le.mpr (hc2 (le_trans (by norm_num) x1)))
  · rintro (⟨h1, h2⟩ | ⟨h1, h2⟩) hall
    · exact hall.1 ⟨h1, h2⟩
    · rcases le_total n 12 with h12 | h12
      · exact hall.2.2.1 ⟨h1, h12⟩
      · exact hall.2.2.2.2 ⟨h12, h2⟩

/-- C26: for every table category, map distance and integer `tripDays ≥ 1`,
`calculateTripCost` returns `accommodationCost = 0` if and only if
`accommodationProvided` is true or `tripDays = 1`; so the payload flag
`driverAccommodationProvided`, computed as `accommodationCost === 0`, is true
exactly in that case. -/
theorem accommodation_zero_iff (v : VehicleCategory) (hv : v ∈ VEHICLE_CATEGORIES)
    (d : ℚ) (t : ℤ) (ht : 1 ≤ t) (a : Bool) :
    ∃ r, calculateTripCost d v.id (t : ℚ) a = Except.ok r ∧
      (r.accommodationCost = 0 ↔ (a = true ∨ t = 1)) ∧
      (driverAccommodationProvided r = true ↔ (a = true ∨ t = 1)) := by
  have key : accommodationCharge (t : ℚ) a = 0 ↔ (a = true ∨ t = 1) := by
    cases a with
    | true => simp [accommodationCharge_provided]
    | false =>
      obtain ⟨c1, c2, c3, c4⟩ := accommodationCharge_int t
      rcases days_cases t with h | h | h | h
      · rw [c1 h]
        have : t = 1 := by omega
        simp [this]
      · rw [c2 h]; subst h; norm_num
      · rw [c3 h]; subst h; norm_num
      · rw [c4 h]
        have : t ≠ 1 := by omega
        simp [this]
  refine ⟨_, calculateTripCost_of_mem hv d t a, key, ?_⟩
  simp only [driverAccommodationProvided, decide_eq_true_eq]
  exact key

theorem accommodation_zero_iff_witness :
    (1 : ℤ) ≤ 3 ∧
    ∃ r, calculateTripCost 115 "cars" ((3 : ℤ) : ℚ) false = Except.ok r ∧
      (r.accommodationCost = 0 ↔ (false = true ∨ (3 : ℤ) = 1)) ∧
      (driverAccommodationProvided r = true ↔ (false = true ∨ (3 : ℤ) = 1)) :=
  ⟨by decide, accommodation_zero_iff cars cars_mem 115 3 (by decide) false⟩

/-- C27: for every table category, every non-negative integer map distance,
every integer `tripDays ≥ 1` and either accommodation choice, the
`totalCost` returned by `calculateTripCost` is `50 * m` for an integer
`m ≥ 1`, so that the advance payment `totalCost * 0.5` is the whole number
`25 * m`. -/
theorem totalCost_multiple_of_fifty (v : VehicleCategory) (hv : v ∈ VEHICLE_CATEGORIES)
    (d : ℤ) (hd : 0 ≤ d) (t : ℤ) (_ht : 1 ≤ t) (a : Bool) :
    ∃ r, calculateTripCost (d : ℚ) v.id (t : ℚ) a = Except.ok r ∧
      ∃ m : ℤ, 1 ≤ m ∧ r.totalCost = 50 * (m : ℚ) ∧ r.totalCost * (1 / 2) = ((25 * m : ℤ) : ℚ) := by
  obtain ⟨q, hq1, hq⟩ := systemRate_multiple_of_five hv
  have hacc : ∃ e : ℤ, 0 ≤ e ∧ accommodationCharge (t : ℚ) a = 50 * (e : ℚ) := by
    cases a with
    | true => exact ⟨0, le_refl _, by simp [accommodationCharge_provided]⟩
    | false =>
      obtain ⟨c1, c2, c3, c4⟩ := accommodationCharge_int t
      rcases days_cases t with h | h | h | h
      · exact ⟨0, le_refl _, by rw [c1 h]; norm_num⟩
      · exact ⟨60, by norm_num, by rw [c2 h]; norm_num⟩
      · exact ⟨100, by norm_num, by rw [c3 h]; norm_num⟩
      · exact ⟨140, by norm_num, by rw [c4 h]; norm_num⟩
  obtain ⟨e, he0, he⟩ := hacc
  have hc1 : 1 ≤ ⌈((d : ℚ) + 10) / 10⌉ := by
    apply Int.one_le_ceil_iff.mpr
    have : (0 : ℚ) ≤ (d : ℚ) := by exact_mod_cast hd
    positivity
  have hm : 1 ≤ ⌈((d : ℚ) + 10) / 10⌉ * q + e := by nlinarith
  have htot : (((⌈((d : ℚ) + 10) / 10⌉ : ℤ) : ℚ) * 10 * v.systemRate +
      accommodationCharge (t : ℚ) a) =
      50 * (((⌈((d : ℚ) + 10) / 10⌉ * q + e : ℤ)) : ℚ) := by
    rw [hq, he]; push_cast; ring
  refine ⟨_, calculateTripCost_of_mem hv d t a, ⌈((d : ℚ) + 10) / 10⌉ * q + e, hm, htot, ?_⟩
  show (((⌈((d : ℚ) + 10) / 10⌉ : ℤ) : ℚ) * 10 * v.systemRate +
      accommodationCharge (t : ℚ) a) * (1 / 2) = _
  rw [htot]; push_cast; ring

theorem totalCost_multiple_of_fifty_witness :
    ((0 : ℤ) ≤ 115 ∧ (1 : ℤ) ≤ 3) ∧
    ∃ r, calculateTripCost ((115 : ℤ) : ℚ) "cars" ((3 : ℤ) : ℚ) false = Except.ok r ∧
      ∃ m : ℤ, 1 ≤ m ∧ r.totalCost = 50 * (m : ℚ) ∧
        r.totalCost * (1 / 2) = ((25 * m : ℤ) : ℚ) :=
  ⟨⟨by decide, by decide⟩,
    totalCost_multiple_of_fifty cars cars_mem 115 (by decide) 3 (by decide) false⟩

/-- C28: with `accommodationProvided = false` and the other inputs fixed, the
accommodation cost, and with it the total cost, does not decrease when
`tripDays` grows: for all integers `1 ≤ t1 ≤ t2` the cost at `t1` is at most
the cost at `t2`. -/
theorem accommodation_monotone_in_days (v : VehicleCategory) (hv : v ∈ VEHICLE_CATEGORIES)
    (d : ℚ) (t1 t2 : ℤ) (_h1 : 1 ≤ t1) (h12 : t1 ≤ t2) :
    ∃ r1 r2, calculateTripCost d v.id (t1 : ℚ) false = Except.ok r1 ∧
      calculateTripCost d v.id (t2 : ℚ) false = Except.ok r2 ∧
      r1.accommodationCost ≤ r2.accommodationCost ∧ r1.totalCost ≤ r2.totalCost := by
  have key : accommodationCharge (t1 : ℚ) false ≤ accommodationCharge (t2 : ℚ) false := by
    obtain ⟨a1, a2, a3, a4⟩ := accommodationCharge_int t1
    obtain ⟨b1, b2, b3, b4⟩ := accommodationCharge_int t2
    rcases days_cases t1 with h | h | h | h <;> rcases days_cases t2 with k | k | k | k <;>
      first
      | (exfalso; omega)
      | (rw [a1 h, b1 k])
      | (rw [a1 h, b2 k]; norm_num)
      | (rw [a1 h, b3 k]; norm_num)
      | (rw [a1 h, b4 k]; norm_num)
      | (rw [a2 h, b2 k])
      | (rw [a2 h, b3 k]; norm_num)
      | (rw [a2 h, b4 k]; norm_num)
      | (rw [a3 h, b3 k])
      | (rw [a3 h, b4 k]; norm_num)
      | (rw [a4 h, b4 k])
  refine ⟨_, _, calculateTripCost_of_mem hv d t1 false, calculateTripCost_of_mem hv d t2 false,
    key, ?_⟩
  show _ + accommodationCharge (t1 : ℚ) false ≤ _ + accommodationCharge (t2 : ℚ) false
  linarith

theorem accommodation_monotone_in_days_witness :
    ((1 : ℤ) ≤ 3 ∧ (3 : ℤ) ≤ 7) ∧
    ∃ r1 r2, calculateTripCost 115 "cars" ((3 : ℤ) : ℚ) false = Except.ok r1 ∧
      calculateTripCost 115 "cars" ((7 : ℤ) : ℚ) false = Except.ok r2 ∧
      r1.accommodationCost ≤ r2.accommodationCost ∧ r1.totalCost ≤ r2.totalCost :=
  ⟨⟨by decide, by decide⟩,
    accommodation_monotone_in_days cars cars_mem 115 3 7 (by decide) (by decide)⟩

/-- C29: the `categoryMapping` of `proceedToBooking` is total and injective on
the vehicle table: the id of every table entry maps to its 1-based position
in the table, a defined number other than 0, so the test that leads to
`'Invalid vehicle category selected'` is false for it; and two table entries
whose ids map to the same number are the same entry. -/
theorem categoryMapping_total_injective (v : VehicleCategory) (hv : v ∈ VEHICLE_CATEGORIES)
    (v1 v2 : VehicleCategory) (hv1 : v1 ∈ VEHICLE_CATEGORIES) (hv2 : v2 ∈ VEHICLE_CATEGORIES)
    (hsame : categoryMapping v1.id = categoryMapping v2.id) :
    (∃ i : ℕ, VEHICLE_CATEGORIES[i]? = some v ∧ categoryMapping v.id = some ((i : ℚ) + 1) ∧
      (i : ℚ) + 1 ≠ 0) ∧
    invalidCategorySelected v.id = false ∧ v1 = v2 := by
  obtain ⟨m1, m2, m3, m4, m5⟩ := categoryMapping_values
  refine ⟨?_, ?_, ?_⟩
  · rcases (mem_table_iff v).mp hv with rfl | rfl | rfl | rfl | rfl
    · exact ⟨0, rfl, by rw [m1]; norm_num, by norm_num⟩
    · exact ⟨1, rfl, by rw [m2]; norm_num, by norm_num⟩
    · exact ⟨2, rfl, by rw [m3]; norm_num, by norm_num⟩
    · exact ⟨3, rfl, by rw [m4]; norm_num, by norm_num⟩
    · exact ⟨4, rfl, by rw [m5]; norm_num, by norm_num⟩
  · rcases (mem_table_iff v).mp hv with rfl | rfl | rfl | rfl | rfl <;>
      simp only [invalidCategorySelected, m1, m2, m3, m4, m5] <;> norm_num
  · rcases (mem_table_iff v1).mp hv1 with rfl | rfl | rfl | rfl | rfl <;>
      rcases (mem_table_iff v2).mp hv2 with rfl | rfl | rfl | rfl | rfl <;>
      first
      | rfl
      | (exfalso
         simp only [m1, m2, m3, m4, m5] at hsame
         revert hsame
         norm_num)

theorem categoryMapping_total_injective_witness :
    (∃ i : ℕ, VEHICLE_CATEGORIES[i]? = some other_vans ∧
      categoryMapping other_vans.id = some ((i : ℚ) + 1) ∧ (i : ℚ) + 1 ≠ 0) ∧
    invalidCategorySelected other_vans.id = false ∧ mini_buses = mini_buses :=
  categoryMapping_total_injective other_vans (by simp [VEHICLE_CATEGORIES])
    mini_buses mini_buses mini_buses_mem mini_buses_mem rfl

/-- C30: every entry of `VEHICLE_CATEGORIES` is well-formed: its id is unique
in the table (another entry with the same id is the same entry, the ids
listed have no duplicate, and the lookup by id of `calculateTripCost` finds
this entry), `1 ≤ minPassengers ≤ maxPassengers`, and
`0 < driverRate < systemRate`. -/
theorem table_well_formed (v : VehicleCategory) (hv : v ∈ VEHICLE_CATEGORIES) :
    (∀ u ∈ VEHICLE_CATEGORIES, u.id = v.id → u = v) ∧
    (VEHICLE_CATEGORIES.map (fun u => u.id)).Nodup ∧
    VEHICLE_CATEGORIES.find? (fun u => u.id == v.id) = some v ∧
    1 ≤ v.minPassengers ∧ v.minPassengers ≤ v.maxPassengers ∧
    0 < v.driverRate ∧ v.driverRate < v.systemRate := by
  refine ⟨?_, by decide, find_of_mem hv, ?_, ?_, ?_, driverRate_lt_systemRate hv⟩
  · intro u hu hid
    rcases (mem_table_iff v).mp hv with rfl | rfl | rfl | rfl | rfl <;>
      rcases (mem_table_iff u).mp hu with rfl | rfl | rfl | rfl | rfl <;>
      first
      | rfl
      | (exfalso; revert hid; decide)
  all_goals
    rcases (mem_table_iff v).mp hv with rfl | rfl | rfl | rfl | rfl <;>
      norm_num [cars, kdh_flat_roof, kdh_high_roof, other_vans, mini_buses]

theorem table_well_formed_witness :
    (∀ u ∈ VEHICLE_CATEGORIES, u.id = kdh_high_roof.id → u = kdh_high_roof) ∧
    (VEHICLE_CATEGORIES.map (fun u => u.id)).Nodup ∧
    VEHICLE_CATEGORIES.find? (fun u => u.id == kdh_high_roof.id) = some kdh_high_roof ∧
    1 ≤ kdh_high_roof.minPassengers ∧
    kdh_high_roof.minPassengers ≤ kdh_high_roof.maxPassengers ∧
    0 < kdh_high_roof.driverRate ∧ kdh_high_roof.driverRate < kdh_high_roof.systemRate :=
  table_well_formed kdh_high_roof (by simp [VEHICLE_CATEGORIES])

/-! ## Lemmas on the stop time and on return trips -/

/-- The facts about a successful call that the claims below share: the
segment count, the total duration, the run of provider calls and the text of
`feasibility.stopTime`. -/
theorem route_totals {σ : Type} (fetch : Fetch σ) (locs : List String)
    (options : RouteOptions) (w w' : σ) (r : RouteResult)
    (h : calculateRouteDistance fetch (some locs) options w = (Except.ok r, w')) :
    2 ≤ locs.length ∧
    r.segments.length = (routeLocations locs options.isReturnTrip).length - 1 ∧
    r.totalDuration = (r.segments.map (fun g => g.duration.value)).sum / 3600 +
      options.additionalStopTime *
        (((routeLocations locs options.isReturnTrip).length : ℚ) - 2) ∧
    LegsAnswered fetch (routeLocations locs options.isReturnTrip) 0 r.segments w w' ∧
    r.feasibility.stopTime =
      (if (r.segments.length : ℚ) > 1 then
        numberToString (options.additionalStopTime * ((r.segments.length : ℚ) - 1)) ++ " hours"
      else "No stops") := by
  obtain ⟨locs', acc, hl, hlen, hloop, rfl⟩ :=
    calculateRouteDistance_ok fetch (some locs) options w w' r h
  cases hl
  have hn := routeLocations_length locs hlen options.isReturnTrip
  obtain ⟨segs, h1, h2, _, h4⟩ :=
    routeLoop_ok fetch options.additionalStopTime _ _ 0 _ w acc w' (Nat.zero_add _) hloop
  simp only [List.nil_append] at h1
  obtain ⟨segs', h1', htrace⟩ :=
    routeLoop_trace fetch options.additionalStopTime _ _ 0 _ w acc w' hloop
  simp only [List.nil_append] at h1'
  have hn2 : 2 ≤ (routeLocations locs options.isReturnTrip).length := by omega
  have hcast : (((routeLocations locs options.isReturnTrip).length - 2 : ℕ) : ℚ) =
      ((routeLocations locs options.isReturnTrip).length : ℚ) - 2 := by
    rw [Nat.cast_sub hn2]; simp
  refine ⟨hlen, ?_, ?_, ?_, rfl⟩
  · show acc.segments.length = _
    rw [h1, h2]
  · show acc.totalDuration / 3600 = (acc.segments.map (fun g => g.duration.value)).sum / 3600 + _
    rw [h4, h1, hcast]
    ring
  · show LegsAnswered fetch _ 0 acc.segments w w'
    rw [h1']; exact htrace

/-- A positive whole number of hours is rendered without minutes. -/
theorem formatDuration_whole (k : ℤ) (hk : 1 ≤ k) :
    formatDuration (k : ℚ) = toString k ++ " hours" := by
  have hM : jsRound (fl64 (fl64 ((k : ℚ) - (k : ℚ)) * 60)) = 0 := by
    rw [sub_self]
    exact minutes_zero
  rw [formatDuration_eval (Int.floor_intCast k) hM, if_neg (by omega), if_pos (by omega)]

/-! ## Claims on the stop time and on return trips -/

/-- C21 (counterexample): for the one-way route from Colombo to Kandy, with no
intermediate stop, `feasibility.stopTime` is `'No stops'`, which is not
`formatDuration(3 * 0) = '0 mins'`. -/
theorem stopTime_no_stops :
    ∃ r, calculateRouteDistance scenarioFetch (some ["Colombo", "Kandy"])
        { isReturnTrip := false, startTime := "09:00", additionalStopTime := 3 } () =
        (Except.ok r, ()) ∧
      r.feasibility.stopTime = "No stops" ∧ formatDuration (3 * 0) = "0 mins" ∧
      r.feasibility.stopTime ≠ formatDuration (3 * 0) := by
  have hfd : formatDuration (3 * 0) = "0 mins" := by
    have hM : jsRound (fl64 (fl64 ((0 : ℚ) - ((0 : ℤ) : ℚ)) * 60)) = 0 := by
      rw [Int.cast_zero, sub_zero]
      exact minutes_zero
    rw [mul_zero, formatDuration_eval Int.floor_zero hM]
    decide
  have hst : (routeSummary {}
      { segments :=
          [{ «from» := "Colombo", «to» := "Kandy",
             distance := { text := numberToString 115000 ++ " m", value := 115000 },
             duration := { text := numberToString 10800 ++ " s", value := 10800 },
             index := 1 }]
        totalDistance := 115000
        totalDuration := 10800 }).feasibility.stopTime = "No stops" := by
    simp [routeSummary]
  refine ⟨_, scenarioA_result, hst, hfd, ?_⟩
  rw [hst, hfd]
  decide

/-- C21 (amended): for every successful `calculateRouteDistance` call with
non-negative `additionalStopTime`, `feasibility.stopTime` is the text
`'No stops'` when the effective route has two stops, and otherwise the dwell
overhead `additionalStopTime * (stops - 2)` printed as a plain number and
followed by `' hours'`; it does not go through `formatDuration`, with whose
rendering it agrees when the overhead is a positive whole number of hours. -/
theorem stopTime_rendering {σ : Type} (fetch : Fetch σ)
    (locations : Option (List String)) (options : RouteOptions) (w w' : σ) (r : RouteResult)
    (h : calculateRouteDistance fetch locations options w = (Except.ok r, w'))
    (_hs : 0 ≤ options.additionalStopTime) :
    ∃ locs : List String, locations = some locs ∧
      ((routeLocations locs options.isReturnTrip).length = 2 →
        r.feasibility.stopTime = "No stops") ∧
      (2 < (routeLocations locs options.isReturnTrip).length →
        r.feasibility.stopTime =
          numberToString (options.additionalStopTime *
            (((routeLocations locs options.isReturnTrip).length : ℚ) - 2)) ++ " hours") ∧
      (∀ k : ℤ, 1 ≤ k → 2 < (routeLocations locs options.isReturnTrip).length →
        options.additionalStopTime *
          (((routeLocations locs options.isReturnTrip).length : ℚ) - 2) = (k : ℚ) →
        r.feasibility.stopTime = toString k ++ " hours" ∧
        r.feasibility.stopTime = formatDuration (options.additionalStopTime *
          (((routeLocations locs options.isReturnTrip).length : ℚ) - 2))) := by
  obtain ⟨locs, _, hl, _, _, _⟩ := calculateRouteDistance_ok fetch locations options w w' r h
  subst hl
  obtain ⟨hlen, hseg, _, _, hstop⟩ := route_totals fetch locs options w w' r h
  have hn := routeLocations_length locs hlen options.isReturnTrip
  have hsegq : (r.segments.length : ℚ) =
      ((routeLocations locs options.isReturnTrip).length : ℚ) - 1 := by
    rw [hseg, Nat.cast_sub (by omega)]; simp
  have hmany : 2 < (routeLocations locs options.isReturnTrip).length →
      r.feasibility.stopTime =
        numberToString (options.additionalStopTime *
          (((routeLocations locs options.isReturnTrip).length : ℚ) - 2)) ++ " hours" := by
    intro h2
    have hq : (2 : ℚ) < ((routeLocations locs options.isReturnTrip).length : ℚ) := by
      exact_mod_cast h2
    rw [hstop, hsegq, if_pos (by linarith)]
    congr 3
    ring
  refine ⟨locs, rfl, ?_, hmany, ?_⟩
  · intro h2
    rw [hstop, hsegq, h2, if_neg (by norm_num)]
  · intro k hk h2 hk'
    have e1 : r.feasibility.stopTime = toString k ++ " hours" := by
      rw [hmany h2, hk', numberToString_int]
    exact ⟨e1, by rw [e1, hk', formatDuration_whole k hk]⟩

theorem stopTime_rendering_witness :
    (0 : ℚ) ≤ 3 ∧
    ∃ r, calculateRouteDistance scenarioFetch (some ["Colombo", "Kandy", "Ella"]) {} () =
        (Except.ok r, ()) ∧
      r.feasibility.stopTime = toString (3 : ℤ) ++ " hours" := by
  refine ⟨by norm_num, ?_⟩
  obtain ⟨locs, hl, _, _, h3⟩ :=
    stopTime_rendering scenarioFetch (some ["Colombo", "Kandy", "Ella"]) {} () () _
      scenarioB_result (by norm_num [RouteOptions.additionalStopTime])
  cases hl
  refine ⟨_, scenarioB_result, (h3 3 (by norm_num) (by simp [routeLocations]) ?_).1⟩
  simp [routeLocations]
  norm_num

/-- The run of `roundTripFetch` from Colombo to Kandy, one way. -/
theorem oneWay_result :
    calculateRouteDistance roundTripFetch (some ["Colombo", "Kandy"])
        { isReturnTrip := false, startTime := "09:00", additionalStopTime := 3 } () =
      (Except.ok (routeSummary
        { isReturnTrip := false, startTime := "09:00", additionalStopTime := 3 }
        { segments :=
            [{ «from» := "Colombo", «to» := "Kandy",
               distance := { text := numberToString 115000 ++ " m", value := 115000 },
               duration := { text := numberToString 10800 ++ " s", value := 10800 },
               index := 1 }]
          totalDistance := 115000
          totalDuration := 10800 }), ()) := by
  simp [calculateRouteDistance, routeLocations, routeLoop, calculateSegmentDistance,
    roundTripFetch, tableFetch, okBody, List.find?]

/-- The run of `roundTripFetch` from Colombo to Kandy and back. -/
theorem roundTrip_result :
    calculateRouteDistance roundTripFetch (some ["Colombo", "Kandy"])
        { isReturnTrip := true, startTime := "09:00", additionalStopTime := 3 } () =
      (Except.ok (routeSummary
        { isReturnTrip := true, startTime := "09:00", additionalStopTime := 3 }
        { segments :=
            [{ «from» := "Colombo", «to» := "Kandy",
               distance := { text := numberToString 115000 ++ " m", value := 115000 },
               duration := { text := numberToString 10800 ++ " s", value := 10800 },
               index := 1 },
             { «from» := "Kandy", «to» := "Colombo",
               distance := { text := numberToString 115000 ++ " m", value := 115000 },
               duration := { text := numberToString 10800 ++ " s", value := 10800 },
               index := 2 }]
          totalDistance := 230000
          totalDuration := 32400 }), ()) := by
  simp [calculateRouteDistance, routeLocations, routeLoop, calculateSegmentDistance,
    roundTripFetch, tableFetch, okBody, List.find?]
  norm_num

/-- C25: for every list of `n ≥ 2` stops and calls that start in the same
world state, the return trip has the segments of the one-way trip followed
by one return leg from the last stop to the first, carrying the provider's
answer; the one-way total holds `n - 2` dwell units and the return total
`n - 1`, so the return total is the one-way total plus the return leg's
duration plus exactly one `additionalStopTime`.  From Colombo to Kandy (3 h)
the one-way total is 3 h and the return total is 3 + 3 + 3 = 9 h. -/
theorem return_trip_dwell {σ : Type} (fetch : Fetch σ) (locs : List String)
    (startTime : String) (additionalStopTime : ℚ) (w w1 w2 : σ) (r1 r2 : RouteResult)
    (h1 : calculateRouteDistance fetch (some locs)
      { isReturnTrip := false, startTime := startTime,
        additionalStopTime := additionalStopTime } w = (Except.ok r1, w1))
    (h2 : calculateRouteDistance fetch (some locs)
      { isReturnTrip := true, startTime := startTime,
        additionalStopTime := additionalStopTime } w = (Except.ok r2, w2)) :
    (2 ≤ locs.length ∧
      ∃ g : Segment, r2.segments = r1.segments ++ [g] ∧
        locs.getLast? = some g.from ∧ locs.head? = some g.to ∧ ProviderAnswered fetch g ∧
        r1.totalDuration = (r1.segments.map (fun x => x.duration.value)).sum / 3600 +
          additionalStopTime * ((locs.length : ℚ) - 2) ∧
        r2.totalDuration = (r2.segments.map (fun x => x.duration.value)).sum / 3600 +
          additionalStopTime * ((locs.length : ℚ) - 1) ∧
        r2.totalDuration = r1.totalDuration + g.duration.value / 3600 + additionalStopTime) ∧
    (∃ rOne rBack,
      calculateRouteDistance roundTripFetch (some ["Colombo", "Kandy"])
        { isReturnTrip := false, startTime := "09:00", additionalStopTime := 3 } () =
        (Except.ok rOne, ()) ∧
      calculateRouteDistance roundTripFetch (some ["Colombo", "Kandy"])
        { isReturnTrip := true, startTime := "09:00", additionalStopTime := 3 } () =
        (Except.ok rBack, ()) ∧
      rOne.totalDuration = 3 ∧ rBack.totalDuration = 9) := by
  refine ⟨?_, ⟨_, _, oneWay_result, roundTrip_result, ?_, ?_⟩⟩
  · obtain ⟨hlen, _, hd1, ht1, _⟩ := route_totals fetch locs _ w w1 r1 h1
    obtain ⟨_, _, hd2, ht2, _⟩ := route_totals fetch locs _ w w2 r2 h2
    -- the two effective stop lists
    rcases List.eq_nil_or_concat locs with hnil | ⟨pre, a, hpa⟩
    · rw [hnil] at hlen; simp at hlen
    rw [List.concat_eq_append] at hpa
    obtain ⟨s0, tl, hs0⟩ : ∃ s0 tl, locs = s0 :: tl := by
      cases locs with
      | nil => simp at hlen
      | cons s0 tl => exact ⟨s0, tl, rfl⟩
    have hroute1 : routeLocations locs false = pre ++ [a] := by
      simp [routeLocations, hpa]
    have hroute2 : routeLocations locs true = pre ++ a :: [s0] := by
      rw [routeLocations, if_pos rfl, hs0]
      simp only [List.head?_cons, Option.toList_some]
      rw [← hs0, hpa]
      simp
    have hlen1 : (routeLocations locs false).length = locs.length := by
      simp [routeLocations]
    have hlen2 : ((routeLocations locs true).length : ℚ) = (locs.length : ℚ) + 1 := by
      rw [routeLocations_length locs hlen true]; push_cast; simp
    simp only at hd1 hd2 ht1 ht2
    -- the return run starts with the one-way run
    rw [hroute1] at ht1
    obtain ⟨acc2, hr2eq⟩ : ∃ acc2 : RouteTotals,
        routeLoop fetch additionalStopTime (routeLocations locs true).length 0
          (routeLocations locs true)
          { segments := [], totalDistance := 0, totalDuration := 0 } w = (Except.ok acc2, w2) ∧
        r2.segments = acc2.segments := by
      obtain ⟨locs', acc, hl, _, hloop, hr⟩ :=
        calculateRouteDistance_ok fetch (some locs) _ w w2 r2 h2
      cases hl
      exact ⟨acc, hloop, by rw [hr]; rfl⟩
    obtain ⟨hloop2, hseg2⟩ := hr2eq
    obtain ⟨accK, hK1, hK2⟩ := routeLoop_prefix fetch additionalStopTime
      (routeLocations locs true).length a [s0] pre 0
      { segments := [], totalDistance := 0, totalDuration := 0 } w w1 r1.segments ht1
    simp only [List.nil_append] at hK1
    have hloop2' := hloop2
    conv at hloop2' => lhs; rw [hroute2]
    rw [hroute2] at hK2
    rw [hK2] at hloop2'
    obtain ⟨segsR, hR1, hR2⟩ := routeLoop_trace fetch additionalStopTime _ _ _ _ w1 acc2 w2
      hloop2'
    obtain ⟨hRlen, hRk⟩ := LegsAnswered_index fetch _ _ segsR w1 w2 hR2
    obtain ⟨g, hg⟩ : ∃ g, segsR = [g] := by
      cases segsR with
      | nil => simp at hRlen
      | cons g t =>
        cases t with
        | nil => exact ⟨g, rfl⟩
        | cons g' t' => simp at hRlen
    subst hg
    obtain ⟨k1, k2, _, k4⟩ := hRk 0 g rfl
    have hsegs : r2.segments = r1.segments ++ [g] := by rw [hseg2, hR1, hK1]
    have hlenq : ((routeLocations locs false).length : ℚ) = (locs.length : ℚ) := by
      rw [hlen1]
    refine ⟨hlen, g, hsegs, ?_, ?_, k4, ?_, ?_, ?_⟩
    · rw [hpa]
      have hk1 : g.from = a := by simpa using k1.symm
      rw [hk1]
      simp
    · rw [hs0]
      simpa using k2
    · rw [hd1, hlenq]
    · rw [hd2, hlen2]
      congr 2
      ring
    · rw [hd2, hd1, hlen2, hlenq, hsegs]
      simp only [List.map_append, List.map_cons, List.map_nil, List.sum_append, List.sum_cons,
        List.sum_nil]
      ring
  · simp [routeSummary]; norm_num
  · simp [routeSummary]; norm_num

theorem return_trip_dwell_witness :
    ∃ rOne rBack g,
      calculateRouteDistance roundTripFetch (some ["Colombo", "Kandy"])
        { isReturnTrip := false, startTime := "09:00", additionalStopTime := 3 } () =
        (Except.ok rOne, ()) ∧
      calculateRouteDistance roundTripFetch (some ["Colombo", "Kandy"])
        { isReturnTrip := true, startTime := "09:00", additionalStopTime := 3 } () =
        (Except.ok rBack, ()) ∧
      rBack.segments = rOne.segments ++ [g] ∧
      rBack.totalDuration = rOne.totalDuration + g.duration.value / 3600 + 3 := by
  obtain ⟨_, g, hg, _, _, _, _, _, hsum⟩ :=
    (return_trip_dwell roundTripFetch ["Colombo", "Kandy"] "09:00" 3 () () () _ _
      oneWay_result roundTrip_result).1
  exact ⟨_, _, g, oneWay_result, roundTrip_result, hg, hsum⟩

end Siyoga
